import Mathlib

/-!
# Verification of the scavenger-hunt directory services

A shallow embedding of the four directory services (`UserService`,
`SessionService`, `TeamService`, `ArtifactService`) that maintain the
denormalized, bidirectionally-pointered data model stored in a
path-addressed key-value store.

Modelling conventions:
* JS objects keyed by strings become association lists (`AssocL`);
  value-`true` member sets become `List String` with set-like insert/delete.
* A JS field that may be `undefined`/`null` or a string becomes
  `Option String`; JS truthiness of a string is `truthyS` (both absence and
  the empty string are falsy).
* The `artifacts` collection of a session is `Option (List String)` so that
  a record whose collection node is absent from the store (as the store
  yields for empty collections) is representable; `createSession` writes
  the empty collection, as the code does.
* Each service method becomes a function `... → DB → Except DbError Unit × DB`
  translated statement by statement: reads and precondition checks run
  against the incoming state, every store write immediately updates the
  state, and a thrown error aborts with the state as written so far.
  `Date.now()` becomes an explicit `now` argument.
* `DbError.failure` models a thrown `Error` with its message;
  `DbError.jsTypeError` models an uncaught TypeError from a property
  access on `undefined`.
* Path writes in the code always follow an existence check for the record
  they target; the update helpers leave the state unchanged when the
  target record is absent, which is only reachable on the checked paths.
-/

namespace Hunt

/-- String-keyed association list modelling a JS object. -/
abbrev AssocL (α : Type) := List (String × α)

/-- Lookup of a key, modelling `obj[k]` (absent key yields `undefined`). -/
def lookupA {α : Type} : AssocL α → String → Option α
  | [], _ => none
  | (k', v) :: rest, k => if k' = k then some v else lookupA rest k

/-- Removal of a key, modelling `delete`/`removeData` on a child path. -/
def eraseA {α : Type} : AssocL α → String → AssocL α
  | [], _ => []
  | (k', v) :: rest, k => if k' = k then eraseA rest k else (k', v) :: eraseA rest k

/-- Key update, modelling `obj[k] = v` / `setData` on a child path. -/
def insertA {α : Type} (l : AssocL α) (k : String) (v : α) : AssocL α :=
  (k, v) :: eraseA l k

/-- Membership in a `true`-valued set object. -/
def hasKey : List String → String → Bool
  | [], _ => false
  | x :: rest, k => if x = k then true else hasKey rest k

/-- `set[k] = true`. -/
def setAdd (l : List String) (k : String) : List String :=
  if hasKey l k then l else k :: l

/-- `delete set[k]`. -/
def setDel : List String → String → List String
  | [], _ => []
  | x :: rest, k => if x = k then setDel rest k else x :: setDel rest k

/-- JS truthiness of a possibly-absent string: absent, `null` and the empty
string are all falsy. -/
def truthyS : Option String → Bool
  | none => false
  | some v => if v = "" then false else true

/-- Per-session membership record stored at `users/u/sessionsJoined/s`. -/
structure Membership where
  teamId : Option String
  points : Int
  foundArtifacts : List String
  deriving DecidableEq

/-- `User` record. -/
structure UserRec where
  username : String
  email : String
  profilePictureUrl : Option String
  currentSession : Option String
  sessionsJoined : AssocL Membership
  isAdmin : Bool
  createdAt : Option Int
  updatedAt : Option Int
  deriving DecidableEq

/-- `Session` record.  `artifacts` is `none` when the collection node is
absent from the store. -/
structure SessionRec where
  sessionName : String
  creatorId : String
  startTime : Int
  endTime : Int
  isActive : Bool
  teams : List String
  participants : AssocL String
  artifacts : Option (List String)
  deriving DecidableEq

/-- `Team` record.  A blank team carries `sessionId = some ""` (the code
writes the empty string); a team whose `sessionId` node was removed carries
`none`. -/
structure TeamRec where
  sessionId : Option String
  teamName : String
  members : List String
  deriving DecidableEq

/-- `Artifact` record (coordinates are opaque payload, modelled as `Int`). -/
structure ArtifactRec where
  name : String
  description : String
  locationHint : String
  latitude : Int
  longitude : Int
  isChallenge : Bool
  imageUrl : Option String
  audioUrl : Option String
  deriving DecidableEq

/-- The whole store. -/
structure DB where
  users : AssocL UserRec
  sessions : AssocL SessionRec
  teams : AssocL TeamRec
  artifacts : AssocL ArtifactRec
  deriving DecidableEq

/-- The empty store. -/
def emptyDB : DB := ⟨[], [], [], []⟩

/-- Error raised by an operation. -/
inductive DbError
  | failure (msg : String)
  | jsTypeError (msg : String)
  deriving DecidableEq

deriving instance DecidableEq for Except

/-- Result of a mutating operation: outcome plus the store as left behind. -/
abbrev OpOut := Except DbError Unit × DB

/-- Replace the record of user `u` (no-op when absent, see header note). -/
def updUser (db : DB) (u : String) (f : UserRec → UserRec) : DB :=
  match lookupA db.users u with
  | none => db
  | some r => { db with users := insertA db.users u (f r) }

/-- Replace the record of session `s` (no-op when absent). -/
def updSession (db : DB) (s : String) (f : SessionRec → SessionRec) : DB :=
  match lookupA db.sessions s with
  | none => db
  | some r => { db with sessions := insertA db.sessions s (f r) }

/-- Replace the record of team `t` (no-op when absent). -/
def updTeam (db : DB) (t : String) (f : TeamRec → TeamRec) : DB :=
  match lookupA db.teams t with
  | none => db
  | some r => { db with teams := insertA db.teams t (f r) }

/-- `setData(users/u/updatedAt, Date.now())`. -/
def touchUser (db : DB) (u : String) (now : Int) : DB :=
  updUser db u (fun r => { r with updatedAt := some now })

/-- Replace the record of artifact `a` (no-op when absent). -/
def updArtifact (db : DB) (a : String) (f : ArtifactRec → ArtifactRec) : DB :=
  match lookupA db.artifacts a with
  | none => db
  | some r => { db with artifacts := insertA db.artifacts a (f r) }

/-- Update the membership record at `users/u/sessionsJoined/s` (no-op when
the user or the membership is absent; the callers check both first). -/
def updMembership (db : DB) (u s : String) (f : Membership → Membership) : DB :=
  updUser db u (fun r =>
    match lookupA r.sessionsJoined s with
    | none => r
    | some m => { r with sessionsJoined := insertA r.sessionsJoined s (f m) })

/-- `exists(sessions/s/artifacts/a)`. -/
def artifactNodeExists (db : DB) (s a : String) : Bool :=
  match lookupA db.sessions s with
  | none => false
  | some ss =>
    match ss.artifacts with
    | none => false
    | some l => hasKey l a

/-- `exists(sessions/s/participants/u)`. -/
def participantNodeExists (db : DB) (s u : String) : Bool :=
  match lookupA db.sessions s with
  | none => false
  | some ss => (lookupA ss.participants u).isSome

/-- Truthiness of `getData(users/u/sessionsJoined/s/foundArtifacts/a)`. -/
def foundNode (db : DB) (u s a : String) : Bool :=
  match lookupA db.users u with
  | none => false
  | some r =>
    match lookupA r.sessionsJoined s with
    | none => false
    | some m => hasKey m.foundArtifacts a

namespace UserService

/-- The blank `newUser` record written by `UserService.createUser`. -/
def newUser (now : Int) : UserRec :=
  { username := "", email := "", profilePictureUrl := none,
    currentSession := none, sessionsJoined := [], isAdmin := false,
    createdAt := some now, updatedAt := some now }

/-- `UserService.createUser`. -/
def createUser (userId : String) (now : Int) (db : DB) : OpOut :=
  if (lookupA db.users userId).isSome then
    (.error (.failure "User already exists"), db)
  else
    (.ok (), { db with users := insertA db.users userId (newUser now) })

/-- `UserService.setUsername`. -/
def setUsername (userId username : String) (now : Int) (db : DB) : OpOut :=
  match lookupA db.users userId with
  | none => (.error (.failure "User not found"), db)
  | some _ =>
    let db1 := updUser db userId (fun r => { r with username := username })
    (.ok (), touchUser db1 userId now)

/-- `UserService.setEmail`. -/
def setEmail (userId email : String) (now : Int) (db : DB) : OpOut :=
  match lookupA db.users userId with
  | none => (.error (.failure "User not found"), db)
  | some _ =>
    let db1 := updUser db userId (fun r => { r with email := email })
    (.ok (), touchUser db1 userId now)

/-- `UserService.setProfilePicture`. -/
def setProfilePicture (userId url : String) (now : Int) (db : DB) : OpOut :=
  match lookupA db.users userId with
  | none => (.error (.failure "User not found"), db)
  | some _ =>
    let db1 := updUser db userId (fun r => { r with profilePictureUrl := some url })
    (.ok (), touchUser db1 userId now)

/-- `UserService.setCurrentSession` (a `null` argument is `none`). -/
def setCurrentSession (userId : String) (sessionId : Option String) (now : Int)
    (db : DB) : OpOut :=
  match lookupA db.users userId with
  | none => (.error (.failure "User not found"), db)
  | some user =>
    if truthyS sessionId && (lookupA user.sessionsJoined (sessionId.getD "")).isNone then
      (.error (.failure "User is not part of this session"), db)
    else
      let db1 := updUser db userId (fun r => { r with currentSession := sessionId })
      (.ok (), touchUser db1 userId now)

/-- `UserService.setAdminStatus`. -/
def setAdminStatus (userId : String) (isAdmin : Bool) (now : Int) (db : DB) : OpOut :=
  match lookupA db.users userId with
  | none => (.error (.failure "User not found"), db)
  | some _ =>
    let db1 := updUser db userId (fun r => { r with isAdmin := isAdmin })
    (.ok (), touchUser db1 userId now)

/-- `UserService.addUserToSession`. -/
def addUserToSession (userId sessionId : String) (now : Int) (db : DB) : OpOut :=
  match lookupA db.users userId with
  | none => (.error (.failure "User not found"), db)
  | some user =>
    if (lookupA db.sessions sessionId).isNone then
      (.error (.failure "Session does not exist"), db)
    else if (lookupA user.sessionsJoined sessionId).isSome then
      (.error (.failure "User is already part of this session"), db)
    else
      let db1 := updUser db userId (fun r =>
        { r with sessionsJoined := insertA r.sessionsJoined sessionId (Membership.mk none 0 []) })
      let db2 := updSession db1 sessionId (fun ss =>
        { ss with participants := insertA ss.participants userId "" })
      (.ok (), touchUser db2 userId now)

/-- `UserService.removeUserFromSession`. -/
def removeUserFromSession (userId sessionId : String) (now : Int) (db : DB) : OpOut :=
  match lookupA db.users userId with
  | none => (.error (.failure "User not found"), db)
  | some user =>
    match lookupA user.sessionsJoined sessionId with
    | none => (.error (.failure "User is not part of this session"), db)
    | some sd =>
      if truthyS sd.teamId then
        (.error (.failure "Remove user from team first before removing from session"), db)
      else
        let db1 := updUser db userId (fun r =>
          { r with sessionsJoined := eraseA r.sessionsJoined sessionId })
        let db2 := updSession db1 sessionId (fun ss =>
          { ss with participants := eraseA ss.participants userId })
        let db3 := if user.currentSession = some sessionId then
            updUser db2 userId (fun r => { r with currentSession := none })
          else db2
        (.ok (), touchUser db3 userId now)

/-- `UserService.assignUserToTeam`. -/
def assignUserToTeam (userId sessionId teamId : String) (now : Int) (db : DB) : OpOut :=
  match lookupA db.users userId with
  | none => (.error (.failure "User not found"), db)
  | some user =>
    match lookupA user.sessionsJoined sessionId with
    | none => (.error (.failure "User is not part of this session"), db)
    | some sd =>
      match lookupA db.teams teamId with
      | none => (.error (.failure "Team does not exist"), db)
      | some team =>
        if team.sessionId ≠ some sessionId then
          (.error (.failure "Team does not belong to this session"), db)
        else
          let db1 := if truthyS sd.teamId then
              updTeam db (sd.teamId.getD "") (fun tr =>
                { tr with members := setDel tr.members userId })
            else db
          let db2 := updMembership db1 userId sessionId (fun m =>
            { m with teamId := some teamId })
          let db3 := updTeam db2 teamId (fun tr =>
            { tr with members := setAdd tr.members userId })
          let db4 := updSession db3 sessionId (fun ss =>
            { ss with participants := insertA ss.participants userId teamId })
          (.ok (), touchUser db4 userId now)

/-- `UserService.removeUserFromTeam`. -/
def removeUserFromTeam (userId sessionId : String) (now : Int) (db : DB) : OpOut :=
  match lookupA db.users userId with
  | none => (.error (.failure "User not found"), db)
  | some user =>
    match lookupA user.sessionsJoined sessionId with
    | none => (.error (.failure "User is not part of this session"), db)
    | some sd =>
      if !truthyS sd.teamId then
        (.error (.failure "User is not part of any team in this session"), db)
      else
        let db1 := updTeam db (sd.teamId.getD "") (fun tr =>
          { tr with members := setDel tr.members userId })
        let db2 := updMembership db1 userId sessionId (fun m =>
          { m with teamId := none })
        let db3 := updSession db2 sessionId (fun ss =>
          { ss with participants := insertA ss.participants userId "" })
        (.ok (), touchUser db3 userId now)

/-- `UserService.addFoundArtifact`. -/
def addFoundArtifact (userId sessionId artifactId : String) (now : Int) (db : DB) : OpOut :=
  match lookupA db.users userId with
  | none => (.error (.failure "User not found"), db)
  | some user =>
    if (lookupA user.sessionsJoined sessionId).isNone then
      (.error (.failure "User is not part of this session"), db)
    else if !artifactNodeExists db sessionId artifactId then
      (.error (.failure "Artifact is not part of this session"), db)
    else
      let db1 := updMembership db userId sessionId (fun m =>
        { m with foundArtifacts := setAdd m.foundArtifacts artifactId })
      (.ok (), touchUser db1 userId now)

/-- `UserService.removeFoundArtifact`. -/
def removeFoundArtifact (userId sessionId artifactId : String) (now : Int) (db : DB) : OpOut :=
  match lookupA db.users userId with
  | none => (.error (.failure "User not found"), db)
  | some user =>
    match lookupA user.sessionsJoined sessionId with
    | none => (.error (.failure "User is not part of this session"), db)
    | some sd =>
      if !hasKey sd.foundArtifacts artifactId then
        (.error (.failure "Artifact is not in user\x27s found artifacts"), db)
      else
        let db1 := updMembership db userId sessionId (fun m =>
          { m with foundArtifacts := setDel m.foundArtifacts artifactId })
        (.ok (), touchUser db1 userId now)

/-- `UserService.updatePoints`. -/
def updatePoints (userId sessionId : String) (points : Int) (now : Int) (db : DB) : OpOut :=
  match lookupA db.users userId with
  | none => (.error (.failure "User not found"), db)
  | some user =>
    if (lookupA user.sessionsJoined sessionId).isNone then
      (.error (.failure "User is not part of this session"), db)
    else
      let db1 := updMembership db userId sessionId (fun m => { m with points := points })
      (.ok (), touchUser db1 userId now)

/-- `UserService.deleteUser`. -/
def deleteUser (userId : String) (db : DB) : OpOut :=
  match lookupA db.users userId with
  | none => (.error (.failure "User not found"), db)
  | some user =>
    if !user.sessionsJoined.isEmpty then
      (.error (.failure "User still has session associations. Remove from all sessions first"), db)
    else
      (.ok (), { db with users := eraseA db.users userId })

end UserService

namespace TeamService

/-- The blank `newTeam` record written by `TeamService.createTeam`
(the code stores the empty string as `sessionId`). -/
def newTeam : TeamRec := { sessionId := some "", teamName := "", members := [] }

/-- `TeamService.createTeam`. -/
def createTeam (teamId : String) (db : DB) : OpOut :=
  if (lookupA db.teams teamId).isSome then
    (.error (.failure "Team already exists"), db)
  else
    (.ok (), { db with teams := insertA db.teams teamId newTeam })

/-- `TeamService.setTeamName`. -/
def setTeamName (teamId name : String) (db : DB) : OpOut :=
  match lookupA db.teams teamId with
  | none => (.error (.failure "Team not found"), db)
  | some _ =>
    (.ok (), updTeam db teamId (fun tr => { tr with teamName := name }))

/-- `TeamService.addMember`.  Note: it writes `teams/t/members/u` and
`sessions/sid/participants/u`, but not the user record. -/
def addMember (teamId userId : String) (db : DB) : OpOut :=
  match lookupA db.teams teamId with
  | none => (.error (.failure "Team not found"), db)
  | some team =>
    if !truthyS team.sessionId then
      (.error (.failure "Team must be assigned to a session before adding members"), db)
    else
      let sid := team.sessionId.getD ""
      if !participantNodeExists db sid userId then
        (.error (.failure "User must be part of the session before joining team"), db)
      else if hasKey team.members userId then
        (.error (.failure "User is already a member of this team"), db)
      else
        let db1 := updTeam db teamId (fun tr => { tr with members := setAdd tr.members userId })
        let db2 := updSession db1 sid (fun ss =>
          { ss with participants := insertA ss.participants userId teamId })
        (.ok (), db2)

/-- `TeamService.removeMember`.  Note: it clears `teams/t/members/u` and
resets the session participant entry, but not the user record. -/
def removeMember (teamId userId : String) (db : DB) : OpOut :=
  match lookupA db.teams teamId with
  | none => (.error (.failure "Team not found"), db)
  | some team =>
    if !hasKey team.members userId then
      (.error (.failure "User is not a member of this team"), db)
    else
      let db1 := updTeam db teamId (fun tr => { tr with members := setDel tr.members userId })
      let db2 := if truthyS team.sessionId then
          updSession db1 (team.sessionId.getD "") (fun ss =>
            { ss with participants := insertA ss.participants userId "" })
        else db1
      (.ok (), db2)

/-- `TeamService.deleteTeam`. -/
def deleteTeam (teamId : String) (db : DB) : OpOut :=
  match lookupA db.teams teamId with
  | none => (.error (.failure "Team not found"), db)
  | some team =>
    if truthyS team.sessionId then
      (.error (.failure "Remove team from session before deletion"), db)
    else if !team.members.isEmpty then
      (.error (.failure "Remove all team members before deletion"), db)
    else
      (.ok (), { db with teams := eraseA db.teams teamId })

end TeamService

namespace SessionService

/-- The blank `newSession` record written by `SessionService.createSession`.
The code writes `artifacts: \x7b\x7d`, but the store drops empty collections, so
the freshly created session record carries no `artifacts` node (`none`). -/
def newSession (creatorId : String) : SessionRec :=
  { sessionName := "", creatorId := creatorId, startTime := 0, endTime := 0,
    isActive := false, teams := [], participants := [], artifacts := none }

/-- `SessionService.createSession`. -/
def createSession (sessionId creatorId : String) (db : DB) : OpOut :=
  if (lookupA db.sessions sessionId).isSome then
    (.error (.failure "Session already exists"), db)
  else
    (.ok (), { db with sessions := insertA db.sessions sessionId (newSession creatorId) })

/-- `SessionService.setSessionName`. -/
def setSessionName (sessionId name : String) (db : DB) : OpOut :=
  match lookupA db.sessions sessionId with
  | none => (.error (.failure "Session not found"), db)
  | some _ =>
    (.ok (), updSession db sessionId (fun ss => { ss with sessionName := name }))

/-- `SessionService.setTimes`. -/
def setTimes (sessionId : String) (startTime endTime : Int) (db : DB) : OpOut :=
  match lookupA db.sessions sessionId with
  | none => (.error (.failure "Session not found"), db)
  | some _ =>
    if startTime ≥ endTime then
      (.error (.failure "Start time must be before end time"), db)
    else
      let db1 := updSession db sessionId (fun ss => { ss with startTime := startTime })
      let db2 := updSession db1 sessionId (fun ss => { ss with endTime := endTime })
      (.ok (), db2)

/-- `SessionService.setActiveStatus`. -/
def setActiveStatus (sessionId : String) (isActive : Bool) (db : DB) : OpOut :=
  match lookupA db.sessions sessionId with
  | none => (.error (.failure "Session not found"), db)
  | some _ =>
    (.ok (), updSession db sessionId (fun ss => { ss with isActive := isActive }))

/-- `SessionService.addTeam`. -/
def addTeam (sessionId teamId : String) (db : DB) : OpOut :=
  match lookupA db.sessions sessionId with
  | none => (.error (.failure "Session not found"), db)
  | some _ =>
    match lookupA db.teams teamId with
    | none => (.error (.failure "Team not found"), db)
    | some team =>
      if truthyS team.sessionId then
        (.error (.failure "Team is already part of another session"), db)
      else if !team.members.isEmpty then
        (.error (.failure "Team must be empty before adding to session"), db)
      else
        let db1 := updSession db sessionId (fun ss => { ss with teams := setAdd ss.teams teamId })
        let db2 := updTeam db1 teamId (fun tr => { tr with sessionId := some sessionId })
        (.ok (), db2)

/-- `SessionService.removeTeam` (`removeData(teams/t/sessionId)` leaves the
node absent, i.e. `none`). -/
def removeTeam (sessionId teamId : String) (db : DB) : OpOut :=
  match lookupA db.sessions sessionId with
  | none => (.error (.failure "Session not found"), db)
  | some session =>
    if !hasKey session.teams teamId then
      (.error (.failure "Team is not part of this session"), db)
    else
      match lookupA db.teams teamId with
      | none => (.error (.failure "Team not found"), db)
      | some team =>
        if !team.members.isEmpty then
          (.error (.failure "Team must be empty before removing from session"), db)
        else
          let db1 := updSession db sessionId (fun ss => { ss with teams := setDel ss.teams teamId })
          let db2 := updTeam db1 teamId (fun tr => { tr with sessionId := none })
          (.ok (), db2)

/-- `SessionService.addArtifact` (the path write creates the `artifacts`
node when it is absent). -/
def addArtifact (sessionId artifactId : String) (db : DB) : OpOut :=
  match lookupA db.sessions sessionId with
  | none => (.error (.failure "Session not found"), db)
  | some _ =>
    if (lookupA db.artifacts artifactId).isNone then
      (.error (.failure "Artifact not found"), db)
    else
      (.ok (), updSession db sessionId (fun ss =>
        { ss with artifacts := some (setAdd (ss.artifacts.getD []) artifactId) }))

/-- `SessionService.removeArtifact`: the linear scan over the current
participants enforcing the found-artifact ratchet. -/
def removeArtifact (sessionId artifactId : String) (db : DB) : OpOut :=
  match lookupA db.sessions sessionId with
  | none => (.error (.failure "Session not found"), db)
  | some session =>
    if !(match session.artifacts with
         | none => false
         | some l => hasKey l artifactId) then
      (.error (.failure "Artifact is not part of this session"), db)
    else if session.participants.any (fun p => foundNode db p.1 sessionId artifactId) then
      (.error (.failure "Cannot remove artifact that has been found by users"), db)
    else
      (.ok (), updSession db sessionId (fun ss =>
        { ss with artifacts := some (setDel (ss.artifacts.getD []) artifactId) }))

/-- `SessionService.deleteSession`. -/
def deleteSession (sessionId : String) (db : DB) : OpOut :=
  match lookupA db.sessions sessionId with
  | none => (.error (.failure "Session not found"), db)
  | some session =>
    if !session.participants.isEmpty then
      (.error (.failure "Cannot delete session with active participants"), db)
    else if !session.teams.isEmpty then
      (.error (.failure "Cannot delete session with associated teams"), db)
    else
      (.ok (), { db with sessions := eraseA db.sessions sessionId })

end SessionService

namespace ArtifactService

/-- The blank `newArtifact` record written by `ArtifactService.createArtifact`. -/
def newArtifact : ArtifactRec :=
  { name := "", description := "", locationHint := "", latitude := 0,
    longitude := 0, isChallenge := false, imageUrl := none, audioUrl := none }

/-- `ArtifactService.createArtifact`. -/
def createArtifact (artifactId : String) (db : DB) : OpOut :=
  if (lookupA db.artifacts artifactId).isSome then
    (.error (.failure "Artifact already exists"), db)
  else
    (.ok (), { db with artifacts := insertA db.artifacts artifactId newArtifact })

/-- `ArtifactService.setName`. -/
def setName (artifactId name : String) (db : DB) : OpOut :=
  match lookupA db.artifacts artifactId with
  | none => (.error (.failure "Artifact not found"), db)
  | some _ => (.ok (), updArtifact db artifactId (fun a => { a with name := name }))

/-- `ArtifactService.setDescription`. -/
def setDescription (artifactId description : String) (db : DB) : OpOut :=
  match lookupA db.artifacts artifactId with
  | none => (.error (.failure "Artifact not found"), db)
  | some _ => (.ok (), updArtifact db artifactId (fun a => { a with description := description }))

/-- `ArtifactService.setLocationHint`. -/
def setLocationHint (artifactId hint : String) (db : DB) : OpOut :=
  match lookupA db.artifacts artifactId with
  | none => (.error (.failure "Artifact not found"), db)
  | some _ => (.ok (), updArtifact db artifactId (fun a => { a with locationHint := hint }))

/-- `ArtifactService.setCoordinates` (two successive writes). -/
def setCoordinates (artifactId : String) (latitude longitude : Int) (db : DB) : OpOut :=
  match lookupA db.artifacts artifactId with
  | none => (.error (.failure "Artifact not found"), db)
  | some _ =>
    let db1 := updArtifact db artifactId (fun a => { a with latitude := latitude })
    let db2 := updArtifact db1 artifactId (fun a => { a with longitude := longitude })
    (.ok (), db2)

/-- `ArtifactService.setImageUrl`. -/
def setImageUrl (artifactId url : String) (db : DB) : OpOut :=
  match lookupA db.artifacts artifactId with
  | none => (.error (.failure "Artifact not found"), db)
  | some _ => (.ok (), updArtifact db artifactId (fun a => { a with imageUrl := some url }))

/-- `ArtifactService.setAudioUrl`. -/
def setAudioUrl (artifactId url : String) (db : DB) : OpOut :=
  match lookupA db.artifacts artifactId with
  | none => (.error (.failure "Artifact not found"), db)
  | some _ => (.ok (), updArtifact db artifactId (fun a => { a with audioUrl := some url }))

/-- `ArtifactService.setChallengeStatus`. -/
def setChallengeStatus (artifactId : String) (isChallenge : Bool) (db : DB) : OpOut :=
  match lookupA db.artifacts artifactId with
  | none => (.error (.failure "Artifact not found"), db)
  | some _ => (.ok (), updArtifact db artifactId (fun a => { a with isChallenge := isChallenge }))

/-- The per-session loop of `ArtifactService.deleteArtifact`:
`sessions[sessionId].artifacts[artifactId]` is evaluated without guarding
`artifacts`, so a record lacking the node raises a TypeError. -/
def scanSessionsForArtifact (artifactId : String) : AssocL SessionRec → Except DbError Unit
  | [] => .ok ()
  | (_, ss) :: rest =>
    match ss.artifacts with
    | none => .error (.jsTypeError "Cannot read properties of undefined")
    | some l =>
      if hasKey l artifactId then
        .error (.failure "Cannot delete artifact that is part of an active session")
      else scanSessionsForArtifact artifactId rest

/-- `ArtifactService.deleteArtifact` (`getData(sessions)` yields `null`
when there are no sessions, skipping the loop). -/
def deleteArtifact (artifactId : String) (db : DB) : OpOut :=
  match lookupA db.artifacts artifactId with
  | none => (.error (.failure "Artifact not found"), db)
  | some _ =>
    match (if db.sessions.isEmpty then Except.ok () else scanSessionsForArtifact artifactId db.sessions) with
    | .error e => (.error e, db)
    | .ok _ => (.ok (), { db with artifacts := eraseA db.artifacts artifactId })

/-- `ArtifactService.listSessionArtifacts`: `Object.keys(session.artifacts)`
with no guard on `artifacts`. -/
def listSessionArtifacts (sessionId : String) (db : DB) : Except DbError (List String) :=
  match lookupA db.sessions sessionId with
  | none => .error (.failure "Session not found")
  | some ss =>
    match ss.artifacts with
    | none => .error (.jsTypeError "Cannot convert undefined or null to object")
    | some l => .ok l

end ArtifactService

/-- One mutating directory operation together with its arguments (and the
`Date.now()` reading where the method records timestamps): one constructor
for each of the 37 mutating service methods. -/
inductive Op
  | createUser (u : String) (now : Int)
  | setUsername (u v : String) (now : Int)
  | setEmail (u v : String) (now : Int)
  | setProfilePicture (u v : String) (now : Int)
  | setCurrentSession (u : String) (sid : Option String) (now : Int)
  | setAdminStatus (u : String) (b : Bool) (now : Int)
  | addUserToSession (u s : String) (now : Int)
  | removeUserFromSession (u s : String) (now : Int)
  | assignUserToTeam (u s t : String) (now : Int)
  | removeUserFromTeam (u s : String) (now : Int)
  | addFoundArtifact (u s a : String) (now : Int)
  | removeFoundArtifact (u s a : String) (now : Int)
  | updatePoints (u s : String) (p : Int) (now : Int)
  | deleteUser (u : String)
  | createTeam (t : String)
  | setTeamName (t v : String)
  | addMember (t u : String)
  | removeMember (t u : String)
  | deleteTeam (t : String)
  | createSession (s creator : String)
  | setSessionName (s v : String)
  | setTimes (s : String) (st en : Int)
  | setActiveStatus (s : String) (b : Bool)
  | addTeam (s t : String)
  | removeTeam (s t : String)
  | addArtifact (s a : String)
  | removeArtifact (s a : String)
  | deleteSession (s : String)
  | createArtifact (a : String)
  | setArtifactName (a v : String)
  | setDescription (a v : String)
  | setLocationHint (a v : String)
  | setCoordinates (a : String) (la lo : Int)
  | setImageUrl (a v : String)
  | setAudioUrl (a v : String)
  | setChallengeStatus (a : String) (b : Bool)
  | deleteArtifact (a : String)
  deriving DecidableEq

/-- Dispatch an operation to its service method. -/
def applyOp : Op → DB → OpOut
  | .createUser u now, db => UserService.createUser u now db
  | .setUsername u v now, db => UserService.setUsername u v now db
  | .setEmail u v now, db => UserService.setEmail u v now db
  | .setProfilePicture u v now, db => UserService.setProfilePicture u v now db
  | .setCurrentSession u sid now, db => UserService.setCurrentSession u sid now db
  | .setAdminStatus u b now, db => UserService.setAdminStatus u b now db
  | .addUserToSession u s now, db => UserService.addUserToSession u s now db
  | .removeUserFromSession u s now, db => UserService.removeUserFromSession u s now db
  | .assignUserToTeam u s t now, db => UserService.assignUserToTeam u s t now db
  | .removeUserFromTeam u s now, db => UserService.removeUserFromTeam u s now db
  | .addFoundArtifact u s a now, db => UserService.addFoundArtifact u s a now db
  | .removeFoundArtifact u s a now, db => UserService.removeFoundArtifact u s a now db
  | .updatePoints u s p now, db => UserService.updatePoints u s p now db
  | .deleteUser u, db => UserService.deleteUser u db
  | .createTeam t, db => TeamService.createTeam t db
  | .setTeamName t v, db => TeamService.setTeamName t v db
  | .addMember t u, db => TeamService.addMember t u db
  | .removeMember t u, db => TeamService.removeMember t u db
  | .deleteTeam t, db => TeamService.deleteTeam t db
  | .createSession s c, db => SessionService.createSession s c db
  | .setSessionName s v, db => SessionService.setSessionName s v db
  | .setTimes s st en, db => SessionService.setTimes s st en db
  | .setActiveStatus s b, db => SessionService.setActiveStatus s b db
  | .addTeam s t, db => SessionService.addTeam s t db
  | .removeTeam s t, db => SessionService.removeTeam s t db
  | .addArtifact s a, db => SessionService.addArtifact s a db
  | .removeArtifact s a, db => SessionService.removeArtifact s a db
  | .deleteSession s, db => SessionService.deleteSession s db
  | .createArtifact a, db => ArtifactService.createArtifact a db
  | .setArtifactName a v, db => ArtifactService.setName a v db
  | .setDescription a v, db => ArtifactService.setDescription a v db
  | .setLocationHint a v, db => ArtifactService.setLocationHint a v db
  | .setCoordinates a la lo, db => ArtifactService.setCoordinates a la lo db
  | .setImageUrl a v, db => ArtifactService.setImageUrl a v db
  | .setAudioUrl a v, db => ArtifactService.setAudioUrl a v db
  | .setChallengeStatus a b, db => ArtifactService.setChallengeStatus a b db
  | .deleteArtifact a, db => ArtifactService.deleteArtifact a db

/-- Identifier arguments are nonempty strings: an empty path segment is
outside the key-value store's path grammar (the store itself would reject
the request), so operations carrying one are not considered. -/
def Op.validB : Op → Bool
  | .createUser u _ => u ≠ ""
  | .setUsername u _ _ => u ≠ ""
  | .setEmail u _ _ => u ≠ ""
  | .setProfilePicture u _ _ => u ≠ ""
  | .setCurrentSession u _ _ => u ≠ ""
  | .setAdminStatus u _ _ => u ≠ ""
  | .addUserToSession u s _ => u ≠ "" && s ≠ ""
  | .removeUserFromSession u s _ => u ≠ "" && s ≠ ""
  | .assignUserToTeam u s t _ => u ≠ "" && s ≠ "" && t ≠ ""
  | .removeUserFromTeam u s _ => u ≠ "" && s ≠ ""
  | .addFoundArtifact u s a _ => u ≠ "" && s ≠ "" && a ≠ ""
  | .removeFoundArtifact u s a _ => u ≠ "" && s ≠ "" && a ≠ ""
  | .updatePoints u s _ _ => u ≠ "" && s ≠ ""
  | .deleteUser u => u ≠ ""
  | .createTeam t => t ≠ ""
  | .setTeamName t _ => t ≠ ""
  | .addMember t u => t ≠ "" && u ≠ ""
  | .removeMember t u => t ≠ "" && u ≠ ""
  | .deleteTeam t => t ≠ ""
  | .createSession s _ => s ≠ ""
  | .setSessionName s _ => s ≠ ""
  | .setTimes s _ _ => s ≠ ""
  | .setActiveStatus s _ => s ≠ ""
  | .addTeam s t => s ≠ "" && t ≠ ""
  | .removeTeam s t => s ≠ "" && t ≠ ""
  | .addArtifact s a => s ≠ "" && a ≠ ""
  | .removeArtifact s a => s ≠ "" && a ≠ ""
  | .deleteSession s => s ≠ ""
  | .createArtifact a => a ≠ ""
  | .setArtifactName a _ => a ≠ ""
  | .setDescription a _ => a ≠ ""
  | .setLocationHint a _ => a ≠ ""
  | .setCoordinates a _ _ => a ≠ ""
  | .setImageUrl a _ => a ≠ ""
  | .setAudioUrl a _ => a ≠ ""
  | .setChallengeStatus a _ => a ≠ ""
  | .deleteArtifact a => a ≠ ""

/-- The two `TeamService` membership operations. -/
def Op.isTeamMembershipOp : Op → Bool
  | .addMember _ _ => true
  | .removeMember _ _ => true
  | _ => false

/-- Run a sequence of operations from a store, stopping at the first
error (`none` when some operation fails). -/
def runSeq : List Op → DB → Option DB
  | [], db => some db
  | op :: rest, db =>
    match applyOp op db with
    | (.ok _, db') => runSeq rest db'
    | (.error _, _) => none

/-! ## Observers on a store state -/

/-- `users/u/sessionsJoined/s`. -/
def sjEntry (db : DB) (u s : String) : Option Membership :=
  match lookupA db.users u with
  | none => none
  | some r => lookupA r.sessionsJoined s

/-- The `teamId` recorded at `users/u/sessionsJoined/s/teamId`. -/
def userTeamId (db : DB) (u s : String) : Option String :=
  match sjEntry db u s with
  | none => none
  | some m => m.teamId

/-- Whether artifact `a` is in `users/u/sessionsJoined/s/foundArtifacts`. -/
def userFound (db : DB) (u s a : String) : Bool := foundNode db u s a

/-- `sessions/s/participants/u` (the empty string is the "no team yet"
sentinel). -/
def participantEntry (db : DB) (s u : String) : Option String :=
  match lookupA db.sessions s with
  | none => none
  | some ss => lookupA ss.participants u

/-- Whether team `t` is listed in `sessions/s/teams`. -/
def sessionTeamsHas (db : DB) (s t : String) : Bool :=
  match lookupA db.sessions s with
  | none => false
  | some ss => hasKey ss.teams t

/-- Whether artifact `a` is listed in `sessions/s/artifacts`. -/
def sessionArtifactsHas (db : DB) (s a : String) : Bool := artifactNodeExists db s a

/-- `teams/t/members/u`. -/
def teamHasMember (db : DB) (t u : String) : Bool :=
  match lookupA db.teams t with
  | none => false
  | some tr => hasKey tr.members u

/-- `teams/t/sessionId` (absent node is `none`; a blank team holds `""`). -/
def teamSessionId (db : DB) (t : String) : Option String :=
  match lookupA db.teams t with
  | none => none
  | some tr => tr.sessionId

/-- Whether `artifacts/a` exists. -/
def artifactExists (db : DB) (a : String) : Bool := (lookupA db.artifacts a).isSome

/-! ## The data-model invariants (§3 of the specification) -/

/-- Invariant 1: `User.sessionsJoined[s]` exists iff
`Session(s).participants[user]` exists. -/
def Inv1 (db : DB) : Prop :=
  ∀ u s, (sjEntry db u s).isSome ↔ (participantEntry db s u).isSome

/-- Invariant 2: `User.sessionsJoined[s].teamId == t` iff
`Team(t).members[user]` is true and `Session(s).participants[user] == t`
(for an actual team id, i.e. a nonempty string — the empty string is the
"no team" sentinel). -/
def Inv2 (db : DB) : Prop :=
  ∀ u s t, t ≠ "" →
    (userTeamId db u s = some t ↔
      (teamHasMember db t u = true ∧ participantEntry db s u = some t))

/-- Invariant 3 (state part): `Team.sessionId == s` iff `s.teams` contains
the team's id (for an actual session id; a blank team's `""` pointer and an
absent node both mean "no session"). -/
def Inv3 (db : DB) : Prop :=
  ∀ t s, s ≠ "" → (teamSessionId db t = some s ↔ sessionTeamsHas db s t = true)

/-- Invariant 4 (state part): every recorded found artifact is offered by
its session, and every artifact referenced by a session exists. -/
def Inv4 (db : DB) : Prop :=
  (∀ u s a, userFound db u s a = true → sessionArtifactsHas db s a = true) ∧
  (∀ s a, sessionArtifactsHas db s a = true → artifactExists db a = true)

/-- The state parts of invariants 1-4 together. -/
def SpecInvariants (db : DB) : Prop := Inv1 db ∧ Inv2 db ∧ Inv3 db ∧ Inv4 db

/-- The inductive invariant: invariants 1-4 strengthened with the fact
that a recorded `teamId` is a nonempty string, is recorded under a
nonempty session key, and points back through the team's own session
pointer. -/
structure IndInv (db : DB) : Prop where
  i1 : Inv1 db
  i2 : Inv2 db
  i3 : Inv3 db
  i4a : ∀ u s a, userFound db u s a = true → sessionArtifactsHas db s a = true
  i4b : ∀ s a, sessionArtifactsHas db s a = true → artifactExists db a = true
  aux : ∀ u s t, userTeamId db u s = some t → t ≠ "" ∧ s ≠ "" ∧ teamSessionId db t = some s
  aux2 : ∀ s u t, participantEntry db s u = some t → t ≠ "" → userTeamId db u s = some t

theorem IndInv.spec {db : DB} (h : IndInv db) : SpecInvariants db :=
  ⟨h.i1, h.i2, h.i3, ⟨h.i4a, h.i4b⟩⟩

/-- The operational parts of invariants 3-5: what a successful execution of
the listed operations certifies about the pre-state — `sessionId` is only
set or cleared on a memberless team (3), recording requires the artifact to
be offered and a found artifact blocks its removal and the artifact's
deletion (4), and each entity is deleted only with its association
collections empty (5). -/
def TransitionOK (db : DB) : Op → Prop
  | .deleteUser u => ∀ r, lookupA db.users u = some r → r.sessionsJoined = []
  | .deleteTeam t => ∀ r, lookupA db.teams t = some r →
      truthyS r.sessionId = false ∧ r.members = []
  | .deleteSession s => ∀ r, lookupA db.sessions s = some r →
      r.participants = [] ∧ r.teams = []
  | .addTeam _ t => ∀ r, lookupA db.teams t = some r → r.members = []
  | .removeTeam _ t => ∀ r, lookupA db.teams t = some r → r.members = []
  | .removeArtifact s a => ∀ u, userFound db u s a = false
  | .addFoundArtifact _ s a _ => sessionArtifactsHas db s a = true
  | .deleteArtifact a => ∀ s, sessionArtifactsHas db s a = false
  | _ => True

/-- Stores reachable from the empty store by sequences of valid operations
other than the two `TeamService` membership writers, each completing
without error. -/
inductive ReachOK : DB → Prop
  | init : ReachOK emptyDB
  | step (db db' : DB) (op : Op) (hv : op.validB = true)
      (hm : op.isTeamMembershipOp = false)
      (hs : applyOp op db = (Except.ok (), db'))
      (hr : ReachOK db) : ReachOK db'

/-- `startTime` scalar of a session. -/
def sessionStartTime (db : DB) (s : String) : Option Int :=
  (lookupA db.sessions s).map (fun ss => ss.startTime)

/-- `endTime` scalar of a session. -/
def sessionEndTime (db : DB) (s : String) : Option Int :=
  (lookupA db.sessions s).map (fun ss => ss.endTime)


/-- A one-session store used to instantiate hypotheses of the theorems. -/
def oneSessionDB : DB := (SessionService.createSession "s1" "creator" emptyDB).2

/-- A store with one blank user, one blank team and one blank session. -/
def blankTrioDB : DB :=
  (runSeq [Op.createUser "u1" 0, Op.createTeam "t1", Op.createSession "s1" "c"] emptyDB).getD emptyDB

/-- Whether the `deleteArtifact` scan over all sessions passes for `a`:
every session record carries its `artifacts` node and none lists `a`. -/
def deleteScanClear (db : DB) (a : String) : Bool :=
  db.sessions.all (fun p =>
    match p.2.artifacts with
    | none => false
    | some l => !hasKey l a)

/-- The operation sequence that moves team `t1` through session `s1` and
then successfully adds it to session `s2`. -/
def teamReuseOps : List Op :=
  [Op.createTeam "t1", Op.createSession "s1" "c", Op.createSession "s2" "c",
   Op.addTeam "s1" "t1", Op.removeTeam "s1" "t1", Op.addTeam "s2" "t1"]

/-- The store this sequence produces. -/
def teamReuseDB : DB := (runSeq teamReuseOps emptyDB).getD emptyDB

/-- Some session record lacks its `artifacts` node. -/
def hasArtifactlessSession (db : DB) : Bool :=
  db.sessions.any (fun p => p.2.artifacts.isNone)

/-- No session record's `artifacts` node lists `a`. -/
def noSessionListsArtifact (db : DB) (a : String) : Bool :=
  db.sessions.all (fun p =>
    match p.2.artifacts with
    | none => true
    | some l => !hasKey l a)

/-- A store holding artifact `a1`, a session whose `artifacts` node lists
it, and a later blank session whose `artifacts` node is absent. -/
def blindSpotDB : DB :=
  { emptyDB with
    artifacts := [("a1", ArtifactService.newArtifact)],
    sessions := [("s1", { SessionService.newSession "c" with artifacts := some ["a1"] }),
                 ("s2", { SessionService.newSession "c" with artifacts := none })] }

/-- A store with the artifact and only the blank (artifacts-less) session. -/
def typeErrDB : DB :=
  { emptyDB with
    artifacts := [("a1", ArtifactService.newArtifact)],
    sessions := [("s2", { SessionService.newSession "c" with artifacts := none })] }

/-- No participant of `s` other than `u` has `a` recorded in their found
artifacts. -/
def noOtherFinder (db : DB) (s a u : String) : Bool :=
  match lookupA db.sessions s with
  | none => true
  | some ss => ss.participants.all (fun p => if p.1 = u then true else !foundNode db p.1 s a)

/-- The concrete store for the ratchet witness: user `u1` in session `s1`,
artifact `a1` offered by `s1`. -/
def ratchetDB : DB :=
  (runSeq [Op.createUser "u1" 0, Op.createSession "s1" "c", Op.createArtifact "a1",
    Op.addArtifact "s1" "a1", Op.addUserToSession "u1" "s1" 1] emptyDB).getD emptyDB

/-- A concrete store for the reassignment witness: user `u1` in session
`s1` on team `t1`, with a second empty team `t2` attached to `s1`. -/
def twoTeamDB : DB :=
  (runSeq [Op.createUser "u1" 0, Op.createSession "s1" "c", Op.createTeam "t1",
    Op.createTeam "t2", Op.addTeam "s1" "t1", Op.addTeam "s1" "t2",
    Op.addUserToSession "u1" "s1" 1, Op.assignUserToTeam "u1" "s1" "t1" 2] emptyDB).getD emptyDB

/-- A valid error-free sequence ending in `TeamService.addMember`. -/
def c1CexOps : List Op :=
  [Op.createUser "u1" 0, Op.createSession "s1" "c", Op.createTeam "t1",
   Op.addTeam "s1" "t1", Op.addUserToSession "u1" "s1" 1, Op.addMember "t1" "u1"]

/-- The store left by `c1CexOps`. -/
def c1CexDB : DB := (runSeq c1CexOps emptyDB).getD emptyDB

/-- The store reached from the empty store by one `createUser` call. -/
def c1WitnessDB : DB := (applyOp (Op.createUser "u1" 0) emptyDB).2

/-! ## Association-list lemmas -/

theorem lookupA_eraseA {α : Type} (l : AssocL α) (k k' : String) :
    lookupA (eraseA l k) k' = if k = k' then none else lookupA l k' := by
  induction l with
  | nil => simp [eraseA, lookupA]
  | cons p rest ih =>
    obtain ⟨a, b⟩ := p
    simp only [eraseA]
    by_cases hak : a = k
    · subst hak
      rw [if_pos rfl, ih]
      rcases eq_or_ne a k' with h | h
      · simp [h]
      · simp [h, lookupA, h]
    · rw [if_neg hak]
      rcases eq_or_ne a k' with h | h
      · subst h
        have hk : k ≠ a := fun hh => hak hh.symm
        simp [lookupA, hk]
      · simp [lookupA, h, ih]

theorem lookupA_insertA {α : Type} (l : AssocL α) (k k' : String) (v : α) :
    lookupA (insertA l k v) k' = if k = k' then some v else lookupA l k' := by
  simp only [insertA, lookupA]
  rcases eq_or_ne k k' with h | h
  · simp [h]
  · simp [h, lookupA_eraseA]

theorem eraseA_of_lookupA_none {α : Type} (l : AssocL α) (k : String)
    (h : lookupA l k = none) : eraseA l k = l := by
  induction l with
  | nil => rfl
  | cons p rest ih =>
    obtain ⟨a, b⟩ := p
    simp only [lookupA] at h
    by_cases hak : a = k
    · simp [hak] at h
    · simp only [hak, if_false] at h
      simp [eraseA, hak, ih h]

theorem eraseA_eraseA {α : Type} (l : AssocL α) (k : String) :
    eraseA (eraseA l k) k = eraseA l k := by
  induction l with
  | nil => rfl
  | cons p rest ih =>
    obtain ⟨a, b⟩ := p
    by_cases hak : a = k
    · simp [eraseA, hak, ih]
    · simp [eraseA, hak, ih]

theorem eraseA_insertA {α : Type} (l : AssocL α) (k : String) (v : α) :
    eraseA (insertA l k v) k = eraseA l k := by
  simp [insertA, eraseA, eraseA_eraseA]

theorem insertA_insertA {α : Type} (l : AssocL α) (k : String) (v v' : α) :
    insertA (insertA l k v) k v' = insertA l k v' := by
  simp [insertA, eraseA, eraseA_eraseA]

theorem hasKey_iff {l : List String} {k : String} :
    hasKey l k = true ↔ k ∈ l := by
  induction l with
  | nil => simp [hasKey]
  | cons a rest ih =>
    simp only [hasKey]
    rcases eq_or_ne a k with h | h
    · simp [h]
    · simp [h, ih, Ne.symm h]

theorem hasKey_setAdd (l : List String) (k k' : String) :
    hasKey (setAdd l k) k' = if k = k' then true else hasKey l k' := by
  unfold setAdd
  by_cases h : hasKey l k
  · simp only [h, if_true]
    rcases eq_or_ne k k' with hk | hk
    · subst hk; simp [h]
    · simp [hk]
  · simp only [h, Bool.false_eq_true, if_false, hasKey]

theorem hasKey_setDel (l : List String) (k k' : String) :
    hasKey (setDel l k) k' = if k = k' then false else hasKey l k' := by
  induction l with
  | nil => simp [setDel, hasKey]
  | cons a rest ih =>
    simp only [setDel]
    by_cases hak : a = k
    · subst hak
      rw [if_pos rfl, ih]
      rcases eq_or_ne a k' with h | h
      · simp [h]
      · simp [h, hasKey, h]
    · rw [if_neg hak]
      rcases eq_or_ne a k' with h | h
      · subst h
        have hk : k ≠ a := fun hh => hak hh.symm
        simp [hasKey, hk]
      · simp [hasKey, h, ih]

theorem hasKey_nil (k : String) : hasKey [] k = false := rfl

theorem isEmpty_hasKey {l : List String} (h : l.isEmpty = true) (k : String) :
    hasKey l k = false := by
  cases l with
  | nil => rfl
  | cons a rest => simp [List.isEmpty] at h

theorem lookupA_isEmpty {α : Type} {l : AssocL α} (h : l.isEmpty = true) (k : String) :
    lookupA l k = none := by
  cases l with
  | nil => rfl
  | cons a rest => simp [List.isEmpty] at h

/-! ## Update-helper lemmas -/

@[simp] theorem updUser_sessions (db : DB) (u : String) (f : UserRec → UserRec) :
    (updUser db u f).sessions = db.sessions := by
  unfold updUser; cases lookupA db.users u <;> rfl

@[simp] theorem updUser_teams (db : DB) (u : String) (f : UserRec → UserRec) :
    (updUser db u f).teams = db.teams := by
  unfold updUser; cases lookupA db.users u <;> rfl

@[simp] theorem updUser_artifacts (db : DB) (u : String) (f : UserRec → UserRec) :
    (updUser db u f).artifacts = db.artifacts := by
  unfold updUser; cases lookupA db.users u <;> rfl

@[simp] theorem updSession_users (db : DB) (s : String) (f : SessionRec → SessionRec) :
    (updSession db s f).users = db.users := by
  unfold updSession; cases lookupA db.sessions s <;> rfl

@[simp] theorem updSession_teams (db : DB) (s : String) (f : SessionRec → SessionRec) :
    (updSession db s f).teams = db.teams := by
  unfold updSession; cases lookupA db.sessions s <;> rfl

@[simp] theorem updSession_artifacts (db : DB) (s : String) (f : SessionRec → SessionRec) :
    (updSession db s f).artifacts = db.artifacts := by
  unfold updSession; cases lookupA db.sessions s <;> rfl

@[simp] theorem updTeam_users (db : DB) (t : String) (f : TeamRec → TeamRec) :
    (updTeam db t f).users = db.users := by
  unfold updTeam; cases lookupA db.teams t <;> rfl

@[simp] theorem updTeam_sessions (db : DB) (t : String) (f : TeamRec → TeamRec) :
    (updTeam db t f).sessions = db.sessions := by
  unfold updTeam; cases lookupA db.teams t <;> rfl

@[simp] theorem updTeam_artifacts (db : DB) (t : String) (f : TeamRec → TeamRec) :
    (updTeam db t f).artifacts = db.artifacts := by
  unfold updTeam; cases lookupA db.teams t <;> rfl

@[simp] theorem updArtifact_users (db : DB) (a : String) (f : ArtifactRec → ArtifactRec) :
    (updArtifact db a f).users = db.users := by
  unfold updArtifact; cases lookupA db.artifacts a <;> rfl

@[simp] theorem updArtifact_sessions (db : DB) (a : String) (f : ArtifactRec → ArtifactRec) :
    (updArtifact db a f).sessions = db.sessions := by
  unfold updArtifact; cases lookupA db.artifacts a <;> rfl

@[simp] theorem updArtifact_teams (db : DB) (a : String) (f : ArtifactRec → ArtifactRec) :
    (updArtifact db a f).teams = db.teams := by
  unfold updArtifact; cases lookupA db.artifacts a <;> rfl

theorem lookupA_updUser (db : DB) (u : String) (f : UserRec → UserRec) (u' : String) :
    lookupA (updUser db u f).users u' =
      if u = u' then (lookupA db.users u).map f else lookupA db.users u' := by
  unfold updUser
  cases h : lookupA db.users u with
  | none =>
    rcases eq_or_ne u u' with he | he
    · subst he; simp [h]
    · simp [he]
  | some r =>
    simp only [Option.map_some]
    rcases eq_or_ne u u' with he | he
    · subst he; simp [lookupA_insertA]
    · simp [lookupA_insertA, he]

theorem lookupA_updSession (db : DB) (s : String) (f : SessionRec → SessionRec) (s' : String) :
    lookupA (updSession db s f).sessions s' =
      if s = s' then (lookupA db.sessions s).map f else lookupA db.sessions s' := by
  unfold updSession
  cases h : lookupA db.sessions s with
  | none =>
    rcases eq_or_ne s s' with he | he
    · subst he; simp [h]
    · simp [he]
  | some r =>
    simp only [Option.map_some]
    rcases eq_or_ne s s' with he | he
    · subst he; simp [lookupA_insertA]
    · simp [lookupA_insertA, he]

theorem lookupA_updTeam (db : DB) (t : String) (f : TeamRec → TeamRec) (t' : String) :
    lookupA (updTeam db t f).teams t' =
      if t = t' then (lookupA db.teams t).map f else lookupA db.teams t' := by
  unfold updTeam
  cases h : lookupA db.teams t with
  | none =>
    rcases eq_or_ne t t' with he | he
    · subst he; simp [h]
    · simp [he]
  | some r =>
    simp only [Option.map_some]
    rcases eq_or_ne t t' with he | he
    · subst he; simp [lookupA_insertA]
    · simp [lookupA_insertA, he]

theorem lookupA_updArtifact (db : DB) (a : String) (f : ArtifactRec → ArtifactRec) (a' : String) :
    lookupA (updArtifact db a f).artifacts a' =
      if a = a' then (lookupA db.artifacts a).map f else lookupA db.artifacts a' := by
  unfold updArtifact
  cases h : lookupA db.artifacts a with
  | none =>
    rcases eq_or_ne a a' with he | he
    · subst he; simp [h]
    · simp [he]
  | some r =>
    simp only [Option.map_some]
    rcases eq_or_ne a a' with he | he
    · subst he; simp [lookupA_insertA]
    · simp [lookupA_insertA, he]

/-! ## Claim C8: `setTimes` validation -/

/-- C8.  For every existing session `s` and integers `start`, `end`:
`setTimes(s, start, end)` fails with the validation error exactly when
`start >= end`, leaving the whole store (hence the session's `startTime`
and `endTime`) unchanged on failure; when `start < end` it succeeds and
sets both `startTime` and `endTime` to the given values. -/
theorem setTimes_validates_start_before_end (db : DB) (s : String) (ss : SessionRec)
    (startTime endTime : Int) (h : lookupA db.sessions s = some ss) :
    (startTime ≥ endTime →
      SessionService.setTimes s startTime endTime db =
        (.error (.failure "Start time must be before end time"), db)) ∧
    (startTime < endTime →
      (SessionService.setTimes s startTime endTime db).1 = .ok () ∧
      sessionStartTime (SessionService.setTimes s startTime endTime db).2 s = some startTime ∧
      sessionEndTime (SessionService.setTimes s startTime endTime db).2 s = some endTime) := by
  constructor
  · intro hge
    simp [SessionService.setTimes, h, hge]
  · intro hlt
    have hge : ¬ startTime ≥ endTime := not_le.mpr hlt
    refine ⟨?_, ?_, ?_⟩ <;>
      simp [SessionService.setTimes, h, hge, sessionStartTime, sessionEndTime,
        lookupA_updSession]

/-- Witness for `setTimes_validates_start_before_end` at a concrete store. -/
theorem setTimes_validates_start_before_end_witness :
    (SessionService.setTimes "s1" 4 5 oneSessionDB).1 = .ok () ∧
    sessionStartTime (SessionService.setTimes "s1" 4 5 oneSessionDB).2 "s1" = some 4 ∧
    sessionEndTime (SessionService.setTimes "s1" 4 5 oneSessionDB).2 "s1" = some 5 :=
  (setTimes_validates_start_before_end oneSessionDB "s1"
    (SessionService.newSession "creator") 4 5 (by decide)).2 (by decide)

/-! ## Claim C4: deletion requires empty association collections -/

/-- C4.  Deleting a user fails (store untouched) while `sessionsJoined` is
non-empty and succeeds, removing the record, once it is empty; deleting a
team fails while `sessionId` is truthy or `members` is non-empty and
succeeds once both are cleared; deleting a session fails while
`participants` or `teams` is non-empty and succeeds once both are empty. -/
theorem delete_requires_empty_associations (db : DB) :
    (∀ u r, lookupA db.users u = some r →
      (r.sessionsJoined ≠ [] →
        UserService.deleteUser u db =
          (.error (.failure "User still has session associations. Remove from all sessions first"), db)) ∧
      (r.sessionsJoined = [] →
        UserService.deleteUser u db = (.ok (), { db with users := eraseA db.users u }))) ∧
    (∀ t r, lookupA db.teams t = some r →
      ((truthyS r.sessionId = true ∨ r.members ≠ []) →
        ∃ m, TeamService.deleteTeam t db = (.error (.failure m), db)) ∧
      (truthyS r.sessionId = false → r.members = [] →
        TeamService.deleteTeam t db = (.ok (), { db with teams := eraseA db.teams t }))) ∧
    (∀ s r, lookupA db.sessions s = some r →
      ((r.participants ≠ [] ∨ r.teams ≠ []) →
        ∃ m, SessionService.deleteSession s db = (.error (.failure m), db)) ∧
      (r.participants = [] → r.teams = [] →
        SessionService.deleteSession s db = (.ok (), { db with sessions := eraseA db.sessions s }))) := by
  refine ⟨?_, ?_, ?_⟩
  · intro u r h
    constructor
    · intro hne
      have hne' : r.sessionsJoined.isEmpty = false := by
        cases hsj : r.sessionsJoined with
        | nil => exact absurd hsj hne
        | cons a rest => rfl
      simp [UserService.deleteUser, h, hne']
    · intro hemp
      simp [UserService.deleteUser, h, hemp]
  · intro t r h
    constructor
    · intro hor
      rcases hor with htr | hne
      · exact ⟨"Remove team from session before deletion", by simp [TeamService.deleteTeam, h, htr]⟩
      · have hne' : r.members.isEmpty = false := by
          cases hm : r.members with
          | nil => exact absurd hm hne
          | cons a rest => rfl
        by_cases htr : truthyS r.sessionId = true
        · exact ⟨"Remove team from session before deletion", by simp [TeamService.deleteTeam, h, htr]⟩
        · have htr' : truthyS r.sessionId = false := by
            cases hx : truthyS r.sessionId
            · rfl
            · exact absurd hx htr
          exact ⟨"Remove all team members before deletion", by simp [TeamService.deleteTeam, h, htr', hne']⟩
    · intro htr hemp
      simp [TeamService.deleteTeam, h, htr, hemp]
  · intro s r h
    constructor
    · intro hor
      rcases hor with hne | hne
      · have hne' : r.participants.isEmpty = false := by
          cases hm : r.participants with
          | nil => exact absurd hm hne
          | cons a rest => rfl
        exact ⟨"Cannot delete session with active participants", by
          simp [SessionService.deleteSession, h, hne']⟩
      · have hne' : r.teams.isEmpty = false := by
          cases hm : r.teams with
          | nil => exact absurd hm hne
          | cons a rest => rfl
        by_cases hp : r.participants.isEmpty = false
        · exact ⟨"Cannot delete session with active participants", by
            simp [SessionService.deleteSession, h, hp]⟩
        · have hp' : r.participants.isEmpty = true := by
            cases hx : r.participants.isEmpty
            · exact absurd hx hp
            · rfl
          exact ⟨"Cannot delete session with associated teams", by
            simp [SessionService.deleteSession, h, hp', hne']⟩
    · intro hpe hte
      simp [SessionService.deleteSession, h, hpe, hte]

/-- Witness for `delete_requires_empty_associations`: the blank user of a
concrete store deletes successfully. -/
theorem delete_requires_empty_associations_witness :
    UserService.deleteUser "u1" blankTrioDB =
      (.ok (), { blankTrioDB with users := eraseA blankTrioDB.users "u1" }) :=
  ((delete_requires_empty_associations blankTrioDB).1 "u1" (UserService.newUser 0)
    (by decide)).2 (by decide)

/-! ## Claim C9: precondition errors never follow a write -/

/-- C9.  Whenever an operation returns an error, the store it leaves behind
is exactly the store it started from: every service method performs all of
its reads and precondition checks before its first write. -/
theorem op_error_leaves_store_unchanged (op : Op) (db db' : DB) (e : DbError)
    (h : applyOp op db = (.error e, db')) : db' = db := by
  cases op <;>
    simp only [applyOp, UserService.createUser, UserService.setUsername, UserService.setEmail,
      UserService.setProfilePicture, UserService.setCurrentSession, UserService.setAdminStatus,
      UserService.addUserToSession, UserService.removeUserFromSession, UserService.assignUserToTeam,
      UserService.removeUserFromTeam, UserService.addFoundArtifact, UserService.removeFoundArtifact,
      UserService.updatePoints, UserService.deleteUser, TeamService.createTeam, TeamService.setTeamName,
      TeamService.addMember, TeamService.removeMember, TeamService.deleteTeam,
      SessionService.createSession, SessionService.setSessionName, SessionService.setTimes,
      SessionService.setActiveStatus, SessionService.addTeam, SessionService.removeTeam,
      SessionService.addArtifact, SessionService.removeArtifact, SessionService.deleteSession,
      ArtifactService.createArtifact, ArtifactService.setName, ArtifactService.setDescription,
      ArtifactService.setLocationHint, ArtifactService.setCoordinates, ArtifactService.setImageUrl,
      ArtifactService.setAudioUrl, ArtifactService.setChallengeStatus,
      ArtifactService.deleteArtifact] at h <;>
    (repeat' split at h) <;>
    simp_all

/-- Witness for `op_error_leaves_store_unchanged` at a concrete erroring
call. -/
theorem op_error_leaves_store_unchanged_witness : emptyDB = emptyDB :=
  op_error_leaves_store_unchanged (Op.deleteUser "u1") emptyDB emptyDB
    (.failure "User not found") rfl

/-! ## Claim C7: create/delete round trip -/

theorem scanSessionsForArtifact_ok {a : String} {l : AssocL SessionRec}
    (h : l.all (fun p =>
      match p.2.artifacts with
      | none => false
      | some arts => !hasKey arts a) = true) :
    ArtifactService.scanSessionsForArtifact a l = .ok () := by
  induction l with
  | nil => rfl
  | cons p rest ih =>
    obtain ⟨sid, ss⟩ := p
    simp only [List.all_cons, Bool.and_eq_true] at h
    obtain ⟨h1, h2⟩ := h
    simp only [ArtifactService.scanSessionsForArtifact]
    cases harts : ss.artifacts with
    | none => rw [harts] at h1; exact absurd h1 (by simp)
    | some arts =>
      rw [harts] at h1
      simp only at h1
      have hk : hasKey arts a = false := by
        cases hx : hasKey arts a
        · rfl
        · rw [hx] at h1; exact absurd h1 (by simp)
      simp [hk, ih h2]

/-- C7 (amended).  Creating and then immediately deleting an entity of any
of the four kinds, for an id absent from the store, succeeds and returns
the whole store to exactly its prior state — unconditionally for users,
sessions and teams, but for artifacts only under the extra hypothesis that
the `deleteArtifact` scan passes: every session record carries its
`artifacts` node (and, the id being absent, none lists it).  The
hypothesis is a real restriction: the store drops the empty `artifacts`
collection of a freshly created session, so in any store containing such a
blank session the scan hits the unguarded `sessions[sid].artifacts[id]`
access and `deleteArtifact` throws a TypeError instead of completing the
round trip (`create_delete_round_trip_artifact_counterexample`). -/
theorem create_delete_round_trip (db : DB) :
    (∀ u now, lookupA db.users u = none →
      (UserService.createUser u now db).1 = .ok () ∧
      UserService.deleteUser u (UserService.createUser u now db).2 = (.ok (), db)) ∧
    (∀ s c, lookupA db.sessions s = none →
      (SessionService.createSession s c db).1 = .ok () ∧
      SessionService.deleteSession s (SessionService.createSession s c db).2 = (.ok (), db)) ∧
    (∀ t, lookupA db.teams t = none →
      (TeamService.createTeam t db).1 = .ok () ∧
      TeamService.deleteTeam t (TeamService.createTeam t db).2 = (.ok (), db)) ∧
    (∀ a, lookupA db.artifacts a = none → deleteScanClear db a = true →
      (ArtifactService.createArtifact a db).1 = .ok () ∧
      ArtifactService.deleteArtifact a (ArtifactService.createArtifact a db).2 = (.ok (), db)) := by
  refine ⟨?_, ?_, ?_, ?_⟩
  · intro u now h
    constructor
    · simp [UserService.createUser, h]
    · have : UserService.createUser u now db =
        (.ok (), { db with users := insertA db.users u (UserService.newUser now) }) := by
        simp [UserService.createUser, h]
      rw [this]
      simp [UserService.deleteUser, lookupA_insertA, UserService.newUser,
        eraseA_insertA, eraseA_of_lookupA_none _ _ h]
  · intro s c h
    constructor
    · simp [SessionService.createSession, h]
    · have : SessionService.createSession s c db =
        (.ok (), { db with sessions := insertA db.sessions s (SessionService.newSession c) }) := by
        simp [SessionService.createSession, h]
      rw [this]
      simp [SessionService.deleteSession, lookupA_insertA, SessionService.newSession,
        eraseA_insertA, eraseA_of_lookupA_none _ _ h]
  · intro t h
    constructor
    · simp [TeamService.createTeam, h]
    · have : TeamService.createTeam t db =
        (.ok (), { db with teams := insertA db.teams t TeamService.newTeam }) := by
        simp [TeamService.createTeam, h]
      rw [this]
      simp [TeamService.deleteTeam, lookupA_insertA, TeamService.newTeam, truthyS,
        eraseA_insertA, eraseA_of_lookupA_none _ _ h]
  · intro a h hscan
    constructor
    · simp [ArtifactService.createArtifact, h]
    · have hcr : ArtifactService.createArtifact a db =
        (.ok (), { db with artifacts := insertA db.artifacts a ArtifactService.newArtifact }) := by
        simp [ArtifactService.createArtifact, h]
      rw [hcr]
      have hscan' : ArtifactService.scanSessionsForArtifact a db.sessions = .ok () :=
        scanSessionsForArtifact_ok (by simpa [deleteScanClear] using hscan)
      simp only [ArtifactService.deleteArtifact, lookupA_insertA, if_pos rfl]
      have hmatch : (if ({ db with artifacts := insertA db.artifacts a ArtifactService.newArtifact } : DB).sessions.isEmpty
          then Except.ok () else ArtifactService.scanSessionsForArtifact a
            ({ db with artifacts := insertA db.artifacts a ArtifactService.newArtifact } : DB).sessions) = .ok () := by
        cases hse : db.sessions.isEmpty
        · simpa [hse] using hscan'
        · simp [hse]
      rw [hmatch]
      simp [eraseA_insertA, eraseA_of_lookupA_none _ _ h]

/-- Witness for `create_delete_round_trip`: artifact round trip on the
empty store. -/
theorem create_delete_round_trip_witness :
    (ArtifactService.createArtifact "a1" emptyDB).1 = .ok () ∧
    ArtifactService.deleteArtifact "a1" (ArtifactService.createArtifact "a1" emptyDB).2 =
      (.ok (), emptyDB) :=
  (create_delete_round_trip emptyDB).2.2.2 "a1" rfl rfl

/-- C7 counterexample: in the store holding one freshly created session
(whose empty `artifacts` collection the store dropped), `createArtifact`
of an absent id succeeds, but the immediate `deleteArtifact` does not
return the store to its prior state — the session scan reads the missing
`artifacts` node and throws a TypeError, leaving the created artifact in
place. -/
theorem create_delete_round_trip_artifact_counterexample :
    lookupA oneSessionDB.artifacts "a1" = none ∧
    (ArtifactService.createArtifact "a1" oneSessionDB).1 = .ok () ∧
    (ArtifactService.deleteArtifact "a1" (ArtifactService.createArtifact "a1" oneSessionDB).2).1 =
      .error (.jsTypeError "Cannot read properties of undefined") ∧
    (ArtifactService.deleteArtifact "a1" (ArtifactService.createArtifact "a1" oneSessionDB).2).2 ≠
      oneSessionDB := by
  refine ⟨by decide, by decide, by decide, by decide⟩

/-! ## Claim C5: team reuse across sessions -/

/-- C5 (the code contradicts this claim and the schema documentation):
after `addTeam(s1, t1)` and `removeTeam(s1, t1)`, the call
`addTeam(s2, t1)` with `s2 != s1` **succeeds** — `removeTeam` deletes the
`sessionId` node, and `addTeam` only checks that the pointer is currently
falsy, so a team that has been through one session is reattached to
another. -/
theorem team_reuse_across_sessions_succeeds :
    teamReuseOps.all Op.validB = true ∧
    runSeq teamReuseOps emptyDB = some teamReuseDB ∧
    teamSessionId teamReuseDB "t1" = some "s2" ∧
    sessionTeamsHas teamReuseDB "s2" "t1" = true := by
  refine ⟨by decide, by decide, by decide, by decide⟩

/-! ## Claim C10: unguarded `artifacts` access in `ArtifactService` -/

/-- C10 as stated is too strong: in a store that does contain a session
record lacking its `artifacts` node, `deleteArtifact` on an existing
artifact raises the specified "active session" error — not a TypeError —
because the scan reaches a session listing the artifact first. -/
theorem deleteArtifact_typeerror_counterexample :
    hasArtifactlessSession blindSpotDB = true ∧
    artifactExists blindSpotDB "a1" = true ∧
    ArtifactService.deleteArtifact "a1" blindSpotDB =
      (.error (.failure "Cannot delete artifact that is part of an active session"), blindSpotDB) := by
  refine ⟨by decide, by decide, by decide⟩

theorem scanSessionsForArtifact_typeerror {a : String} {l : AssocL SessionRec}
    (hblank : l.any (fun p => p.2.artifacts.isNone) = true)
    (hnoref : l.all (fun p =>
      match p.2.artifacts with
      | none => true
      | some arts => !hasKey arts a) = true) :
    ∃ m, ArtifactService.scanSessionsForArtifact a l = .error (.jsTypeError m) := by
  induction l with
  | nil => simp at hblank
  | cons p rest ih =>
    obtain ⟨sid, ss⟩ := p
    simp only [List.all_cons, Bool.and_eq_true] at hnoref
    obtain ⟨h1, h2⟩ := hnoref
    simp only [ArtifactService.scanSessionsForArtifact]
    cases harts : ss.artifacts with
    | none => exact ⟨"Cannot read properties of undefined", rfl⟩
    | some arts =>
      rw [harts] at h1
      simp only at h1
      have hk : hasKey arts a = false := by
        cases hx : hasKey arts a
        · rfl
        · rw [hx] at h1; exact absurd h1 (by simp)
      have hbrest : rest.any (fun p => p.2.artifacts.isNone) = true := by
        simp only [List.any_cons, Bool.or_eq_true] at hblank
        rcases hblank with hb | hb
        · rw [harts] at hb; simp at hb
        · exact hb
      simpa [hk] using ih hbrest h2

/-- C10 amended.  `deleteArtifact` reads the whole sessions collection and
indexes `sessions[sid].artifacts[a]` without guarding the `artifacts`
field: whenever some session record lacks the node and no session lists
the artifact (so none of the four specified error kinds applies and a
delete should succeed), the call raises a TypeError and writes nothing;
`ArtifactService.listSessionArtifacts` raises a TypeError on any session
record lacking the node. -/
theorem deleteArtifact_unguarded_typeerror (db : DB) (a : String)
    (hex : artifactExists db a = true)
    (hblank : hasArtifactlessSession db = true)
    (hnoref : noSessionListsArtifact db a = true) :
    (∃ m, ArtifactService.deleteArtifact a db = (.error (.jsTypeError m), db)) ∧
    (∀ s ss, lookupA db.sessions s = some ss → ss.artifacts = none →
      ∃ m, ArtifactService.listSessionArtifacts s db = .error (.jsTypeError m)) := by
  constructor
  · obtain ⟨m, hm⟩ := scanSessionsForArtifact_typeerror
      (a := a) (l := db.sessions)
      (by simpa [hasArtifactlessSession] using hblank)
      (by simpa [noSessionListsArtifact] using hnoref)
    refine ⟨m, ?_⟩
    have hne : db.sessions.isEmpty = false := by
      have hb : db.sessions.any (fun p => p.2.artifacts.isNone) = true := by
        simpa [hasArtifactlessSession] using hblank
      cases hl : db.sessions with
      | nil => rw [hl] at hb; simp at hb
      | cons x xs => rfl
    obtain ⟨r, hr⟩ : ∃ r, lookupA db.artifacts a = some r := by
      cases hx : lookupA db.artifacts a with
      | none => rw [artifactExists, hx] at hex; simp at hex
      | some r => exact ⟨r, rfl⟩
    simp [ArtifactService.deleteArtifact, hr, hne, hm]
  · intro s ss hs hnone
    exact ⟨"Cannot convert undefined or null to object",
      by simp [ArtifactService.listSessionArtifacts, hs, hnone]⟩

/-- Witness for `deleteArtifact_unguarded_typeerror` at a concrete store. -/
theorem deleteArtifact_unguarded_typeerror_witness :
    ∃ m, ArtifactService.deleteArtifact "a1" typeErrDB = (.error (.jsTypeError m), typeErrDB) :=
  (deleteArtifact_unguarded_typeerror typeErrDB "a1" (by decide) (by decide) (by decide)).1

theorem lookupA_mem {α : Type} {l : AssocL α} {k : String} {v : α}
    (h : lookupA l k = some v) : (k, v) ∈ l := by
  induction l with
  | nil => simp [lookupA] at h
  | cons p rest ih =>
    obtain ⟨a, b⟩ := p
    simp only [lookupA] at h
    by_cases hak : a = k
    · subst hak
      rw [if_pos rfl] at h
      cases h
      exact List.mem_cons_self _ _
    · rw [if_neg hak] at h
      exact List.mem_cons_of_mem _ (ih h)

theorem updMembership_eq {db : DB} {u s : String} {user : UserRec} {m : Membership}
    (f : Membership → Membership)
    (hu : lookupA db.users u = some user)
    (hm : lookupA user.sessionsJoined s = some m) :
    updMembership db u s f =
      { db with users := insertA db.users u { user with sessionsJoined := insertA user.sessionsJoined s (f m) } } := by
  simp only [updMembership, updUser, hu, hm]

theorem touchUser_after_insert (db : DB) (u : String) (r : UserRec) (now : Int) :
    touchUser { db with users := insertA db.users u r } u now =
      { db with users := insertA db.users u { r with updatedAt := some now } } := by
  simp [touchUser, updUser, lookupA_insertA, insertA_insertA]

/-! ## Claim C6: ordering preconditions for team membership -/

/-- C6.  `TeamService.addMember(t, u)` fails, writing nothing, unless the
team's `sessionId` is set and `u` already appears in that session's
`participants`; `UserService.assignUserToTeam(u, s, t)` fails, writing
nothing, unless `Team(t).sessionId` equals `s`. -/
theorem team_membership_ordering_preconditions :
    (∀ db t u, (∀ sid, teamSessionId db t = some sid → sid ≠ "" →
        participantNodeExists db sid u = false) →
      ∃ m, TeamService.addMember t u db = (.error (.failure m), db)) ∧
    (∀ db u s t now, teamSessionId db t ≠ some s →
      ∃ m, UserService.assignUserToTeam u s t now db = (.error (.failure m), db)) := by
  constructor
  · intro db t u hno
    cases hteam : lookupA db.teams t with
    | none =>
      exact ⟨"Team not found", by simp [TeamService.addMember, hteam]⟩
    | some team =>
      cases hsid : team.sessionId with
      | none =>
        exact ⟨"Team must be assigned to a session before adding members", by
          simp [TeamService.addMember, hteam, hsid, truthyS]⟩
      | some sid =>
        by_cases hempty : sid = ""
        · subst hempty
          exact ⟨"Team must be assigned to a session before adding members", by
            simp [TeamService.addMember, hteam, hsid, truthyS]⟩
        · have hpart : participantNodeExists db sid u = false :=
            hno sid (by simp [teamSessionId, hteam, hsid]) hempty
          exact ⟨"User must be part of the session before joining team", by
            simp [TeamService.addMember, hteam, hsid, truthyS, hempty, hpart]⟩
  · intro db u s t now hne
    cases hu : lookupA db.users u with
    | none => exact ⟨"User not found", by simp [UserService.assignUserToTeam, hu]⟩
    | some user =>
      cases hm : lookupA user.sessionsJoined s with
      | none =>
        exact ⟨"User is not part of this session", by
          simp [UserService.assignUserToTeam, hu, hm]⟩
      | some sd =>
        cases hteam : lookupA db.teams t with
        | none =>
          exact ⟨"Team does not exist", by
            simp [UserService.assignUserToTeam, hu, hm, hteam]⟩
        | some team =>
          have hts : team.sessionId ≠ some s := by
            intro hcontra
            exact hne (by simp [teamSessionId, hteam, hcontra])
          exact ⟨"Team does not belong to this session", by
            simp [UserService.assignUserToTeam, hu, hm, hteam, hts]⟩

/-- Witness for `team_membership_ordering_preconditions`: assigning a user
to the still-unattached blank team fails on a concrete store. -/
theorem team_membership_ordering_preconditions_witness :
    ∃ m, UserService.assignUserToTeam "u1" "s1" "t1" 7 blankTrioDB =
      (.error (.failure m), blankTrioDB) :=
  team_membership_ordering_preconditions.2 blankTrioDB "u1" "s1" "t1" 7 (by decide)

/-! ## Claim C2: the found-artifact ratchet -/

/-- C2.  For a user `u` who is a member of session `s` (and listed among
its participants) and an artifact `a` offered by `s`: `addFoundArtifact`
succeeds; afterwards `removeArtifact(s, a)` fails with the
"found by users" error and leaves the store (hence `Session(s).artifacts`)
unchanged; `removeFoundArtifact` then succeeds, and — `u` having been the
only participant with `a` recorded — the same `removeArtifact(s, a)`
succeeds and deletes `a` from `Session(s).artifacts`. -/
theorem found_artifact_ratchet (db : DB) (u s a : String) (now now2 : Int)
    (user : UserRec) (m : Membership) (ssS : SessionRec) (arts : List String)
    (hu : lookupA db.users u = some user)
    (hm : lookupA user.sessionsJoined s = some m)
    (hss : lookupA db.sessions s = some ssS)
    (harts : ssS.artifacts = some arts)
    (hhas : hasKey arts a = true)
    (hpart : (lookupA ssS.participants u).isSome = true)
    (hno : noOtherFinder db s a u = true) :
    (UserService.addFoundArtifact u s a now db).1 = .ok () ∧
    SessionService.removeArtifact s a (UserService.addFoundArtifact u s a now db).2 =
      (.error (.failure "Cannot remove artifact that has been found by users"),
        (UserService.addFoundArtifact u s a now db).2) ∧
    (UserService.removeFoundArtifact u s a now2 (UserService.addFoundArtifact u s a now db).2).1 = .ok () ∧
    (SessionService.removeArtifact s a
      (UserService.removeFoundArtifact u s a now2 (UserService.addFoundArtifact u s a now db).2).2).1 = .ok () ∧
    sessionArtifactsHas (SessionService.removeArtifact s a
      (UserService.removeFoundArtifact u s a now2 (UserService.addFoundArtifact u s a now db).2).2).2 s a = false := by
  have hartNode : artifactNodeExists db s a = true := by
    simp [artifactNodeExists, hss, harts, hhas]
  have key1 : UserService.addFoundArtifact u s a now db =
      (.ok (), touchUser (updMembership db u s
        (fun mm => { mm with foundArtifacts := setAdd mm.foundArtifacts a })) u now) := by
    simp [UserService.addFoundArtifact, hu, hm, hartNode]
  have e1 : (UserService.addFoundArtifact u s a now db).2 =
      { db with users := insertA db.users u { user with sessionsJoined := insertA user.sessionsJoined s { m with foundArtifacts := setAdd m.foundArtifacts a }, updatedAt := some now } } := by
    rw [key1, updMembership_eq _ hu hm, touchUser_after_insert]
  have hu1 : lookupA (UserService.addFoundArtifact u s a now db).2.users u =
      some { user with sessionsJoined := insertA user.sessionsJoined s { m with foundArtifacts := setAdd m.foundArtifacts a }, updatedAt := some now } := by
    rw [e1]; simp [lookupA_insertA]
  have hm1 : lookupA ({ user with sessionsJoined := insertA user.sessionsJoined s { m with foundArtifacts := setAdd m.foundArtifacts a }, updatedAt := some now } : UserRec).sessionsJoined s =
      some { m with foundArtifacts := setAdd m.foundArtifacts a } := by
    simp [lookupA_insertA]
  have hsess1 : (UserService.addFoundArtifact u s a now db).2.sessions = db.sessions := by
    rw [e1]
  obtain ⟨tv, htv⟩ := Option.isSome_iff_exists.mp hpart
  have hfound1 : foundNode (UserService.addFoundArtifact u s a now db).2 u s a = true := by
    simp [foundNode, hu1, hm1, hasKey_setAdd]
  refine ⟨by rw [key1], ?_, ?_, ?_, ?_⟩
  · have hany : ssS.participants.any
        (fun p => foundNode (UserService.addFoundArtifact u s a now db).2 p.1 s a) = true :=
      List.any_eq_true.mpr ⟨(u, tv), lookupA_mem htv, hfound1⟩
    simp [SessionService.removeArtifact, hsess1, hss, harts, hhas, hany]
  · simp [UserService.removeFoundArtifact, hu1, hm1, hasKey_setAdd]
  all_goals {
    have key2 : UserService.removeFoundArtifact u s a now2 (UserService.addFoundArtifact u s a now db).2 =
        (.ok (), touchUser (updMembership (UserService.addFoundArtifact u s a now db).2 u s
          (fun mm => { mm with foundArtifacts := setDel mm.foundArtifacts a })) u now2) := by
      simp [UserService.removeFoundArtifact, hu1, hm1, hasKey_setAdd]
    have e2 : (UserService.removeFoundArtifact u s a now2 (UserService.addFoundArtifact u s a now db).2).2 =
        { db with users := insertA db.users u { user with sessionsJoined := insertA user.sessionsJoined s { m with foundArtifacts := setDel (setAdd m.foundArtifacts a) a }, updatedAt := some now2 } } := by
      rw [key2, updMembership_eq _ hu1 hm1, e1]
      rw [touchUser_after_insert]
      simp [insertA_insertA]
    have hscan2 : ssS.participants.any
        (fun p => foundNode (UserService.removeFoundArtifact u s a now2 (UserService.addFoundArtifact u s a now db).2).2 p.1 s a) = false := by
      rw [Bool.eq_false_iff]
      intro hany
      obtain ⟨p, hpmem, hpfound⟩ := List.any_eq_true.mp hany
      by_cases hpu : p.1 = u
      · rw [hpu] at hpfound
        rw [e2] at hpfound
        simp [foundNode, lookupA_insertA, hasKey_setDel] at hpfound
      · rw [e2] at hpfound
        have hup : ¬ (u = p.1) := fun hh => hpu hh.symm
        have hfp : foundNode db p.1 s a = true := by
          simpa [foundNode, lookupA_insertA, hup] using hpfound
        have hnf : ∀ x y, (x, y) ∈ ssS.participants → x = u ∨ foundNode db x s a = false := by
          simpa [noOtherFinder, hss] using hno
        rcases hnf p.1 p.2 (by simpa using hpmem) with h | h
        · exact hpu h
        · simp [h] at hfp
    have hsess2 : (UserService.removeFoundArtifact u s a now2 (UserService.addFoundArtifact u s a now db).2).2.sessions = db.sessions := by
      rw [e2]
    simp [SessionService.removeArtifact, hsess2, hss, harts, hhas, hscan2,
      sessionArtifactsHas, artifactNodeExists, lookupA_updSession, hasKey_setDel]
  }

/-- Witness for `found_artifact_ratchet` at the concrete store. -/
theorem found_artifact_ratchet_witness :
    (UserService.addFoundArtifact "u1" "s1" "a1" 2 ratchetDB).1 = .ok () ∧
    SessionService.removeArtifact "s1" "a1" (UserService.addFoundArtifact "u1" "s1" "a1" 2 ratchetDB).2 =
      (.error (.failure "Cannot remove artifact that has been found by users"),
        (UserService.addFoundArtifact "u1" "s1" "a1" 2 ratchetDB).2) ∧
    (UserService.removeFoundArtifact "u1" "s1" "a1" 3 (UserService.addFoundArtifact "u1" "s1" "a1" 2 ratchetDB).2).1 = .ok () ∧
    (SessionService.removeArtifact "s1" "a1"
      (UserService.removeFoundArtifact "u1" "s1" "a1" 3 (UserService.addFoundArtifact "u1" "s1" "a1" 2 ratchetDB).2).2).1 = .ok () ∧
    sessionArtifactsHas (SessionService.removeArtifact "s1" "a1"
      (UserService.removeFoundArtifact "u1" "s1" "a1" 3 (UserService.addFoundArtifact "u1" "s1" "a1" 2 ratchetDB).2).2).2 "s1" "a1" = false :=
  found_artifact_ratchet ratchetDB "u1" "s1" "a1" 2 3
    ((lookupA ratchetDB.users "u1").getD (UserService.newUser 0))
    ((lookupA ((lookupA ratchetDB.users "u1").getD (UserService.newUser 0)).sessionsJoined "s1").getD
      (Membership.mk none 0 []))
    ((lookupA ratchetDB.sessions "s1").getD (SessionService.newSession "c"))
    ["a1"]
    (by decide) (by decide) (by decide) (by decide) (by decide) (by decide) (by decide)

/-! ## Claim C3: team reassignment is a move -/

/-- C3.  A user already on team `A` in session `S` who is assigned to a
different team `B` of the same session: the call succeeds, and afterwards
the user is absent from `A.members`, present in `B.members`,
`Session(S).participants[u] == B`, and the single `teamId` recorded for
`S` is `B`. -/
theorem assign_team_is_a_move (db : DB) (u S A B : String) (now : Int)
    (user : UserRec) (m : Membership) (tb : TeamRec)
    (hu : lookupA db.users u = some user)
    (hm : lookupA user.sessionsJoined S = some m)
    (hA : m.teamId = some A) (hAne : A ≠ "")
    (hmem : teamHasMember db A u = true)
    (htb : lookupA db.teams B = some tb)
    (hts : tb.sessionId = some S)
    (hS : (lookupA db.sessions S).isSome = true)
    (hAB : A ≠ B) :
    (UserService.assignUserToTeam u S B now db).1 = .ok () ∧
    teamHasMember (UserService.assignUserToTeam u S B now db).2 A u = false ∧
    teamHasMember (UserService.assignUserToTeam u S B now db).2 B u = true ∧
    participantEntry (UserService.assignUserToTeam u S B now db).2 S u = some B ∧
    userTeamId (UserService.assignUserToTeam u S B now db).2 u S = some B := by
  obtain ⟨rA, hrA⟩ : ∃ rA, lookupA db.teams A = some rA := by
    unfold teamHasMember at hmem
    cases hx : lookupA db.teams A with
    | none => rw [hx] at hmem; simp at hmem
    | some rA => exact ⟨rA, rfl⟩
  obtain ⟨ssS, hssS⟩ := Option.isSome_iff_exists.mp hS
  have key : UserService.assignUserToTeam u S B now db =
      (.ok (), touchUser (updSession (updTeam (updMembership
        (updTeam db A (fun tr => { tr with members := setDel tr.members u }))
        u S (fun mm => { mm with teamId := some B }))
        B (fun tr => { tr with members := setAdd tr.members u }))
        S (fun ss => { ss with participants := insertA ss.participants u B })) u now) := by
    simp [UserService.assignUserToTeam, hu, hm, htb, hts, hA, hAne, truthyS]
  have hBA : B ≠ A := Ne.symm hAB
  refine ⟨by rw [key], ?_, ?_, ?_, ?_⟩
  · rw [key]
    simp [teamHasMember, touchUser, updMembership, lookupA_updTeam, hAB, hBA, hrA,
      hasKey_setDel]
  · rw [key]
    simp [teamHasMember, touchUser, updMembership, lookupA_updTeam, hAB, hBA, htb,
      hasKey_setAdd]
  · rw [key]
    simp [participantEntry, touchUser, updMembership, lookupA_updSession, hssS,
      lookupA_insertA]
  · rw [key]
    simp [userTeamId, sjEntry, touchUser, updMembership, lookupA_updUser, hu, hm,
      lookupA_insertA]

/-- Witness for `assign_team_is_a_move` at the concrete store. -/
theorem assign_team_is_a_move_witness :
    (UserService.assignUserToTeam "u1" "s1" "t2" 3 twoTeamDB).1 = .ok () ∧
    teamHasMember (UserService.assignUserToTeam "u1" "s1" "t2" 3 twoTeamDB).2 "t1" "u1" = false ∧
    teamHasMember (UserService.assignUserToTeam "u1" "s1" "t2" 3 twoTeamDB).2 "t2" "u1" = true ∧
    participantEntry (UserService.assignUserToTeam "u1" "s1" "t2" 3 twoTeamDB).2 "s1" "u1" = some "t2" ∧
    userTeamId (UserService.assignUserToTeam "u1" "s1" "t2" 3 twoTeamDB).2 "u1" "s1" = some "t2" :=
  assign_team_is_a_move twoTeamDB "u1" "s1" "t1" "t2" 3
    ((lookupA twoTeamDB.users "u1").getD (UserService.newUser 0))
    ((lookupA ((lookupA twoTeamDB.users "u1").getD (UserService.newUser 0)).sessionsJoined "s1").getD
      (Membership.mk none 0 []))
    ((lookupA twoTeamDB.teams "t2").getD TeamService.newTeam)
    (by decide) (by decide) (by decide) (by decide) (by decide) (by decide) (by decide)
    (by decide) (by decide)

/-! ## Claim C1: invariant preservation

Observer lemmas over explicit store shapes `{ db with comp := insertA l k v }`
and `{ db with comp := eraseA l k }`, into which each successful operation's
final state normalizes. -/

theorem updUser_eq {db : DB} {u : String} {r : UserRec} (f : UserRec → UserRec)
    (hu : lookupA db.users u = some r) :
    updUser db u f = { db with users := insertA db.users u (f r) } := by
  simp only [updUser, hu]

theorem updSession_eq {db : DB} {s : String} {r : SessionRec} (f : SessionRec → SessionRec)
    (hs : lookupA db.sessions s = some r) :
    updSession db s f = { db with sessions := insertA db.sessions s (f r) } := by
  simp only [updSession, hs]

theorem updTeam_eq {db : DB} {t : String} {r : TeamRec} (f : TeamRec → TeamRec)
    (ht : lookupA db.teams t = some r) :
    updTeam db t f = { db with teams := insertA db.teams t (f r) } := by
  simp only [updTeam, ht]

theorem updArtifact_eq {db : DB} {a : String} {r : ArtifactRec} (f : ArtifactRec → ArtifactRec)
    (ha : lookupA db.artifacts a = some r) :
    updArtifact db a f = { db with artifacts := insertA db.artifacts a (f r) } := by
  simp only [updArtifact, ha]

theorem sjEntry_set (lu : AssocL UserRec) (ls : AssocL SessionRec) (lt : AssocL TeamRec)
    (la : AssocL ArtifactRec) (u s : String) :
    sjEntry ⟨lu, ls, lt, la⟩ u s =
      (match lookupA lu u with
       | none => none
       | some r => lookupA r.sessionsJoined s) := rfl

theorem sjEntry_insert (lu : AssocL UserRec) (ls : AssocL SessionRec) (lt : AssocL TeamRec)
    (la : AssocL ArtifactRec) (w : String) (r : UserRec) (u s : String) :
    sjEntry ⟨insertA lu w r, ls, lt, la⟩ u s =
      if w = u then lookupA r.sessionsJoined s else sjEntry ⟨lu, ls, lt, la⟩ u s := by
  rw [sjEntry_set, sjEntry_set, lookupA_insertA]
  by_cases h : w = u <;> simp [h]

theorem sjEntry_erase (lu : AssocL UserRec) (ls : AssocL SessionRec) (lt : AssocL TeamRec)
    (la : AssocL ArtifactRec) (w : String) (u s : String) :
    sjEntry ⟨eraseA lu w, ls, lt, la⟩ u s =
      if w = u then none else sjEntry ⟨lu, ls, lt, la⟩ u s := by
  rw [sjEntry_set, sjEntry_set, lookupA_eraseA]
  by_cases h : w = u <;> simp [h]

theorem userTeamId_eq_sjEntry (db : DB) (u s : String) :
    userTeamId db u s = (sjEntry db u s).bind Membership.teamId := by
  unfold userTeamId
  cases sjEntry db u s <;> rfl

theorem userFound_eq_sjEntry (db : DB) (u s a : String) :
    userFound db u s a =
      ((sjEntry db u s).map (fun mm => hasKey mm.foundArtifacts a)).getD false := by
  unfold userFound foundNode sjEntry
  cases lookupA db.users u with
  | none => rfl
  | some r => cases hm : lookupA r.sessionsJoined s <;> simp [hm]

theorem participantEntry_set (lu : AssocL UserRec) (ls : AssocL SessionRec) (lt : AssocL TeamRec)
    (la : AssocL ArtifactRec) (s u : String) :
    participantEntry ⟨lu, ls, lt, la⟩ s u =
      (match lookupA ls s with
       | none => none
       | some ss => lookupA ss.participants u) := rfl

theorem participantEntry_insert (lu : AssocL UserRec) (ls : AssocL SessionRec) (lt : AssocL TeamRec)
    (la : AssocL ArtifactRec) (w : String) (r : SessionRec) (s u : String) :
    participantEntry ⟨lu, insertA ls w r, lt, la⟩ s u =
      if w = s then lookupA r.participants u else participantEntry ⟨lu, ls, lt, la⟩ s u := by
  rw [participantEntry_set, participantEntry_set, lookupA_insertA]
  by_cases h : w = s <;> simp [h]

theorem participantEntry_erase (lu : AssocL UserRec) (ls : AssocL SessionRec) (lt : AssocL TeamRec)
    (la : AssocL ArtifactRec) (w : String) (s u : String) :
    participantEntry ⟨lu, eraseA ls w, lt, la⟩ s u =
      if w = s then none else participantEntry ⟨lu, ls, lt, la⟩ s u := by
  rw [participantEntry_set, participantEntry_set, lookupA_eraseA]
  by_cases h : w = s <;> simp [h]

theorem sessionTeamsHas_set (lu : AssocL UserRec) (ls : AssocL SessionRec) (lt : AssocL TeamRec)
    (la : AssocL ArtifactRec) (s t : String) :
    sessionTeamsHas ⟨lu, ls, lt, la⟩ s t =
      (match lookupA ls s with
       | none => false
       | some ss => hasKey ss.teams t) := rfl

theorem sessionTeamsHas_insert (lu : AssocL UserRec) (ls : AssocL SessionRec) (lt : AssocL TeamRec)
    (la : AssocL ArtifactRec) (w : String) (r : SessionRec) (s t : String) :
    sessionTeamsHas ⟨lu, insertA ls w r, lt, la⟩ s t =
      if w = s then hasKey r.teams t else sessionTeamsHas ⟨lu, ls, lt, la⟩ s t := by
  rw [sessionTeamsHas_set, sessionTeamsHas_set, lookupA_insertA]
  by_cases h : w = s <;> simp [h]

theorem sessionTeamsHas_erase (lu : AssocL UserRec) (ls : AssocL SessionRec) (lt : AssocL TeamRec)
    (la : AssocL ArtifactRec) (w : String) (s t : String) :
    sessionTeamsHas ⟨lu, eraseA ls w, lt, la⟩ s t =
      if w = s then false else sessionTeamsHas ⟨lu, ls, lt, la⟩ s t := by
  rw [sessionTeamsHas_set, sessionTeamsHas_set, lookupA_eraseA]
  by_cases h : w = s <;> simp [h]

theorem sessionArtifactsHas_set (lu : AssocL UserRec) (ls : AssocL SessionRec) (lt : AssocL TeamRec)
    (la : AssocL ArtifactRec) (s a : String) :
    sessionArtifactsHas ⟨lu, ls, lt, la⟩ s a =
      (match lookupA ls s with
       | none => false
       | some ss =>
         match ss.artifacts with
         | none => false
         | some arts => hasKey arts a) := rfl

theorem sessionArtifactsHas_insert (lu : AssocL UserRec) (ls : AssocL SessionRec) (lt : AssocL TeamRec)
    (la : AssocL ArtifactRec) (w : String) (r : SessionRec) (s a : String) :
    sessionArtifactsHas ⟨lu, insertA ls w r, lt, la⟩ s a =
      if w = s then (match r.artifacts with
                     | none => false
                     | some arts => hasKey arts a)
      else sessionArtifactsHas ⟨lu, ls, lt, la⟩ s a := by
  rw [sessionArtifactsHas_set, sessionArtifactsHas_set, lookupA_insertA]
  by_cases h : w = s <;> simp [h]

theorem sessionArtifactsHas_erase (lu : AssocL UserRec) (ls : AssocL SessionRec) (lt : AssocL TeamRec)
    (la : AssocL ArtifactRec) (w : String) (s a : String) :
    sessionArtifactsHas ⟨lu, eraseA ls w, lt, la⟩ s a =
      if w = s then false else sessionArtifactsHas ⟨lu, ls, lt, la⟩ s a := by
  rw [sessionArtifactsHas_set, sessionArtifactsHas_set, lookupA_eraseA]
  by_cases h : w = s <;> simp [h]

theorem teamHasMember_set (lu : AssocL UserRec) (ls : AssocL SessionRec) (lt : AssocL TeamRec)
    (la : AssocL ArtifactRec) (t u : String) :
    teamHasMember ⟨lu, ls, lt, la⟩ t u =
      (match lookupA lt t with
       | none => false
       | some tr => hasKey tr.members u) := rfl

theorem teamHasMember_insert (lu : AssocL UserRec) (ls : AssocL SessionRec) (lt : AssocL TeamRec)
    (la : AssocL ArtifactRec) (w : String) (r : TeamRec) (t u : String) :
    teamHasMember ⟨lu, ls, insertA lt w r, la⟩ t u =
      if w = t then hasKey r.members u else teamHasMember ⟨lu, ls, lt, la⟩ t u := by
  rw [teamHasMember_set, teamHasMember_set, lookupA_insertA]
  by_cases h : w = t <;> simp [h]

theorem teamHasMember_erase (lu : AssocL UserRec) (ls : AssocL SessionRec) (lt : AssocL TeamRec)
    (la : AssocL ArtifactRec) (w : String) (t u : String) :
    teamHasMember ⟨lu, ls, eraseA lt w, la⟩ t u =
      if w = t then false else teamHasMember ⟨lu, ls, lt, la⟩ t u := by
  rw [teamHasMember_set, teamHasMember_set, lookupA_eraseA]
  by_cases h : w = t <;> simp [h]

theorem teamSessionId_set (lu : AssocL UserRec) (ls : AssocL SessionRec) (lt : AssocL TeamRec)
    (la : AssocL ArtifactRec) (t : String) :
    teamSessionId ⟨lu, ls, lt, la⟩ t =
      (match lookupA lt t with
       | none => none
       | some tr => tr.sessionId) := rfl

theorem teamSessionId_insert (lu : AssocL UserRec) (ls : AssocL SessionRec) (lt : AssocL TeamRec)
    (la : AssocL ArtifactRec) (w : String) (r : TeamRec) (t : String) :
    teamSessionId ⟨lu, ls, insertA lt w r, la⟩ t =
      if w = t then r.sessionId else teamSessionId ⟨lu, ls, lt, la⟩ t := by
  rw [teamSessionId_set, teamSessionId_set, lookupA_insertA]
  by_cases h : w = t <;> simp [h]

theorem teamSessionId_erase (lu : AssocL UserRec) (ls : AssocL SessionRec) (lt : AssocL TeamRec)
    (la : AssocL ArtifactRec) (w : String) (t : String) :
    teamSessionId ⟨lu, ls, eraseA lt w, la⟩ t =
      if w = t then none else teamSessionId ⟨lu, ls, lt, la⟩ t := by
  rw [teamSessionId_set, teamSessionId_set, lookupA_eraseA]
  by_cases h : w = t <;> simp [h]

theorem artifactExists_set (lu : AssocL UserRec) (ls : AssocL SessionRec) (lt : AssocL TeamRec)
    (la : AssocL ArtifactRec) (a : String) :
    artifactExists ⟨lu, ls, lt, la⟩ a = (lookupA la a).isSome := rfl

theorem artifactExists_insert (lu : AssocL UserRec) (ls : AssocL SessionRec) (lt : AssocL TeamRec)
    (la : AssocL ArtifactRec) (w : String) (r : ArtifactRec) (a : String) :
    artifactExists ⟨lu, ls, lt, insertA la w r⟩ a =
      if w = a then true else artifactExists ⟨lu, ls, lt, la⟩ a := by
  rw [artifactExists_set, artifactExists_set, lookupA_insertA]
  by_cases h : w = a <;> simp [h]

theorem artifactExists_erase (lu : AssocL UserRec) (ls : AssocL SessionRec) (lt : AssocL TeamRec)
    (la : AssocL ArtifactRec) (w : String) (a : String) :
    artifactExists ⟨lu, ls, lt, eraseA la w⟩ a =
      if w = a then false else artifactExists ⟨lu, ls, lt, la⟩ a := by
  rw [artifactExists_set, artifactExists_set, lookupA_eraseA]
  by_cases h : w = a <;> simp [h]


/-- Structure eta: setting a component to itself is the identity store. -/
theorem db_set_users_self (db : DB) : ({ db with users := db.users } : DB) = db := rfl

theorem db_set_sessions_self (db : DB) : ({ db with sessions := db.sessions } : DB) = db := rfl

theorem db_set_teams_self (db : DB) : ({ db with teams := db.teams } : DB) = db := rfl

theorem db_set_artifacts_self (db : DB) : ({ db with artifacts := db.artifacts } : DB) = db := rfl

theorem updUser_none {db : DB} {u : String} (f : UserRec → UserRec)
    (h : lookupA db.users u = none) : updUser db u f = db := by
  simp [updUser, h]

theorem updSession_none {db : DB} {s : String} (f : SessionRec → SessionRec)
    (h : lookupA db.sessions s = none) : updSession db s f = db := by
  simp [updSession, h]

theorem updTeam_none {db : DB} {t : String} (f : TeamRec → TeamRec)
    (h : lookupA db.teams t = none) : updTeam db t f = db := by
  simp [updTeam, h]

theorem sjEntry_congr {db db' : DB} (h : db'.users = db.users) (u s : String) :
    sjEntry db' u s = sjEntry db u s := by
  unfold sjEntry; rw [h]

theorem participantEntry_congr {db db' : DB} (h : db'.sessions = db.sessions) (s u : String) :
    participantEntry db' s u = participantEntry db s u := by
  unfold participantEntry; rw [h]

theorem sessionTeamsHas_congr {db db' : DB} (h : db'.sessions = db.sessions) (s t : String) :
    sessionTeamsHas db' s t = sessionTeamsHas db s t := by
  unfold sessionTeamsHas; rw [h]

theorem sessionArtifactsHas_congr {db db' : DB} (h : db'.sessions = db.sessions) (s a : String) :
    sessionArtifactsHas db' s a = sessionArtifactsHas db s a := by
  unfold sessionArtifactsHas artifactNodeExists; rw [h]

theorem teamHasMember_congr {db db' : DB} (h : db'.teams = db.teams) (t u : String) :
    teamHasMember db' t u = teamHasMember db t u := by
  unfold teamHasMember; rw [h]

theorem teamSessionId_congr {db db' : DB} (h : db'.teams = db.teams) (t : String) :
    teamSessionId db' t = teamSessionId db t := by
  unfold teamSessionId; rw [h]

theorem artifactExists_congr {db db' : DB} (h : db'.artifacts = db.artifacts) (a : String) :
    artifactExists db' a = artifactExists db a := by
  unfold artifactExists; rw [h]

/-- Transport of the inductive invariant along observer equality: a store
on which every invariant-relevant observer agrees with an invariant store
is itself invariant. -/
theorem IndInv.of_observers {db db' : DB}
    (hsj : ∀ u s, sjEntry db' u s = sjEntry db u s)
    (hpe : ∀ s u, participantEntry db' s u = participantEntry db s u)
    (hth : ∀ t u, teamHasMember db' t u = teamHasMember db t u)
    (hts : ∀ t, teamSessionId db' t = teamSessionId db t)
    (hst : ∀ s t, sessionTeamsHas db' s t = sessionTeamsHas db s t)
    (hsa : ∀ s a, sessionArtifactsHas db' s a = sessionArtifactsHas db s a)
    (hae : ∀ a, artifactExists db' a = artifactExists db a)
    (hI : IndInv db) : IndInv db' := by
  have hut : ∀ u s, userTeamId db' u s = userTeamId db u s := by
    intro u s
    rw [userTeamId_eq_sjEntry, userTeamId_eq_sjEntry, hsj]
  have huf : ∀ u s a, userFound db' u s a = userFound db u s a := by
    intro u s a
    rw [userFound_eq_sjEntry, userFound_eq_sjEntry, hsj]
  refine ⟨?_, ?_, ?_, ?_, ?_, ?_, ?_⟩
  · intro u s
    rw [hsj, hpe]
    exact hI.i1 u s
  · intro u s t ht
    rw [hut, hth, hpe]
    exact hI.i2 u s t ht
  · intro t s hs
    rw [hts, hst]
    exact hI.i3 t s hs
  · intro u s a hf
    rw [huf] at hf
    rw [hsa]
    exact hI.i4a u s a hf
  · intro s a hf
    rw [hsa] at hf
    rw [hae]
    exact hI.i4b s a hf
  · intro u s t ht
    rw [hut] at ht
    rw [hts]
    exact hI.aux u s t ht
  · intro s u t hp ht
    rw [hpe] at hp
    rw [hut]
    exact hI.aux2 s u t hp ht

/-- `touchUser` as an `updUser`. -/
theorem touchUser_eq_updUser (db : DB) (u : String) (now : Int) :
    touchUser db u now = updUser db u (fun r => { r with updatedAt := some now }) := rfl

theorem sjEntry_updUser_keep {db : DB} {u : String} {f : UserRec → UserRec}
    (hf : ∀ r, (f r).sessionsJoined = r.sessionsJoined) (u' s' : String) :
    sjEntry (updUser db u f) u' s' = sjEntry db u' s' := by
  cases hu : lookupA db.users u with
  | none => rw [updUser_none _ hu]
  | some r =>
    rw [updUser_eq f hu, sjEntry_insert, db_set_users_self]
    by_cases h : u = u'
    · subst h
      rw [if_pos rfl, hf]
      unfold sjEntry
      rw [hu]
    · rw [if_neg h]

/-- Observer preservation for an `updUser` whose transform keeps
`sessionsJoined`: every invariant observer is unchanged. -/
theorem indInv_updUser_keep {db : DB} {u : String} {f : UserRec → UserRec}
    (hf : ∀ r, (f r).sessionsJoined = r.sessionsJoined)
    (hI : IndInv db) : IndInv (updUser db u f) :=
  IndInv.of_observers (sjEntry_updUser_keep hf)
    (participantEntry_congr (updUser_sessions db u f))
    (teamHasMember_congr (updUser_teams db u f))
    (teamSessionId_congr (updUser_teams db u f))
    (sessionTeamsHas_congr (updUser_sessions db u f))
    (sessionArtifactsHas_congr (updUser_sessions db u f))
    (artifactExists_congr (updUser_artifacts db u f))
    hI

/-- Observer preservation for an `updSession` whose transform keeps the
three association collections. -/
theorem indInv_updSession_keep {db : DB} {s : String} {f : SessionRec → SessionRec}
    (hfp : ∀ ss, (f ss).participants = ss.participants)
    (hft : ∀ ss, (f ss).teams = ss.teams)
    (hfa : ∀ ss, (f ss).artifacts = ss.artifacts)
    (hI : IndInv db) : IndInv (updSession db s f) := by
  cases hsl : lookupA db.sessions s with
  | none => rw [updSession_none _ hsl]; exact hI
  | some r =>
    rw [updSession_eq f hsl]
    refine @IndInv.of_observers db _ (fun u s' => sjEntry_congr rfl u s') ?_
      (fun t u => teamHasMember_congr rfl t u) (fun t => teamSessionId_congr rfl t) ?_ ?_
      (fun a => artifactExists_congr rfl a) hI
    · intro s' u
      rw [participantEntry_insert]
      by_cases h : s = s'
      · subst h
        rw [if_pos rfl, hfp]
        unfold participantEntry
        rw [hsl]
      · rw [if_neg h]
    · intro s' t
      rw [sessionTeamsHas_insert]
      by_cases h : s = s'
      · subst h
        rw [if_pos rfl, hft]
        unfold sessionTeamsHas
        rw [hsl]
      · rw [if_neg h]
    · intro s' a
      rw [sessionArtifactsHas_insert]
      by_cases h : s = s'
      · subst h
        rw [if_pos rfl, hfa]
        unfold sessionArtifactsHas artifactNodeExists
        rw [hsl]
      · rw [if_neg h]

/-- Observer preservation for an `updTeam` whose transform keeps
`members` and `sessionId`. -/
theorem indInv_updTeam_keep {db : DB} {t : String} {f : TeamRec → TeamRec}
    (hfm : ∀ tr, (f tr).members = tr.members)
    (hfs : ∀ tr, (f tr).sessionId = tr.sessionId)
    (hI : IndInv db) : IndInv (updTeam db t f) := by
  cases htl : lookupA db.teams t with
  | none => rw [updTeam_none _ htl]; exact hI
  | some r =>
    rw [updTeam_eq f htl]
    refine @IndInv.of_observers db _ (fun u s => sjEntry_congr rfl u s)
      (fun s u => participantEntry_congr rfl s u) ?_ ?_
      (fun s t' => sessionTeamsHas_congr rfl s t') (fun s a => sessionArtifactsHas_congr rfl s a)
      (fun a => artifactExists_congr rfl a) hI
    · intro t' u
      rw [teamHasMember_insert]
      by_cases h : t = t'
      · subst h
        rw [if_pos rfl, hfm]
        unfold teamHasMember
        rw [htl]
      · rw [if_neg h]
    · intro t'
      rw [teamSessionId_insert]
      by_cases h : t = t'
      · subst h
        rw [if_pos rfl, hfs]
        unfold teamSessionId
        rw [htl]
      · rw [if_neg h]

/-- Observer preservation for any `updArtifact`: only existence of the
artifact id matters to the invariants, and updates keep the id present. -/
theorem indInv_updArtifact (db : DB) (a : String) (f : ArtifactRec → ArtifactRec)
    (hI : IndInv db) : IndInv (updArtifact db a f) := by
  cases hal : lookupA db.artifacts a with
  | none => unfold updArtifact; rw [hal]; exact hI
  | some r =>
    rw [updArtifact_eq f hal]
    refine @IndInv.of_observers db _ (fun u s => sjEntry_congr rfl u s)
      (fun s u => participantEntry_congr rfl s u) (fun t u => teamHasMember_congr rfl t u)
      (fun t => teamSessionId_congr rfl t) (fun s t => sessionTeamsHas_congr rfl s t)
      (fun s a' => sessionArtifactsHas_congr rfl s a') ?_ hI
    intro a'
    rw [artifactExists_insert, db_set_artifacts_self]
    by_cases h : a = a'
    · subst h
      rw [if_pos rfl]
      unfold artifactExists
      rw [hal]
      rfl
    · rw [if_neg h]

/-! Frame lemmas: observers are unaffected by setting a foreign component.
All hold by definitional unfolding. -/

@[simp] theorem pe_users_set (db : DB) (l : AssocL UserRec) (s u : String) :
    participantEntry { db with users := l } s u = participantEntry db s u := rfl

@[simp] theorem st_users_set (db : DB) (l : AssocL UserRec) (s t : String) :
    sessionTeamsHas { db with users := l } s t = sessionTeamsHas db s t := rfl

@[simp] theorem sa_users_set (db : DB) (l : AssocL UserRec) (s a : String) :
    sessionArtifactsHas { db with users := l } s a = sessionArtifactsHas db s a := rfl

@[simp] theorem tm_users_set (db : DB) (l : AssocL UserRec) (t u : String) :
    teamHasMember { db with users := l } t u = teamHasMember db t u := rfl

@[simp] theorem ts_users_set (db : DB) (l : AssocL UserRec) (t : String) :
    teamSessionId { db with users := l } t = teamSessionId db t := rfl

@[simp] theorem ae_users_set (db : DB) (l : AssocL UserRec) (a : String) :
    artifactExists { db with users := l } a = artifactExists db a := rfl

@[simp] theorem sj_sessions_set (db : DB) (l : AssocL SessionRec) (u s : String) :
    sjEntry { db with sessions := l } u s = sjEntry db u s := rfl

@[simp] theorem ut_sessions_set (db : DB) (l : AssocL SessionRec) (u s : String) :
    userTeamId { db with sessions := l } u s = userTeamId db u s := rfl

@[simp] theorem uf_sessions_set (db : DB) (l : AssocL SessionRec) (u s a : String) :
    userFound { db with sessions := l } u s a = userFound db u s a := rfl

@[simp] theorem tm_sessions_set (db : DB) (l : AssocL SessionRec) (t u : String) :
    teamHasMember { db with sessions := l } t u = teamHasMember db t u := rfl

@[simp] theorem ts_sessions_set (db : DB) (l : AssocL SessionRec) (t : String) :
    teamSessionId { db with sessions := l } t = teamSessionId db t := rfl

@[simp] theorem ae_sessions_set (db : DB) (l : AssocL SessionRec) (a : String) :
    artifactExists { db with sessions := l } a = artifactExists db a := rfl

@[simp] theorem sj_teams_set (db : DB) (l : AssocL TeamRec) (u s : String) :
    sjEntry { db with teams := l } u s = sjEntry db u s := rfl

@[simp] theorem ut_teams_set (db : DB) (l : AssocL TeamRec) (u s : String) :
    userTeamId { db with teams := l } u s = userTeamId db u s := rfl

@[simp] theorem uf_teams_set (db : DB) (l : AssocL TeamRec) (u s a : String) :
    userFound { db with teams := l } u s a = userFound db u s a := rfl

@[simp] theorem pe_teams_set (db : DB) (l : AssocL TeamRec) (s u : String) :
    participantEntry { db with teams := l } s u = participantEntry db s u := rfl

@[simp] theorem st_teams_set (db : DB) (l : AssocL TeamRec) (s t : String) :
    sessionTeamsHas { db with teams := l } s t = sessionTeamsHas db s t := rfl

@[simp] theorem sa_teams_set (db : DB) (l : AssocL TeamRec) (s a : String) :
    sessionArtifactsHas { db with teams := l } s a = sessionArtifactsHas db s a := rfl

@[simp] theorem ae_teams_set (db : DB) (l : AssocL TeamRec) (a : String) :
    artifactExists { db with teams := l } a = artifactExists db a := rfl

@[simp] theorem sj_artifacts_set (db : DB) (l : AssocL ArtifactRec) (u s : String) :
    sjEntry { db with artifacts := l } u s = sjEntry db u s := rfl

@[simp] theorem ut_artifacts_set (db : DB) (l : AssocL ArtifactRec) (u s : String) :
    userTeamId { db with artifacts := l } u s = userTeamId db u s := rfl

@[simp] theorem uf_artifacts_set (db : DB) (l : AssocL ArtifactRec) (u s a : String) :
    userFound { db with artifacts := l } u s a = userFound db u s a := rfl

@[simp] theorem pe_artifacts_set (db : DB) (l : AssocL ArtifactRec) (s u : String) :
    participantEntry { db with artifacts := l } s u = participantEntry db s u := rfl

@[simp] theorem st_artifacts_set (db : DB) (l : AssocL ArtifactRec) (s t : String) :
    sessionTeamsHas { db with artifacts := l } s t = sessionTeamsHas db s t := rfl

@[simp] theorem sa_artifacts_set (db : DB) (l : AssocL ArtifactRec) (s a : String) :
    sessionArtifactsHas { db with artifacts := l } s a = sessionArtifactsHas db s a := rfl

@[simp] theorem tm_artifacts_set (db : DB) (l : AssocL ArtifactRec) (t u : String) :
    teamHasMember { db with artifacts := l } t u = teamHasMember db t u := rfl

@[simp] theorem ts_artifacts_set (db : DB) (l : AssocL ArtifactRec) (t : String) :
    teamSessionId { db with artifacts := l } t = teamSessionId db t := rfl

/-- `sjEntry` of an absent user is absent. -/
theorem sjEntry_of_user_none {db : DB} {u : String} (h : lookupA db.users u = none)
    (s : String) : sjEntry db u s = none := by
  unfold sjEntry; rw [h]

/-- `sjEntry` through a user lookup. -/
theorem sjEntry_of_user_some {db : DB} {u : String} {r : UserRec}
    (h : lookupA db.users u = some r) (s : String) :
    sjEntry db u s = lookupA r.sessionsJoined s := by
  unfold sjEntry; rw [h]

/-- Observer preservation for an `updMembership` whose transform keeps
`teamId` and only grows `foundArtifacts` with artifacts the session
offers. -/
theorem indInv_updMembership {db : DB} {u s : String} {f : Membership → Membership}
    (htid : ∀ mm, (f mm).teamId = mm.teamId)
    (hgrow : ∀ mm a', hasKey (f mm).foundArtifacts a' = true →
      hasKey mm.foundArtifacts a' = true ∨ sessionArtifactsHas db s a' = true)
    (hI : IndInv db) : IndInv (updMembership db u s f) := by
  cases hu : lookupA db.users u with
  | none => rw [updMembership, updUser_none _ hu]; exact hI
  | some user =>
    cases hm : lookupA user.sessionsJoined s with
    | none =>
      rw [updMembership, updUser_eq _ hu, hm]
      have hsj : ∀ u' s', sjEntry { db with users := insertA db.users u user } u' s' = sjEntry db u' s' := by
        intro u' s'
        rw [sjEntry_insert, db_set_users_self]
        by_cases h : u = u'
        · subst h
          rw [if_pos rfl, sjEntry_of_user_some hu]
        · rw [if_neg h]
      exact @IndInv.of_observers db _ hsj (fun s' u' => rfl)
        (fun t u' => rfl) (fun t => rfl) (fun s' t => rfl) (fun s' a => rfl) (fun a => rfl) hI
    | some m =>
      rw [updMembership_eq f hu hm]
      have hsjm : sjEntry db u s = some m := by rw [sjEntry_of_user_some hu, hm]
      have hsj : ∀ u' s', sjEntry { db with users := insertA db.users u { user with sessionsJoined := insertA user.sessionsJoined s (f m) } } u' s' =
          if u = u' ∧ s = s' then some (f m) else sjEntry db u' s' := by
        intro u' s'
        rw [sjEntry_insert, db_set_users_self]
        by_cases h : u = u'
        · subst h
          rw [if_pos rfl, lookupA_insertA]
          by_cases h2 : s = s'
          · simp [h2]
          · rw [if_neg h2, if_neg (by simp [h2]), sjEntry_of_user_some hu]
        · rw [if_neg h, if_neg (by simp [h])]
      refine ⟨?_, ?_, ?_, ?_, ?_, ?_, ?_⟩
      · intro u' s'
        rw [hsj, pe_users_set]
        by_cases h : u = u' ∧ s = s'
        · rw [if_pos h]
          obtain ⟨h1, h2⟩ := h
          subst h1; subst h2
          have h0 := hI.i1 u s
          rw [hsjm] at h0
          simpa using h0
        · rw [if_neg h]
          exact hI.i1 u' s'
      · intro u' s' t ht
        rw [userTeamId_eq_sjEntry, hsj, pe_users_set, tm_users_set]
        by_cases h : u = u' ∧ s = s'
        · rw [if_pos h]
          obtain ⟨h1, h2⟩ := h
          subst h1; subst h2
          have h2' := hI.i2 u s t ht
          rw [userTeamId_eq_sjEntry, hsjm] at h2'
          simpa [htid] using h2'
        · rw [if_neg h, ← userTeamId_eq_sjEntry]
          exact hI.i2 u' s' t ht
      · intro t s' hs'
        exact hI.i3 t s' hs'
      · intro u' s' a hf
        rw [userFound_eq_sjEntry, hsj] at hf
        rw [sa_users_set]
        by_cases h : u = u' ∧ s = s'
        · rw [if_pos h] at hf
          obtain ⟨h1, h2⟩ := h
          subst h1; subst h2
          simp at hf
          rcases hgrow m a hf with hold | hnew
          · refine hI.i4a u s a ?_
            rw [userFound_eq_sjEntry, hsjm]
            simpa using hold
          · exact hnew
        · rw [if_neg h, ← userFound_eq_sjEntry] at hf
          exact hI.i4a u' s' a hf
      · intro s' a hf
        exact hI.i4b s' a hf
      · intro u' s' t ht
        rw [userTeamId_eq_sjEntry, hsj] at ht
        rw [ts_users_set]
        by_cases h : u = u' ∧ s = s'
        · rw [if_pos h] at ht
          obtain ⟨h1, h2⟩ := h
          subst h1; subst h2
          have haux := hI.aux u s t
          rw [userTeamId_eq_sjEntry, hsjm] at haux
          exact haux (by simpa [htid] using ht)
        · rw [if_neg h, ← userTeamId_eq_sjEntry] at ht
          exact hI.aux u' s' t ht
      · intro s' u' t hp ht
        rw [pe_users_set] at hp
        rw [userTeamId_eq_sjEntry, hsj]
        by_cases h : u = u' ∧ s = s'
        · rw [if_pos h]
          obtain ⟨h1, h2⟩ := h
          subst h1; subst h2
          have h0 := hI.aux2 s u t hp ht
          rw [userTeamId_eq_sjEntry, hsjm] at h0
          simpa [htid] using h0
        · rw [if_neg h, ← userTeamId_eq_sjEntry]
          exact hI.aux2 s' u' t hp ht

theorem participantEntry_of_session_none {db : DB} {s : String}
    (h : lookupA db.sessions s = none) (u : String) : participantEntry db s u = none := by
  unfold participantEntry; rw [h]

theorem participantEntry_of_session_some {db : DB} {s : String} {ss : SessionRec}
    (h : lookupA db.sessions s = some ss) (u : String) :
    participantEntry db s u = lookupA ss.participants u := by
  unfold participantEntry; rw [h]

theorem sessionTeamsHas_of_session_none {db : DB} {s : String}
    (h : lookupA db.sessions s = none) (t : String) : sessionTeamsHas db s t = false := by
  unfold sessionTeamsHas; rw [h]

theorem sessionTeamsHas_of_session_some {db : DB} {s : String} {ss : SessionRec}
    (h : lookupA db.sessions s = some ss) (t : String) :
    sessionTeamsHas db s t = hasKey ss.teams t := by
  unfold sessionTeamsHas; rw [h]

theorem sessionArtifactsHas_of_session_none {db : DB} {s : String}
    (h : lookupA db.sessions s = none) (a : String) : sessionArtifactsHas db s a = false := by
  unfold sessionArtifactsHas artifactNodeExists; rw [h]

theorem teamHasMember_of_team_none {db : DB} {t : String}
    (h : lookupA db.teams t = none) (u : String) : teamHasMember db t u = false := by
  unfold teamHasMember; rw [h]

theorem teamHasMember_of_team_some {db : DB} {t : String} {tr : TeamRec}
    (h : lookupA db.teams t = some tr) (u : String) :
    teamHasMember db t u = hasKey tr.members u := by
  unfold teamHasMember; rw [h]

theorem teamSessionId_of_team_none {db : DB} {t : String}
    (h : lookupA db.teams t = none) : teamSessionId db t = none := by
  unfold teamSessionId; rw [h]

theorem teamSessionId_of_team_some {db : DB} {t : String} {tr : TeamRec}
    (h : lookupA db.teams t = some tr) : teamSessionId db t = tr.sessionId := by
  unfold teamSessionId; rw [h]

theorem isSome_ne_of_false {o : Option String} (h : o.isSome = false) : o = none := by
  cases o
  · rfl
  · simp at h

/-! Constructor-form update lemmas, used to normalize an operation's final
state to an explicit `⟨users, sessions, teams, artifacts⟩` record. -/

theorem updUser_mk (lu : AssocL UserRec) (ls : AssocL SessionRec) (lt : AssocL TeamRec)
    (la : AssocL ArtifactRec) {u : String} {r : UserRec} (f : UserRec → UserRec)
    (h : lookupA lu u = some r) :
    updUser ⟨lu, ls, lt, la⟩ u f = ⟨insertA lu u (f r), ls, lt, la⟩ := by
  simp only [updUser, h]

theorem updUser_again (lu : AssocL UserRec) (ls : AssocL SessionRec) (lt : AssocL TeamRec)
    (la : AssocL ArtifactRec) (u : String) (r : UserRec) (f : UserRec → UserRec) :
    updUser ⟨insertA lu u r, ls, lt, la⟩ u f = ⟨insertA lu u (f r), ls, lt, la⟩ := by
  simp [updUser, lookupA_insertA, insertA_insertA]

theorem updSession_mk (lu : AssocL UserRec) (ls : AssocL SessionRec) (lt : AssocL TeamRec)
    (la : AssocL ArtifactRec) {s : String} {r : SessionRec} (f : SessionRec → SessionRec)
    (h : lookupA ls s = some r) :
    updSession ⟨lu, ls, lt, la⟩ s f = ⟨lu, insertA ls s (f r), lt, la⟩ := by
  simp only [updSession, h]

theorem updTeam_mk (lu : AssocL UserRec) (ls : AssocL SessionRec) (lt : AssocL TeamRec)
    (la : AssocL ArtifactRec) {t : String} {r : TeamRec} (f : TeamRec → TeamRec)
    (h : lookupA lt t = some r) :
    updTeam ⟨lu, ls, lt, la⟩ t f = ⟨lu, ls, insertA lt t (f r), la⟩ := by
  simp only [updTeam, h]

theorem updTeam_again (lu : AssocL UserRec) (ls : AssocL SessionRec) (lt : AssocL TeamRec)
    (la : AssocL ArtifactRec) (t : String) (r : TeamRec) (f : TeamRec → TeamRec) :
    updTeam ⟨lu, ls, insertA lt t r, la⟩ t f = ⟨lu, ls, insertA lt t (f r), la⟩ := by
  simp [updTeam, lookupA_insertA, insertA_insertA]

theorem touchUser_collapse (lu : AssocL UserRec) (ls : AssocL SessionRec) (lt : AssocL TeamRec)
    (la : AssocL ArtifactRec) (u : String) (r : UserRec) (now : Int) :
    touchUser ⟨insertA lu u r, ls, lt, la⟩ u now =
      ⟨insertA lu u { r with updatedAt := some now }, ls, lt, la⟩ := by
  simp [touchUser, updUser, lookupA_insertA, insertA_insertA]

theorem updMembership_mk (lu : AssocL UserRec) (ls : AssocL SessionRec) (lt : AssocL TeamRec)
    (la : AssocL ArtifactRec) {u s : String} {r : UserRec} {m : Membership}
    (f : Membership → Membership)
    (h1 : lookupA lu u = some r) (h2 : lookupA r.sessionsJoined s = some m) :
    updMembership ⟨lu, ls, lt, la⟩ u s f =
      ⟨insertA lu u { r with sessionsJoined := insertA r.sessionsJoined s (f m) }, ls, lt, la⟩ := by
  simp only [updMembership, updUser, h1, h2]

/-! Per-operation preservation of the inductive invariant. -/

theorem createUser_preserves {db db' : DB} {u : String} {now : Int}
    (hI : IndInv db) (hs : UserService.createUser u now db = (.ok (), db')) : IndInv db' := by
  unfold UserService.createUser at hs
  split at hs
  · simp at hs
  · rename_i hex
    simp at hs
    subst hs
    have hnone : lookupA db.users u = none := by
      cases hx : lookupA db.users u
      · rfl
      · rw [hx] at hex; simp at hex
    have hsj : ∀ u' s', sjEntry { db with users := insertA db.users u (UserService.newUser now) } u' s' = sjEntry db u' s' := by
      intro u' s'
      rw [sjEntry_insert, db_set_users_self]
      by_cases h : u = u'
      · subst h
        rw [if_pos rfl, sjEntry_of_user_none hnone]
        rfl
      · rw [if_neg h]
    exact @IndInv.of_observers db _ hsj (fun s' u' => rfl) (fun t u' => rfl) (fun t => rfl)
      (fun s' t => rfl) (fun s' a => rfl) (fun a => rfl) hI

theorem createSession_preserves {db db' : DB} {s c : String}
    (hI : IndInv db) (hs : SessionService.createSession s c db = (.ok (), db')) : IndInv db' := by
  unfold SessionService.createSession at hs
  split at hs
  · simp at hs
  · rename_i hex
    simp at hs
    subst hs
    have hnone : lookupA db.sessions s = none := by
      cases hx : lookupA db.sessions s
      · rfl
      · rw [hx] at hex; simp at hex
    have hpe : ∀ s' u', participantEntry { db with sessions := insertA db.sessions s (SessionService.newSession c) } s' u' = participantEntry db s' u' := by
      intro s' u'
      rw [participantEntry_insert]
      by_cases h : s = s'
      · subst h
        rw [if_pos rfl, participantEntry_of_session_none hnone]
        rfl
      · rw [if_neg h]
    have hst : ∀ s' t, sessionTeamsHas { db with sessions := insertA db.sessions s (SessionService.newSession c) } s' t = sessionTeamsHas db s' t := by
      intro s' t
      rw [sessionTeamsHas_insert]
      by_cases h : s = s'
      · subst h
        rw [if_pos rfl, sessionTeamsHas_of_session_none hnone]
        rfl
      · rw [if_neg h]
    have hsa : ∀ s' a, sessionArtifactsHas { db with sessions := insertA db.sessions s (SessionService.newSession c) } s' a = sessionArtifactsHas db s' a := by
      intro s' a
      rw [sessionArtifactsHas_insert]
      by_cases h : s = s'
      · subst h
        rw [if_pos rfl, sessionArtifactsHas_of_session_none hnone]
        rfl
      · rw [if_neg h]
    exact @IndInv.of_observers db _ (fun u' s' => rfl) hpe (fun t u' => rfl) (fun t => rfl)
      hst hsa (fun a => rfl) hI

theorem createTeam_preserves {db db' : DB} {t : String}
    (hI : IndInv db) (hs : TeamService.createTeam t db = (.ok (), db')) : IndInv db' := by
  unfold TeamService.createTeam at hs
  split at hs
  · simp at hs
  · rename_i hex
    simp at hs
    subst hs
    have hnone : lookupA db.teams t = none := by
      cases hx : lookupA db.teams t
      · rfl
      · rw [hx] at hex; simp at hex
    have htm : ∀ t' u', teamHasMember { db with teams := insertA db.teams t TeamService.newTeam } t' u' = teamHasMember db t' u' := by
      intro t' u'
      rw [teamHasMember_insert]
      by_cases h : t = t'
      · subst h
        rw [if_pos rfl, teamHasMember_of_team_none hnone]
        rfl
      · rw [if_neg h]
    have hts : ∀ t', teamSessionId { db with teams := insertA db.teams t TeamService.newTeam } t' =
        if t = t' then some "" else teamSessionId db t' := by
      intro t'
      rw [teamSessionId_insert]
      rfl
    refine ⟨?_, ?_, ?_, ?_, ?_, ?_, ?_⟩
    · exact hI.i1
    · intro u' s' t' ht'
      rw [ut_teams_set, pe_teams_set, htm]
      exact hI.i2 u' s' t' ht'
    · intro t' s' hs'
      rw [hts, st_teams_set]
      by_cases h : t = t'
      · subst h
        rw [if_pos rfl]
        constructor
        · intro hcontra
          exact absurd (Option.some.inj hcontra).symm hs'
        · intro hcontra
          have := (hI.i3 t s' hs').mpr hcontra
          rw [teamSessionId_of_team_none hnone] at this
          cases this
      · rw [if_neg h]
        exact hI.i3 t' s' hs'
    · exact hI.i4a
    · exact hI.i4b
    · intro u' s' t' ht'
      rw [ut_teams_set] at ht'
      rw [hts]
      obtain ⟨h1, h2, h3⟩ := hI.aux u' s' t' ht'
      by_cases h : t = t'
      · subst h
        rw [teamSessionId_of_team_none hnone] at h3
        cases h3
      · rw [if_neg h]
        exact ⟨h1, h2, h3⟩
    · intro s' u' t' hp ht'
      rw [pe_teams_set] at hp
      rw [ut_teams_set]
      exact hI.aux2 s' u' t' hp ht'

theorem userFound_isSome {db : DB} {u s a : String}
    (h : userFound db u s a = true) : (sjEntry db u s).isSome = true := by
  rw [userFound_eq_sjEntry] at h
  cases hx : sjEntry db u s
  · rw [hx] at h; simp at h
  · rfl

theorem deleteUser_preserves {db db' : DB} {u : String}
    (hI : IndInv db) (hs : UserService.deleteUser u db = (.ok (), db')) : IndInv db' := by
  cases hu : lookupA db.users u with
  | none => simp [UserService.deleteUser, hu] at hs
  | some user =>
    simp only [UserService.deleteUser, hu] at hs
    split at hs
    · simp at hs
    · rename_i hne
      simp at hs
      subst hs
      have hemp : user.sessionsJoined = [] := by
        cases hx : user.sessionsJoined with
        | nil => rfl
        | cons p rest => rw [hx] at hne; simp at hne
      have hsj : ∀ u' s', sjEntry { db with users := eraseA db.users u } u' s' = sjEntry db u' s' := by
        intro u' s'
        rw [sjEntry_erase, db_set_users_self]
        by_cases h : u = u'
        · subst h
          rw [if_pos rfl, sjEntry_of_user_some hu, hemp]
          rfl
        · rw [if_neg h]
      exact @IndInv.of_observers db _ hsj (fun s' u' => rfl) (fun t u' => rfl) (fun t => rfl)
        (fun s' t => rfl) (fun s' a => rfl) (fun a => rfl) hI

theorem deleteTeam_preserves {db db' : DB} {t : String}
    (hI : IndInv db) (hs : TeamService.deleteTeam t db = (.ok (), db')) : IndInv db' := by
  cases ht : lookupA db.teams t with
  | none => simp [TeamService.deleteTeam, ht] at hs
  | some team =>
    simp only [TeamService.deleteTeam, ht] at hs
    split at hs
    · simp at hs
    · rename_i htr
      split at hs
      · simp at hs
      · rename_i hme
        simp at hs
        subst hs
        have hmem : team.members = [] := by
          cases hx : team.members with
          | nil => rfl
          | cons p rest => rw [hx] at hme; simp at hme
        have htrf : truthyS team.sessionId = false := by
          cases hx : truthyS team.sessionId
          · rfl
          · exact absurd hx htr
        have htm : ∀ t' u', teamHasMember { db with teams := eraseA db.teams t } t' u' = teamHasMember db t' u' := by
          intro t' u'
          rw [teamHasMember_erase, db_set_teams_self]
          by_cases h : t = t'
          · subst h
            rw [if_pos rfl, teamHasMember_of_team_some ht, hmem]
            rfl
          · rw [if_neg h]
        have hts : ∀ t', teamSessionId { db with teams := eraseA db.teams t } t' =
            if t = t' then none else teamSessionId db t' := by
          intro t'
          rw [teamSessionId_erase]
        have hnotS : ∀ s', s' ≠ "" → team.sessionId ≠ some s' := by
          intro s' hs' hcontra
          rw [hcontra] at htrf
          simp [truthyS, hs'] at htrf
        refine ⟨hI.i1, ?_, ?_, hI.i4a, hI.i4b, ?_, ?_⟩
        · intro u' s' t' ht'
          rw [ut_teams_set, pe_teams_set, htm]
          exact hI.i2 u' s' t' ht'
        · intro t' s' hs'
          rw [hts, st_teams_set]
          by_cases h : t = t'
          · subst h
            rw [if_pos rfl]
            constructor
            · intro hcontra; cases hcontra
            · intro hcontra
              have h3 := (hI.i3 t s' hs').mpr hcontra
              rw [teamSessionId_of_team_some ht] at h3
              exact absurd h3 (hnotS s' hs')
          · rw [if_neg h]
            exact hI.i3 t' s' hs'
        · intro u' s' t' ht'
          rw [ut_teams_set] at ht'
          rw [hts]
          obtain ⟨h1, h2, h3⟩ := hI.aux u' s' t' ht'
          by_cases h : t = t'
          · subst h
            rw [teamSessionId_of_team_some ht] at h3
            exact absurd h3 (hnotS s' h2)
          · rw [if_neg h]
            exact ⟨h1, h2, h3⟩
        · intro s' u' t' hp ht'
          rw [pe_teams_set] at hp
          rw [ut_teams_set]
          exact hI.aux2 s' u' t' hp ht'

theorem deleteSession_preserves {db db' : DB} {s : String}
    (hI : IndInv db) (hs : SessionService.deleteSession s db = (.ok (), db')) : IndInv db' := by
  cases hse : lookupA db.sessions s with
  | none => simp [SessionService.deleteSession, hse] at hs
  | some ss =>
    simp only [SessionService.deleteSession, hse] at hs
    split at hs
    · simp at hs
    · rename_i hp
      split at hs
      · simp at hs
      · rename_i hteams
        simp at hs
        subst hs
        have hp0 : ss.participants = [] := by
          cases hx : ss.participants with
          | nil => rfl
          | cons q rest => rw [hx] at hp; simp at hp
        have hte0 : ss.teams = [] := by
          cases hx : ss.teams with
          | nil => rfl
          | cons q rest => rw [hx] at hteams; simp at hteams
        have hpe : ∀ s' u', participantEntry { db with sessions := eraseA db.sessions s } s' u' = participantEntry db s' u' := by
          intro s' u'
          rw [participantEntry_erase, db_set_sessions_self]
          by_cases h : s = s'
          · subst h
            rw [if_pos rfl, participantEntry_of_session_some hse, hp0]
            rfl
          · rw [if_neg h]
        have hst : ∀ s' t, sessionTeamsHas { db with sessions := eraseA db.sessions s } s' t = sessionTeamsHas db s' t := by
          intro s' t
          rw [sessionTeamsHas_erase, db_set_sessions_self]
          by_cases h : s = s'
          · subst h
            rw [if_pos rfl, sessionTeamsHas_of_session_some hse, hte0]
            rfl
          · rw [if_neg h]
        have hsa : ∀ s' a, sessionArtifactsHas { db with sessions := eraseA db.sessions s } s' a =
            if s = s' then false else sessionArtifactsHas db s' a := by
          intro s' a
          rw [sessionArtifactsHas_erase]
        refine ⟨?_, ?_, ?_, ?_, ?_, ?_, ?_⟩
        · intro u' s'
          rw [sj_sessions_set, hpe]
          exact hI.i1 u' s'
        · intro u' s' t' ht'
          rw [ut_sessions_set, tm_sessions_set, hpe]
          exact hI.i2 u' s' t' ht'
        · intro t' s' hs'
          rw [ts_sessions_set, hst]
          exact hI.i3 t' s' hs'
        · intro u' s' a hf
          rw [uf_sessions_set] at hf
          rw [hsa]
          by_cases h : s = s'
          · subst h
            rw [if_pos rfl]
            exfalso
            have h1 := (hI.i1 u' s).mp (userFound_isSome hf)
            rw [participantEntry_of_session_some hse, hp0] at h1
            cases h1
          · rw [if_neg h]
            exact hI.i4a u' s' a hf
        · intro s' a hf
          rw [hsa] at hf
          by_cases h : s = s'
          · rw [if_pos h] at hf; cases hf
          · rw [if_neg h] at hf
            rw [ae_sessions_set]
            exact hI.i4b s' a hf
        · intro u' s' t' ht'
          rw [ut_sessions_set] at ht'
          rw [ts_sessions_set]
          exact hI.aux u' s' t' ht'
        · intro s' u' t' hq ht'
          rw [hpe] at hq
          rw [ut_sessions_set]
          exact hI.aux2 s' u' t' hq ht'

theorem scanSessionsForArtifact_ok_mem {a : String} {l : AssocL SessionRec}
    (h : ArtifactService.scanSessionsForArtifact a l = .ok ()) :
    ∀ p ∈ l, ∃ arts, p.2.artifacts = some arts ∧ hasKey arts a = false := by
  induction l with
  | nil => intro p hp; cases hp
  | cons q rest ih =>
    obtain ⟨sid, ss⟩ := q
    intro p hp
    simp only [ArtifactService.scanSessionsForArtifact] at h
    cases harts : ss.artifacts with
    | none => rw [harts] at h; cases h
    | some arts =>
      rw [harts] at h
      simp only at h
      cases hk : hasKey arts a with
      | true => rw [hk] at h; simp at h
      | false =>
        rw [hk] at h
        simp only [Bool.false_eq_true, if_false] at h
        rcases List.mem_cons.mp hp with hh | hh
        · subst hh
          exact ⟨arts, harts, hk⟩
        · exact ih h p hh

theorem deleteArtifact_preserves {db db' : DB} {a : String}
    (hI : IndInv db) (hs : ArtifactService.deleteArtifact a db = (.ok (), db')) : IndInv db' := by
  cases ha : lookupA db.artifacts a with
  | none => simp [ArtifactService.deleteArtifact, ha] at hs
  | some r =>
    simp only [ArtifactService.deleteArtifact, ha] at hs
    split at hs
    · simp at hs
    · rename_i heq
      simp at hs
      subst hs
      have hok : ArtifactService.scanSessionsForArtifact a db.sessions = .ok () := by
        cases hl : db.sessions with
        | nil => rfl
        | cons q rest =>
          rw [hl] at heq
          simpa [List.isEmpty] using heq
      have hscan : ∀ s', sessionArtifactsHas db s' a = false := by
        intro s'
        cases hx : lookupA db.sessions s' with
        | none => exact sessionArtifactsHas_of_session_none hx a
        | some ss =>
          obtain ⟨arts, harts, hnk⟩ := scanSessionsForArtifact_ok_mem hok (s', ss) (lookupA_mem hx)
          have harts2 : ss.artifacts = some arts := harts
          simp [sessionArtifactsHas, artifactNodeExists, hx, harts2, hnk]
      refine ⟨hI.i1, ?_, hI.i3, ?_, ?_, ?_, ?_⟩
      · intro u' s' t' ht'
        exact hI.i2 u' s' t' ht'
      · intro u' s' a' hf
        rw [uf_artifacts_set] at hf
        rw [sa_artifacts_set]
        exact hI.i4a u' s' a' hf
      · intro s' a' hf
        rw [sa_artifacts_set] at hf
        rw [artifactExists_erase, db_set_artifacts_self]
        by_cases h : a = a'
        · subst h
          rw [hscan s'] at hf
          cases hf
        · rw [if_neg h]
          exact hI.i4b s' a' hf
      · intro u' s' t' ht'
        exact hI.aux u' s' t' ht'
      · intro s' u' t' hq ht'
        exact hI.aux2 s' u' t' hq ht'

theorem createArtifact_preserves {db db' : DB} {a : String}
    (hI : IndInv db) (hs : ArtifactService.createArtifact a db = (.ok (), db')) : IndInv db' := by
  unfold ArtifactService.createArtifact at hs
  split at hs
  · simp at hs
  · rename_i hex
    simp at hs
    subst hs
    refine ⟨hI.i1, ?_, hI.i3, hI.i4a, ?_, hI.aux, hI.aux2⟩
    · intro u' s' t' ht'
      exact hI.i2 u' s' t' ht'
    · intro s' a' hf
      rw [sa_artifacts_set] at hf
      rw [artifactExists_insert, db_set_artifacts_self]
      by_cases h : a = a'
      · rw [if_pos h]
      · rw [if_neg h]
        exact hI.i4b s' a' hf

theorem setUsername_preserves {db db' : DB} {u v : String} {now : Int}
    (hI : IndInv db) (hs : UserService.setUsername u v now db = (.ok (), db')) : IndInv db' := by
  cases hu : lookupA db.users u with
  | none => simp [UserService.setUsername, hu] at hs
  | some user =>
    simp [UserService.setUsername, hu] at hs
    subst hs
    exact indInv_updUser_keep (fun r => rfl) (indInv_updUser_keep (fun r => rfl) hI)

theorem setEmail_preserves {db db' : DB} {u v : String} {now : Int}
    (hI : IndInv db) (hs : UserService.setEmail u v now db = (.ok (), db')) : IndInv db' := by
  cases hu : lookupA db.users u with
  | none => simp [UserService.setEmail, hu] at hs
  | some user =>
    simp [UserService.setEmail, hu] at hs
    subst hs
    exact indInv_updUser_keep (fun r => rfl) (indInv_updUser_keep (fun r => rfl) hI)

theorem setProfilePicture_preserves {db db' : DB} {u v : String} {now : Int}
    (hI : IndInv db) (hs : UserService.setProfilePicture u v now db = (.ok (), db')) : IndInv db' := by
  cases hu : lookupA db.users u with
  | none => simp [UserService.setProfilePicture, hu] at hs
  | some user =>
    simp [UserService.setProfilePicture, hu] at hs
    subst hs
    exact indInv_updUser_keep (fun r => rfl) (indInv_updUser_keep (fun r => rfl) hI)

theorem setAdminStatus_preserves {db db' : DB} {u : String} {b : Bool} {now : Int}
    (hI : IndInv db) (hs : UserService.setAdminStatus u b now db = (.ok (), db')) : IndInv db' := by
  cases hu : lookupA db.users u with
  | none => simp [UserService.setAdminStatus, hu] at hs
  | some user =>
    simp [UserService.setAdminStatus, hu] at hs
    subst hs
    exact indInv_updUser_keep (fun r => rfl) (indInv_updUser_keep (fun r => rfl) hI)

theorem setCurrentSession_preserves {db db' : DB} {u : String} {sid : Option String} {now : Int}
    (hI : IndInv db) (hs : UserService.setCurrentSession u sid now db = (.ok (), db')) : IndInv db' := by
  cases hu : lookupA db.users u with
  | none => simp [UserService.setCurrentSession, hu] at hs
  | some user =>
    simp only [UserService.setCurrentSession, hu] at hs
    split at hs
    · simp at hs
    · simp at hs
      subst hs
      exact indInv_updUser_keep (fun r => rfl) (indInv_updUser_keep (fun r => rfl) hI)

theorem updatePoints_preserves {db db' : DB} {u s : String} {p now : Int}
    (hI : IndInv db) (hs : UserService.updatePoints u s p now db = (.ok (), db')) : IndInv db' := by
  cases hu : lookupA db.users u with
  | none => simp [UserService.updatePoints, hu] at hs
  | some user =>
    simp only [UserService.updatePoints, hu] at hs
    split at hs
    · simp at hs
    · simp at hs
      subst hs
      exact indInv_updUser_keep (fun r => rfl)
        (indInv_updMembership (fun mm => rfl) (fun mm a' h => Or.inl h) hI)

theorem addFoundArtifact_preserves {db db' : DB} {u s a : String} {now : Int}
    (hI : IndInv db) (hs : UserService.addFoundArtifact u s a now db = (.ok (), db')) : IndInv db' := by
  cases hu : lookupA db.users u with
  | none => simp [UserService.addFoundArtifact, hu] at hs
  | some user =>
    simp only [UserService.addFoundArtifact, hu] at hs
    split at hs
    · simp at hs
    · split at hs
      · simp at hs
      · rename_i hnode
        simp at hs
        subst hs
        have hsa : sessionArtifactsHas db s a = true := by
          cases hx : artifactNodeExists db s a
          · rw [hx] at hnode; simp at hnode
          · exact hx
        refine indInv_updUser_keep (fun r => rfl)
          (indInv_updMembership (fun mm => rfl) ?_ hI)
        intro mm a' h
        rw [hasKey_setAdd] at h
        by_cases haa : a = a'
        · subst haa; exact Or.inr hsa
        · rw [if_neg haa] at h; exact Or.inl h

theorem removeFoundArtifact_preserves {db db' : DB} {u s a : String} {now : Int}
    (hI : IndInv db) (hs : UserService.removeFoundArtifact u s a now db = (.ok (), db')) : IndInv db' := by
  cases hu : lookupA db.users u with
  | none => simp [UserService.removeFoundArtifact, hu] at hs
  | some user =>
    cases hm : lookupA user.sessionsJoined s with
    | none => simp [UserService.removeFoundArtifact, hu, hm] at hs
    | some sd =>
      simp only [UserService.removeFoundArtifact, hu, hm] at hs
      split at hs
      · simp at hs
      · simp at hs
        subst hs
        refine indInv_updUser_keep (fun r => rfl)
          (indInv_updMembership (fun mm => rfl) ?_ hI)
        intro mm a' h
        rw [hasKey_setDel] at h
        by_cases haa : a = a'
        · rw [if_pos haa] at h; exact absurd h (by simp)
        · rw [if_neg haa] at h; exact Or.inl h

theorem join_preserves_core (lu : AssocL UserRec) (ls : AssocL SessionRec) (lt : AssocL TeamRec)
    (la : AssocL ArtifactRec) (u s : String) (now : Int) (user : UserRec) (ssS : SessionRec)
    (hu : lookupA lu u = some user) (hss : lookupA ls s = some ssS)
    (hI : IndInv ⟨lu, ls, lt, la⟩) :
    IndInv ⟨insertA lu u { user with sessionsJoined := insertA user.sessionsJoined s (Membership.mk none 0 []), updatedAt := some now },
            insertA ls s { ssS with participants := insertA ssS.participants u "" }, lt, la⟩ := by
  have hsjF : ∀ u' s',
      sjEntry ⟨insertA lu u { user with sessionsJoined := insertA user.sessionsJoined s (Membership.mk none 0 []), updatedAt := some now }, insertA ls s { ssS with participants := insertA ssS.participants u "" }, lt, la⟩ u' s' =
        if u = u' ∧ s = s' then some (Membership.mk none 0 []) else sjEntry ⟨lu, ls, lt, la⟩ u' s' := by
    intro u' s'
    rw [sjEntry_insert]
    by_cases h1 : u = u'
    · subst h1
      rw [if_pos rfl]
      by_cases h2 : s = s'
      · simp [h2, lookupA_insertA]
      · simp [h2, lookupA_insertA, sjEntry_set, hu]
    · rw [if_neg h1, if_neg (by simp [h1]), sjEntry_set, sjEntry_set]
  have hpeF : ∀ s' u',
      participantEntry ⟨insertA lu u { user with sessionsJoined := insertA user.sessionsJoined s (Membership.mk none 0 []), updatedAt := some now }, insertA ls s { ssS with participants := insertA ssS.participants u "" }, lt, la⟩ s' u' =
        if s = s' ∧ u = u' then some "" else participantEntry ⟨lu, ls, lt, la⟩ s' u' := by
    intro s' u'
    rw [participantEntry_insert]
    by_cases h1 : s = s'
    · subst h1
      rw [if_pos rfl]
      by_cases h2 : u = u'
      · simp [h2, lookupA_insertA]
      · simp [h2, lookupA_insertA, participantEntry_set, hss]
    · rw [if_neg h1, if_neg (by simp [h1]), participantEntry_set, participantEntry_set]
  have hstF : ∀ s' t',
      sessionTeamsHas ⟨insertA lu u { user with sessionsJoined := insertA user.sessionsJoined s (Membership.mk none 0 []), updatedAt := some now }, insertA ls s { ssS with participants := insertA ssS.participants u "" }, lt, la⟩ s' t' =
        sessionTeamsHas ⟨lu, ls, lt, la⟩ s' t' := by
    intro s' t'
    rw [sessionTeamsHas_insert]
    by_cases h1 : s = s'
    · subst h1
      rw [if_pos rfl]
      simp [sessionTeamsHas_set, hss]
    · rw [if_neg h1, sessionTeamsHas_set, sessionTeamsHas_set]
  have hsaF : ∀ s' a',
      sessionArtifactsHas ⟨insertA lu u { user with sessionsJoined := insertA user.sessionsJoined s (Membership.mk none 0 []), updatedAt := some now }, insertA ls s { ssS with participants := insertA ssS.participants u "" }, lt, la⟩ s' a' =
        sessionArtifactsHas ⟨lu, ls, lt, la⟩ s' a' := by
    intro s' a'
    rw [sessionArtifactsHas_insert]
    by_cases h1 : s = s'
    · subst h1
      rw [if_pos rfl]
      simp [sessionArtifactsHas_set, hss]
    · rw [if_neg h1, sessionArtifactsHas_set, sessionArtifactsHas_set]
  refine ⟨?_, ?_, ?_, ?_, ?_, ?_, ?_⟩
  · intro u' s'
    rw [hsjF, hpeF]
    by_cases hc : u = u' ∧ s = s'
    · rw [if_pos hc, if_pos ⟨hc.2, hc.1⟩]
      simp
    · rw [if_neg hc, if_neg (fun hh => hc ⟨hh.2, hh.1⟩)]
      exact hI.i1 u' s'
  · intro u' s' t' ht'
    rw [userTeamId_eq_sjEntry, hsjF, hpeF]
    by_cases hc : u = u' ∧ s = s'
    · rw [if_pos hc, if_pos ⟨hc.2, hc.1⟩]
      simp [Ne.symm ht']
    · rw [if_neg hc, if_neg (fun hh => hc ⟨hh.2, hh.1⟩), ← userTeamId_eq_sjEntry]
      exact hI.i2 u' s' t' ht'
  · intro t' s' hs'
    rw [hstF]
    exact hI.i3 t' s' hs'
  · intro u' s' a' hf
    rw [userFound_eq_sjEntry, hsjF] at hf
    rw [hsaF]
    by_cases hc : u = u' ∧ s = s'
    · rw [if_pos hc] at hf
      simp [hasKey] at hf
    · rw [if_neg hc, ← userFound_eq_sjEntry] at hf
      exact hI.i4a u' s' a' hf
  · intro s' a' hf
    rw [hsaF] at hf
    exact hI.i4b s' a' hf
  · intro u' s' t' ht'
    rw [userTeamId_eq_sjEntry, hsjF] at ht'
    by_cases hc : u = u' ∧ s = s'
    · rw [if_pos hc] at ht'
      simp at ht'
    · rw [if_neg hc, ← userTeamId_eq_sjEntry] at ht'
      exact hI.aux u' s' t' ht'
  · intro s' u' t' hp ht'
    rw [hpeF] at hp
    rw [userTeamId_eq_sjEntry, hsjF]
    by_cases hc : s = s' ∧ u = u'
    · rw [if_pos hc] at hp
      exact absurd (Option.some.inj hp).symm ht'
    · rw [if_neg hc] at hp
      rw [if_neg (fun hh : u = u' ∧ s = s' => hc ⟨hh.2, hh.1⟩), ← userTeamId_eq_sjEntry]
      exact hI.aux2 s' u' t' hp ht'

theorem addUserToSession_preserves {db db' : DB} {u s : String} {now : Int}
    (hI : IndInv db) (hs : UserService.addUserToSession u s now db = (.ok (), db')) : IndInv db' := by
  obtain ⟨lu, ls, lt, la⟩ := db
  cases hu : lookupA lu u with
  | none => simp [UserService.addUserToSession, hu] at hs
  | some user =>
    cases hss : lookupA ls s with
    | none => simp [UserService.addUserToSession, hu, hss] at hs
    | some ssS =>
      cases hm : lookupA user.sessionsJoined s with
      | some md => simp [UserService.addUserToSession, hu, hss, hm] at hs
      | none =>
        simp [UserService.addUserToSession, hu, hss, hm, updUser, updSession, touchUser,
          lookupA_insertA, insertA_insertA] at hs
        subst hs
        exact join_preserves_core lu ls lt la u s now user ssS hu hss hI

theorem leave_preserves_core (lu : AssocL UserRec) (ls : AssocL SessionRec) (lt : AssocL TeamRec)
    (la : AssocL ArtifactRec) (u s : String) (now : Int) (user : UserRec) (ssS : SessionRec)
    (cs : Option String)
    (hu : lookupA lu u = some user) (hss : lookupA ls s = some ssS)
    (hI : IndInv ⟨lu, ls, lt, la⟩) :
    IndInv ⟨insertA lu u { user with currentSession := cs, sessionsJoined := eraseA user.sessionsJoined s, updatedAt := some now },
            insertA ls s { ssS with participants := eraseA ssS.participants u }, lt, la⟩ := by
  have hsjF : ∀ u' s',
      sjEntry ⟨insertA lu u { user with currentSession := cs, sessionsJoined := eraseA user.sessionsJoined s, updatedAt := some now }, insertA ls s { ssS with participants := eraseA ssS.participants u }, lt, la⟩ u' s' =
        if u = u' ∧ s = s' then none else sjEntry ⟨lu, ls, lt, la⟩ u' s' := by
    intro u' s'
    rw [sjEntry_insert]
    by_cases h1 : u = u'
    · subst h1
      rw [if_pos rfl]
      by_cases h2 : s = s'
      · simp [h2, lookupA_eraseA]
      · simp [h2, lookupA_eraseA, sjEntry_set, hu]
    · rw [if_neg h1, if_neg (by simp [h1]), sjEntry_set, sjEntry_set]
  have hpeF : ∀ s' u',
      participantEntry ⟨insertA lu u { user with currentSession := cs, sessionsJoined := eraseA user.sessionsJoined s, updatedAt := some now }, insertA ls s { ssS with participants := eraseA ssS.participants u }, lt, la⟩ s' u' =
        if s = s' ∧ u = u' then none else participantEntry ⟨lu, ls, lt, la⟩ s' u' := by
    intro s' u'
    rw [participantEntry_insert]
    by_cases h1 : s = s'
    · subst h1
      rw [if_pos rfl]
      by_cases h2 : u = u'
      · simp [h2, lookupA_eraseA]
      · simp [h2, lookupA_eraseA, participantEntry_set, hss]
    · rw [if_neg h1, if_neg (by simp [h1]), participantEntry_set, participantEntry_set]
  have hstF : ∀ s' t',
      sessionTeamsHas ⟨insertA lu u { user with currentSession := cs, sessionsJoined := eraseA user.sessionsJoined s, updatedAt := some now }, insertA ls s { ssS with participants := eraseA ssS.participants u }, lt, la⟩ s' t' =
        sessionTeamsHas ⟨lu, ls, lt, la⟩ s' t' := by
    intro s' t'
    rw [sessionTeamsHas_insert]
    by_cases h1 : s = s'
    · subst h1
      rw [if_pos rfl]
      simp [sessionTeamsHas_set, hss]
    · rw [if_neg h1, sessionTeamsHas_set, sessionTeamsHas_set]
  have hsaF : ∀ s' a',
      sessionArtifactsHas ⟨insertA lu u { user with currentSession := cs, sessionsJoined := eraseA user.sessionsJoined s, updatedAt := some now }, insertA ls s { ssS with participants := eraseA ssS.participants u }, lt, la⟩ s' a' =
        sessionArtifactsHas ⟨lu, ls, lt, la⟩ s' a' := by
    intro s' a'
    rw [sessionArtifactsHas_insert]
    by_cases h1 : s = s'
    · subst h1
      rw [if_pos rfl]
      simp [sessionArtifactsHas_set, hss]
    · rw [if_neg h1, sessionArtifactsHas_set, sessionArtifactsHas_set]
  refine ⟨?_, ?_, ?_, ?_, ?_, ?_, ?_⟩
  · intro u' s'
    rw [hsjF, hpeF]
    by_cases hc : u = u' ∧ s = s'
    · rw [if_pos hc, if_pos ⟨hc.2, hc.1⟩]
      exact Iff.rfl
    · rw [if_neg hc, if_neg (fun hh => hc ⟨hh.2, hh.1⟩)]
      exact hI.i1 u' s'
  · intro u' s' t' ht'
    rw [userTeamId_eq_sjEntry, hsjF, hpeF]
    by_cases hc : u = u' ∧ s = s'
    · rw [if_pos hc, if_pos ⟨hc.2, hc.1⟩]
      simp
    · rw [if_neg hc, if_neg (fun hh => hc ⟨hh.2, hh.1⟩), ← userTeamId_eq_sjEntry]
      exact hI.i2 u' s' t' ht'
  · intro t' s' hs'
    rw [hstF]
    exact hI.i3 t' s' hs'
  · intro u' s' a' hf
    rw [userFound_eq_sjEntry, hsjF] at hf
    rw [hsaF]
    by_cases hc : u = u' ∧ s = s'
    · rw [if_pos hc] at hf
      simp at hf
    · rw [if_neg hc, ← userFound_eq_sjEntry] at hf
      exact hI.i4a u' s' a' hf
  · intro s' a' hf
    rw [hsaF] at hf
    exact hI.i4b s' a' hf
  · intro u' s' t' ht'
    rw [userTeamId_eq_sjEntry, hsjF] at ht'
    by_cases hc : u = u' ∧ s = s'
    · rw [if_pos hc] at ht'
      simp at ht'
    · rw [if_neg hc, ← userTeamId_eq_sjEntry] at ht'
      exact hI.aux u' s' t' ht'
  · intro s' u' t' hp ht'
    rw [hpeF] at hp
    rw [userTeamId_eq_sjEntry, hsjF]
    by_cases hc : s = s' ∧ u = u'
    · rw [if_pos hc] at hp
      cases hp
    · rw [if_neg hc] at hp
      rw [if_neg (fun hh : u = u' ∧ s = s' => hc ⟨hh.2, hh.1⟩), ← userTeamId_eq_sjEntry]
      exact hI.aux2 s' u' t' hp ht'

theorem removeUserFromSession_preserves {db db' : DB} {u s : String} {now : Int}
    (hI : IndInv db) (hs : UserService.removeUserFromSession u s now db = (.ok (), db')) : IndInv db' := by
  obtain ⟨lu, ls, lt, la⟩ := db
  cases hu : lookupA lu u with
  | none => simp [UserService.removeUserFromSession, hu] at hs
  | some user =>
    cases hm : lookupA user.sessionsJoined s with
    | none => simp [UserService.removeUserFromSession, hu, hm] at hs
    | some sd =>
      by_cases htid : truthyS sd.teamId = true
      · simp [UserService.removeUserFromSession, hu, hm, htid] at hs
      · have htf : truthyS sd.teamId = false := by
          cases hx : truthyS sd.teamId
          · rfl
          · exact absurd hx htid
        have h1 : (sjEntry ⟨lu, ls, lt, la⟩ u s).isSome = true := by
          simp [sjEntry_set, hu, hm]
        have h2 := (hI.i1 u s).mp h1
        cases hss : lookupA ls s with
        | none => simp [participantEntry_set, hss] at h2
        | some ssS =>
          by_cases hcs : user.currentSession = some s
          · simp [UserService.removeUserFromSession, hu, hm, htf, hcs, hss, updUser, updSession,
              touchUser, lookupA_insertA, insertA_insertA] at hs
            subst hs
            exact leave_preserves_core lu ls lt la u s now user ssS none hu hss hI
          · simp [UserService.removeUserFromSession, hu, hm, htf, hcs, hss, updUser, updSession,
              touchUser, lookupA_insertA, insertA_insertA] at hs
            subst hs
            exact leave_preserves_core lu ls lt la u s now user ssS user.currentSession hu hss hI

theorem assign_core_one (lu : AssocL UserRec) (ls : AssocL SessionRec) (lt : AssocL TeamRec)
    (la : AssocL ArtifactRec) (u s B : String) (now : Int) (user : UserRec) (sd : Membership)
    (ssS : SessionRec) (tB : TeamRec) (newMems : List String)
    (hu : lookupA lu u = some user)
    (hm : lookupA user.sessionsJoined s = some sd)
    (hss : lookupA ls s = some ssS)
    (htB : lookupA lt B = some tB)
    (hsid : tB.sessionId = some s)
    (hBne : B ≠ "") (hsne : s ≠ "")
    (hchar : ∀ u', hasKey newMems u' = if u = u' then true else hasKey tB.members u')
    (hI : IndInv ⟨lu, ls, lt, la⟩) :
    IndInv ⟨insertA lu u { user with sessionsJoined := insertA user.sessionsJoined s { sd with teamId := some B }, updatedAt := some now },
            insertA ls s { ssS with participants := insertA ssS.participants u B },
            insertA lt B { tB with members := newMems }, la⟩ := by
  have hsjF : ∀ u' s',
      sjEntry ⟨insertA lu u { user with sessionsJoined := insertA user.sessionsJoined s { sd with teamId := some B }, updatedAt := some now }, insertA ls s { ssS with participants := insertA ssS.participants u B }, insertA lt B { tB with members := newMems }, la⟩ u' s' =
        if u = u' ∧ s = s' then some { sd with teamId := some B } else sjEntry ⟨lu, ls, lt, la⟩ u' s' := by
    intro u' s'
    rw [sjEntry_insert]
    by_cases h1 : u = u'
    · subst h1
      rw [if_pos rfl]
      by_cases h2 : s = s'
      · simp [h2, lookupA_insertA]
      · simp [h2, lookupA_insertA, sjEntry_set, hu]
    · rw [if_neg h1, if_neg (by simp [h1]), sjEntry_set, sjEntry_set]
  have hpeF : ∀ s' u',
      participantEntry ⟨insertA lu u { user with sessionsJoined := insertA user.sessionsJoined s { sd with teamId := some B }, updatedAt := some now }, insertA ls s { ssS with participants := insertA ssS.participants u B }, insertA lt B { tB with members := newMems }, la⟩ s' u' =
        if s = s' ∧ u = u' then some B else participantEntry ⟨lu, ls, lt, la⟩ s' u' := by
    intro s' u'
    rw [participantEntry_insert]
    by_cases h1 : s = s'
    · subst h1
      rw [if_pos rfl]
      by_cases h2 : u = u'
      · simp [h2, lookupA_insertA]
      · simp [h2, lookupA_insertA, participantEntry_set, hss]
    · rw [if_neg h1, if_neg (by simp [h1]), participantEntry_set, participantEntry_set]
  have htmF : ∀ t' u',
      teamHasMember ⟨insertA lu u { user with sessionsJoined := insertA user.sessionsJoined s { sd with teamId := some B }, updatedAt := some now }, insertA ls s { ssS with participants := insertA ssS.participants u B }, insertA lt B { tB with members := newMems }, la⟩ t' u' =
        if B = t' then (if u = u' then true else teamHasMember ⟨lu, ls, lt, la⟩ t' u')
        else teamHasMember ⟨lu, ls, lt, la⟩ t' u' := by
    intro t' u'
    rw [teamHasMember_insert]
    by_cases h1 : B = t'
    · subst h1
      rw [if_pos rfl, if_pos rfl]
      simp [hchar, teamHasMember_set, htB]
    · rw [if_neg h1, if_neg h1, teamHasMember_set, teamHasMember_set]
  have htsF : ∀ t',
      teamSessionId ⟨insertA lu u { user with sessionsJoined := insertA user.sessionsJoined s { sd with teamId := some B }, updatedAt := some now }, insertA ls s { ssS with participants := insertA ssS.participants u B }, insertA lt B { tB with members := newMems }, la⟩ t' =
        teamSessionId ⟨lu, ls, lt, la⟩ t' := by
    intro t'
    rw [teamSessionId_insert]
    by_cases h1 : B = t'
    · subst h1
      rw [if_pos rfl]
      simp [teamSessionId_set, htB]
    · rw [if_neg h1, teamSessionId_set, teamSessionId_set]
  have hstF : ∀ s' t',
      sessionTeamsHas ⟨insertA lu u { user with sessionsJoined := insertA user.sessionsJoined s { sd with teamId := some B }, updatedAt := some now }, insertA ls s { ssS with participants := insertA ssS.participants u B }, insertA lt B { tB with members := newMems }, la⟩ s' t' =
        sessionTeamsHas ⟨lu, ls, lt, la⟩ s' t' := by
    intro s' t'
    rw [sessionTeamsHas_insert]
    by_cases h1 : s = s'
    · subst h1
      rw [if_pos rfl]
      simp [sessionTeamsHas_set, hss]
    · rw [if_neg h1, sessionTeamsHas_set, sessionTeamsHas_set]
  have hsaF : ∀ s' a',
      sessionArtifactsHas ⟨insertA lu u { user with sessionsJoined := insertA user.sessionsJoined s { sd with teamId := some B }, updatedAt := some now }, insertA ls s { ssS with participants := insertA ssS.participants u B }, insertA lt B { tB with members := newMems }, la⟩ s' a' =
        sessionArtifactsHas ⟨lu, ls, lt, la⟩ s' a' := by
    intro s' a'
    rw [sessionArtifactsHas_insert]
    by_cases h1 : s = s'
    · subst h1
      rw [if_pos rfl]
      simp [sessionArtifactsHas_set, hss]
    · rw [if_neg h1, sessionArtifactsHas_set, sessionArtifactsHas_set]
  have htsB : teamSessionId ⟨lu, ls, lt, la⟩ B = some s := by
    rw [teamSessionId_set, htB]; exact hsid
  refine ⟨?_, ?_, ?_, ?_, ?_, ?_, ?_⟩
  · intro u' s'
    rw [hsjF, hpeF]
    by_cases hc : u = u' ∧ s = s'
    · obtain ⟨h1, h2⟩ := hc
      subst h1; subst h2
      rw [if_pos ⟨rfl, rfl⟩, if_pos ⟨rfl, rfl⟩]
      simp
    · rw [if_neg hc, if_neg (fun hh : s = s' ∧ u = u' => hc ⟨hh.2, hh.1⟩)]
      exact hI.i1 u' s'
  · intro u' s' t' ht'
    rw [userTeamId_eq_sjEntry, hsjF, hpeF, htmF]
    by_cases hc : u = u' ∧ s = s'
    · obtain ⟨h1, h2⟩ := hc
      subst h1; subst h2
      by_cases hB : B = t'
      · subst hB
        simp
      · simp [hB]
    · rw [if_neg hc, if_neg (fun hh : s = s' ∧ u = u' => hc ⟨hh.2, hh.1⟩), ← userTeamId_eq_sjEntry]
      by_cases hB : B = t'
      · subst hB
        rw [if_pos rfl]
        by_cases hup : u = u'
        · subst hup
          rw [if_pos rfl]
          constructor
          · intro hcontra
            obtain ⟨-, -, h3⟩ := hI.aux u s' B hcontra
            rw [htsB] at h3
            exact absurd ⟨rfl, (Option.some.inj h3)⟩ hc
          · intro hcontra
            have h4 := hI.aux2 s' u B hcontra.2 hBne
            obtain ⟨-, -, h3⟩ := hI.aux u s' B h4
            rw [htsB] at h3
            exact absurd ⟨rfl, (Option.some.inj h3)⟩ hc
        · rw [if_neg hup]
          exact hI.i2 u' s' B ht'
      · rw [if_neg hB]
        exact hI.i2 u' s' t' ht'
  · intro t' s' hs'
    rw [htsF, hstF]
    exact hI.i3 t' s' hs'
  · intro u' s' a' hf
    rw [userFound_eq_sjEntry, hsjF] at hf
    rw [hsaF]
    by_cases hc : u = u' ∧ s = s'
    · obtain ⟨h1, h2⟩ := hc
      subst h1; subst h2
      rw [if_pos ⟨rfl, rfl⟩] at hf
      simp only [Option.map_some', Option.getD_some] at hf
      refine hI.i4a u s a' ?_
      rw [userFound_eq_sjEntry]
      simp [sjEntry_set, hu, hm]
      simpa using hf
    · rw [if_neg hc, ← userFound_eq_sjEntry] at hf
      exact hI.i4a u' s' a' hf
  · intro s' a' hf
    rw [hsaF] at hf
    exact hI.i4b s' a' hf
  · intro u' s' t' ht'
    rw [userTeamId_eq_sjEntry, hsjF] at ht'
    rw [htsF]
    by_cases hc : u = u' ∧ s = s'
    · rw [if_pos hc] at ht'
      have htB2 : B = t' := by simpa using ht'
      subst htB2
      obtain ⟨h1, h2⟩ := hc
      subst h1; subst h2
      exact ⟨hBne, hsne, htsB⟩
    · rw [if_neg hc, ← userTeamId_eq_sjEntry] at ht'
      exact hI.aux u' s' t' ht'
  · intro s' u' t' hp ht'
    rw [hpeF] at hp
    rw [userTeamId_eq_sjEntry, hsjF]
    by_cases hc : s = s' ∧ u = u'
    · rw [if_pos hc] at hp
      rw [if_pos ⟨hc.2, hc.1⟩]
      simp [Option.some.inj hp]
    · rw [if_neg hc] at hp
      rw [if_neg (fun hh : u = u' ∧ s = s' => hc ⟨hh.2, hh.1⟩), ← userTeamId_eq_sjEntry]
      exact hI.aux2 s' u' t' hp ht'

theorem assign_core_move (lu : AssocL UserRec) (ls : AssocL SessionRec) (lt : AssocL TeamRec)
    (la : AssocL ArtifactRec) (u s A B : String) (now : Int) (user : UserRec) (sd : Membership)
    (ssS : SessionRec) (rA tB : TeamRec)
    (hu : lookupA lu u = some user)
    (hm : lookupA user.sessionsJoined s = some sd)
    (htid : sd.teamId = some A)
    (hss : lookupA ls s = some ssS)
    (hrA : lookupA lt A = some rA)
    (htB : lookupA lt B = some tB)
    (hsid : tB.sessionId = some s)
    (hBne : B ≠ "") (hsne : s ≠ "")
    (hI : IndInv ⟨lu, ls, lt, la⟩) :
    IndInv ⟨insertA lu u { user with sessionsJoined := insertA user.sessionsJoined s { sd with teamId := some B }, updatedAt := some now },
            insertA ls s { ssS with participants := insertA ssS.participants u B },
            insertA (insertA lt A { rA with members := setDel rA.members u }) B { tB with members := setAdd tB.members u }, la⟩ := by
  have hutA : userTeamId ⟨lu, ls, lt, la⟩ u s = some A := by
    rw [userTeamId_eq_sjEntry]
    simp [sjEntry_set, hu, hm, htid]
  obtain ⟨hAne, -, htsA⟩ := hI.aux u s A hutA
  have hsjF : ∀ u' s',
      sjEntry ⟨insertA lu u { user with sessionsJoined := insertA user.sessionsJoined s { sd with teamId := some B }, updatedAt := some now }, insertA ls s { ssS with participants := insertA ssS.participants u B }, insertA (insertA lt A { rA with members := setDel rA.members u }) B { tB with members := setAdd tB.members u }, la⟩ u' s' =
        if u = u' ∧ s = s' then some { sd with teamId := some B } else sjEntry ⟨lu, ls, lt, la⟩ u' s' := by
    intro u' s'
    rw [sjEntry_insert]
    by_cases h1 : u = u'
    · subst h1
      rw [if_pos rfl]
      by_cases h2 : s = s'
      · simp [h2, lookupA_insertA]
      · simp [h2, lookupA_insertA, sjEntry_set, hu]
    · rw [if_neg h1, if_neg (by simp [h1]), sjEntry_set, sjEntry_set]
  have hpeF : ∀ s' u',
      participantEntry ⟨insertA lu u { user with sessionsJoined := insertA user.sessionsJoined s { sd with teamId := some B }, updatedAt := some now }, insertA ls s { ssS with participants := insertA ssS.participants u B }, insertA (insertA lt A { rA with members := setDel rA.members u }) B { tB with members := setAdd tB.members u }, la⟩ s' u' =
        if s = s' ∧ u = u' then some B else participantEntry ⟨lu, ls, lt, la⟩ s' u' := by
    intro s' u'
    rw [participantEntry_insert]
    by_cases h1 : s = s'
    · subst h1
      rw [if_pos rfl]
      by_cases h2 : u = u'
      · simp [h2, lookupA_insertA]
      · simp [h2, lookupA_insertA, participantEntry_set, hss]
    · rw [if_neg h1, if_neg (by simp [h1]), participantEntry_set, participantEntry_set]
  have htmF : ∀ t' u',
      teamHasMember ⟨insertA lu u { user with sessionsJoined := insertA user.sessionsJoined s { sd with teamId := some B }, updatedAt := some now }, insertA ls s { ssS with participants := insertA ssS.participants u B }, insertA (insertA lt A { rA with members := setDel rA.members u }) B { tB with members := setAdd tB.members u }, la⟩ t' u' =
        if B = t' then hasKey (setAdd tB.members u) u'
        else if A = t' then hasKey (setDel rA.members u) u'
        else teamHasMember ⟨lu, ls, lt, la⟩ t' u' := by
    intro t' u'
    rw [teamHasMember_insert]
    by_cases h1 : B = t'
    · rw [if_pos h1, if_pos h1]
    · rw [if_neg h1, if_neg h1, teamHasMember_insert]
      by_cases h2 : A = t'
      · rw [if_pos h2, if_pos h2]
      · rw [if_neg h2, if_neg h2, teamHasMember_set, teamHasMember_set]
  have htsF : ∀ t',
      teamSessionId ⟨insertA lu u { user with sessionsJoined := insertA user.sessionsJoined s { sd with teamId := some B }, updatedAt := some now }, insertA ls s { ssS with participants := insertA ssS.participants u B }, insertA (insertA lt A { rA with members := setDel rA.members u }) B { tB with members := setAdd tB.members u }, la⟩ t' =
        teamSessionId ⟨lu, ls, lt, la⟩ t' := by
    intro t'
    rw [teamSessionId_insert]
    by_cases h1 : B = t'
    · subst h1
      rw [if_pos rfl, teamSessionId_set, htB]
    · rw [if_neg h1, teamSessionId_insert]
      by_cases h2 : A = t'
      · subst h2
        rw [if_pos rfl, teamSessionId_set, hrA]
      · rw [if_neg h2, teamSessionId_set, teamSessionId_set]
  have hstF : ∀ s' t',
      sessionTeamsHas ⟨insertA lu u { user with sessionsJoined := insertA user.sessionsJoined s { sd with teamId := some B }, updatedAt := some now }, insertA ls s { ssS with participants := insertA ssS.participants u B }, insertA (insertA lt A { rA with members := setDel rA.members u }) B { tB with members := setAdd tB.members u }, la⟩ s' t' =
        sessionTeamsHas ⟨lu, ls, lt, la⟩ s' t' := by
    intro s' t'
    rw [sessionTeamsHas_insert]
    by_cases h1 : s = s'
    · subst h1
      rw [if_pos rfl]
      simp [sessionTeamsHas_set, hss]
    · rw [if_neg h1, sessionTeamsHas_set, sessionTeamsHas_set]
  have hsaF : ∀ s' a',
      sessionArtifactsHas ⟨insertA lu u { user with sessionsJoined := insertA user.sessionsJoined s { sd with teamId := some B }, updatedAt := some now }, insertA ls s { ssS with participants := insertA ssS.participants u B }, insertA (insertA lt A { rA with members := setDel rA.members u }) B { tB with members := setAdd tB.members u }, la⟩ s' a' =
        sessionArtifactsHas ⟨lu, ls, lt, la⟩ s' a' := by
    intro s' a'
    rw [sessionArtifactsHas_insert]
    by_cases h1 : s = s'
    · subst h1
      rw [if_pos rfl]
      simp [sessionArtifactsHas_set, hss]
    · rw [if_neg h1, sessionArtifactsHas_set, sessionArtifactsHas_set]
  have htsB : teamSessionId ⟨lu, ls, lt, la⟩ B = some s := by
    rw [teamSessionId_set, htB]; exact hsid
  refine ⟨?_, ?_, ?_, ?_, ?_, ?_, ?_⟩
  · intro u' s'
    rw [hsjF, hpeF]
    by_cases hc : u = u' ∧ s = s'
    · obtain ⟨h1, h2⟩ := hc
      subst h1; subst h2
      rw [if_pos ⟨rfl, rfl⟩, if_pos ⟨rfl, rfl⟩]
      simp
    · rw [if_neg hc, if_neg (fun hh : s = s' ∧ u = u' => hc ⟨hh.2, hh.1⟩)]
      exact hI.i1 u' s'
  · intro u' s' t' ht'
    rw [userTeamId_eq_sjEntry, hsjF, hpeF, htmF]
    by_cases hc : u = u' ∧ s = s'
    · obtain ⟨h1, h2⟩ := hc
      subst h1; subst h2
      by_cases hB : B = t'
      · subst hB
        simp [hasKey_setAdd]
      · simp [hB]
    · rw [if_neg hc, if_neg (fun hh : s = s' ∧ u = u' => hc ⟨hh.2, hh.1⟩), ← userTeamId_eq_sjEntry]
      by_cases hB : B = t'
      · subst hB
        rw [if_pos rfl, hasKey_setAdd]
        by_cases hup : u = u'
        · subst hup
          rw [if_pos rfl]
          constructor
          · intro hcontra
            obtain ⟨-, -, h3⟩ := hI.aux u s' B hcontra
            rw [htsB] at h3
            exact absurd ⟨rfl, (Option.some.inj h3)⟩ hc
          · intro hcontra
            have h4 := hI.aux2 s' u B hcontra.2 hBne
            obtain ⟨-, -, h3⟩ := hI.aux u s' B h4
            rw [htsB] at h3
            exact absurd ⟨rfl, (Option.some.inj h3)⟩ hc
        · rw [if_neg hup]
          have hmem : hasKey tB.members u' = teamHasMember ⟨lu, ls, lt, la⟩ B u' := by
            rw [teamHasMember_set, htB]
          rw [hmem]
          exact hI.i2 u' s' B ht'
      · rw [if_neg hB]
        by_cases hA : A = t'
        · subst hA
          rw [if_pos rfl, hasKey_setDel]
          by_cases hup : u = u'
          · subst hup
            rw [if_pos rfl]
            constructor
            · intro hcontra
              obtain ⟨-, -, h3⟩ := hI.aux u s' A hcontra
              rw [htsA] at h3
              exact absurd ⟨rfl, (Option.some.inj h3)⟩ hc
            · intro hcontra
              exact absurd hcontra.1 (by simp)
          · rw [if_neg hup]
            have hmem : hasKey rA.members u' = teamHasMember ⟨lu, ls, lt, la⟩ A u' := by
              rw [teamHasMember_set, hrA]
            rw [hmem]
            exact hI.i2 u' s' A ht'
        · rw [if_neg hA]
          exact hI.i2 u' s' t' ht'
  · intro t' s' hs'
    rw [htsF, hstF]
    exact hI.i3 t' s' hs'
  · intro u' s' a' hf
    rw [userFound_eq_sjEntry, hsjF] at hf
    rw [hsaF]
    by_cases hc : u = u' ∧ s = s'
    · obtain ⟨h1, h2⟩ := hc
      subst h1; subst h2
      rw [if_pos ⟨rfl, rfl⟩] at hf
      refine hI.i4a u s a' ?_
      rw [userFound_eq_sjEntry]
      simp [sjEntry_set, hu, hm]
      simpa using hf
    · rw [if_neg hc, ← userFound_eq_sjEntry] at hf
      exact hI.i4a u' s' a' hf
  · intro s' a' hf
    rw [hsaF] at hf
    exact hI.i4b s' a' hf
  · intro u' s' t' ht'
    rw [userTeamId_eq_sjEntry, hsjF] at ht'
    rw [htsF]
    by_cases hc : u = u' ∧ s = s'
    · rw [if_pos hc] at ht'
      have htB2 : B = t' := by simpa using ht'
      subst htB2
      obtain ⟨h1, h2⟩ := hc
      subst h1; subst h2
      exact ⟨hBne, hsne, htsB⟩
    · rw [if_neg hc, ← userTeamId_eq_sjEntry] at ht'
      exact hI.aux u' s' t' ht'
  · intro s' u' t' hp ht'
    rw [hpeF] at hp
    rw [userTeamId_eq_sjEntry, hsjF]
    by_cases hc : s = s' ∧ u = u'
    · rw [if_pos hc] at hp
      rw [if_pos ⟨hc.2, hc.1⟩]
      simp [Option.some.inj hp]
    · rw [if_neg hc] at hp
      rw [if_neg (fun hh : u = u' ∧ s = s' => hc ⟨hh.2, hh.1⟩), ← userTeamId_eq_sjEntry]
      exact hI.aux2 s' u' t' hp ht'

theorem assignUserToTeam_preserves {db db' : DB} {u s t : String} {now : Int}
    (hvs : s ≠ "") (hvt : t ≠ "")
    (hI : IndInv db) (hs : UserService.assignUserToTeam u s t now db = (.ok (), db')) : IndInv db' := by
  obtain ⟨lu, ls, lt, la⟩ := db
  cases hu : lookupA lu u with
  | none => simp [UserService.assignUserToTeam, hu] at hs
  | some user =>
    cases hm : lookupA user.sessionsJoined s with
    | none => simp [UserService.assignUserToTeam, hu, hm] at hs
    | some sd =>
      cases htB : lookupA lt t with
      | none => simp [UserService.assignUserToTeam, hu, hm, htB] at hs
      | some team =>
        by_cases hsid : team.sessionId = some s
        · have h1 : (sjEntry ⟨lu, ls, lt, la⟩ u s).isSome = true := by
            simp [sjEntry_set, hu, hm]
          have h2 := (hI.i1 u s).mp h1
          cases hss : lookupA ls s with
          | none => simp [participantEntry_set, hss] at h2
          | some ssS =>
            by_cases htr : truthyS sd.teamId = true
            · cases htt : sd.teamId with
              | none => rw [htt] at htr; simp [truthyS] at htr
              | some A =>
                have hAne : A ≠ "" := by
                  intro hA0
                  rw [htt, hA0] at htr
                  simp [truthyS] at htr
                have hutA : userTeamId ⟨lu, ls, lt, la⟩ u s = some A := by
                  rw [userTeamId_eq_sjEntry]
                  simp [sjEntry_set, hu, hm, htt]
                obtain ⟨-, -, htsA⟩ := hI.aux u s A hutA
                obtain ⟨rA, hrA⟩ : ∃ r, lookupA lt A = some r := by
                  rw [teamSessionId_set] at htsA
                  cases hx : lookupA lt A with
                  | none => rw [hx] at htsA; cases htsA
                  | some r => exact ⟨r, rfl⟩
                rw [htt] at htr
                by_cases hAB : A = t
                · subst hAB
                  have hteam : team = rA := by rw [hrA] at htB; exact (Option.some.inj htB).symm
                  subst hteam
                  simp [UserService.assignUserToTeam, hu, hm, htB, hsid, htr, htt, hss,
                    updTeam, updMembership, updUser, updSession, touchUser, hrA,
                    lookupA_insertA, insertA_insertA] at hs
                  subst hs
                  rw [← hsid]
                  exact assign_core_one lu ls lt la u s A now user sd ssS team
                    (setAdd (setDel team.members u) u) hu hm hss hrA hsid hAne hvs
                    (by intro u'; rw [hasKey_setAdd, hasKey_setDel]; by_cases h : u = u' <;> simp [h]) hI
                · simp [UserService.assignUserToTeam, hu, hm, htB, hsid, htr, htt, hss,
                    updTeam, updMembership, updUser, updSession, touchUser, hrA, hAB,
                    lookupA_insertA, insertA_insertA] at hs
                  subst hs
                  rw [← hsid]
                  exact assign_core_move lu ls lt la u s A t now user sd ssS rA team
                    hu hm htt hss hrA htB hsid hvt hvs hI
            · have htf : truthyS sd.teamId = false := by
                cases hx : truthyS sd.teamId
                · rfl
                · exact absurd hx htr
              simp [UserService.assignUserToTeam, hu, hm, htB, hsid, htf, hss,
                updTeam, updMembership, updUser, updSession, touchUser,
                lookupA_insertA, insertA_insertA] at hs
              subst hs
              rw [← hsid]
              exact assign_core_one lu ls lt la u s t now user sd ssS team
                (setAdd team.members u) hu hm hss htB hsid hvt hvs
                (fun w => hasKey_setAdd team.members u w) hI
        · simp [UserService.assignUserToTeam, hu, hm, htB, hsid] at hs

theorem unassign_preserves_core (lu : AssocL UserRec) (ls : AssocL SessionRec) (lt : AssocL TeamRec)
    (la : AssocL ArtifactRec) (u s A : String) (now : Int) (user : UserRec) (sd : Membership)
    (ssS : SessionRec) (rA : TeamRec)
    (hu : lookupA lu u = some user)
    (hm : lookupA user.sessionsJoined s = some sd)
    (htid : sd.teamId = some A)
    (hss : lookupA ls s = some ssS)
    (hrA : lookupA lt A = some rA)
    (hI : IndInv ⟨lu, ls, lt, la⟩) :
    IndInv ⟨insertA lu u { user with sessionsJoined := insertA user.sessionsJoined s { sd with teamId := none }, updatedAt := some now },
            insertA ls s { ssS with participants := insertA ssS.participants u "" },
            insertA lt A { rA with members := setDel rA.members u }, la⟩ := by
  have hutA : userTeamId ⟨lu, ls, lt, la⟩ u s = some A := by
    rw [userTeamId_eq_sjEntry]
    simp [sjEntry_set, hu, hm, htid]
  obtain ⟨hAne, -, htsA⟩ := hI.aux u s A hutA
  have hsjF : ∀ u' s',
      sjEntry ⟨insertA lu u { user with sessionsJoined := insertA user.sessionsJoined s { sd with teamId := none }, updatedAt := some now }, insertA ls s { ssS with participants := insertA ssS.participants u "" }, insertA lt A { rA with members := setDel rA.members u }, la⟩ u' s' =
        if u = u' ∧ s = s' then some { sd with teamId := none } else sjEntry ⟨lu, ls, lt, la⟩ u' s' := by
    intro u' s'
    rw [sjEntry_insert]
    by_cases h1 : u = u'
    · subst h1
      rw [if_pos rfl]
      by_cases h2 : s = s'
      · simp [h2, lookupA_insertA]
      · simp [h2, lookupA_insertA, sjEntry_set, hu]
    · rw [if_neg h1, if_neg (by simp [h1]), sjEntry_set, sjEntry_set]
  have hpeF : ∀ s' u',
      participantEntry ⟨insertA lu u { user with sessionsJoined := insertA user.sessionsJoined s { sd with teamId := none }, updatedAt := some now }, insertA ls s { ssS with participants := insertA ssS.participants u "" }, insertA lt A { rA with members := setDel rA.members u }, la⟩ s' u' =
        if s = s' ∧ u = u' then some "" else participantEntry ⟨lu, ls, lt, la⟩ s' u' := by
    intro s' u'
    rw [participantEntry_insert]
    by_cases h1 : s = s'
    · subst h1
      rw [if_pos rfl]
      by_cases h2 : u = u'
      · simp [h2, lookupA_insertA]
      · simp [h2, lookupA_insertA, participantEntry_set, hss]
    · rw [if_neg h1, if_neg (by simp [h1]), participantEntry_set, participantEntry_set]
  have htmF : ∀ t' u',
      teamHasMember ⟨insertA lu u { user with sessionsJoined := insertA user.sessionsJoined s { sd with teamId := none }, updatedAt := some now }, insertA ls s { ssS with participants := insertA ssS.participants u "" }, insertA lt A { rA with members := setDel rA.members u }, la⟩ t' u' =
        if A = t' then hasKey (setDel rA.members u) u'
        else teamHasMember ⟨lu, ls, lt, la⟩ t' u' := by
    intro t' u'
    rw [teamHasMember_insert]
    by_cases h1 : A = t'
    · rw [if_pos h1, if_pos h1]
    · rw [if_neg h1, if_neg h1, teamHasMember_set, teamHasMember_set]
  have htsF : ∀ t',
      teamSessionId ⟨insertA lu u { user with sessionsJoined := insertA user.sessionsJoined s { sd with teamId := none }, updatedAt := some now }, insertA ls s { ssS with participants := insertA ssS.participants u "" }, insertA lt A { rA with members := setDel rA.members u }, la⟩ t' =
        teamSessionId ⟨lu, ls, lt, la⟩ t' := by
    intro t'
    rw [teamSessionId_insert]
    by_cases h1 : A = t'
    · subst h1
      rw [if_pos rfl, teamSessionId_set, hrA]
    · rw [if_neg h1, teamSessionId_set, teamSessionId_set]
  have hstF : ∀ s' t',
      sessionTeamsHas ⟨insertA lu u { user with sessionsJoined := insertA user.sessionsJoined s { sd with teamId := none }, updatedAt := some now }, insertA ls s { ssS with participants := insertA ssS.participants u "" }, insertA lt A { rA with members := setDel rA.members u }, la⟩ s' t' =
        sessionTeamsHas ⟨lu, ls, lt, la⟩ s' t' := by
    intro s' t'
    rw [sessionTeamsHas_insert]
    by_cases h1 : s = s'
    · subst h1
      rw [if_pos rfl]
      simp [sessionTeamsHas_set, hss]
    · rw [if_neg h1, sessionTeamsHas_set, sessionTeamsHas_set]
  have hsaF : ∀ s' a',
      sessionArtifactsHas ⟨insertA lu u { user with sessionsJoined := insertA user.sessionsJoined s { sd with teamId := none }, updatedAt := some now }, insertA ls s { ssS with participants := insertA ssS.participants u "" }, insertA lt A { rA with members := setDel rA.members u }, la⟩ s' a' =
        sessionArtifactsHas ⟨lu, ls, lt, la⟩ s' a' := by
    intro s' a'
    rw [sessionArtifactsHas_insert]
    by_cases h1 : s = s'
    · subst h1
      rw [if_pos rfl]
      simp [sessionArtifactsHas_set, hss]
    · rw [if_neg h1, sessionArtifactsHas_set, sessionArtifactsHas_set]
  refine ⟨?_, ?_, ?_, ?_, ?_, ?_, ?_⟩
  · intro u' s'
    rw [hsjF, hpeF]
    by_cases hc : u = u' ∧ s = s'
    · obtain ⟨h1, h2⟩ := hc
      subst h1; subst h2
      rw [if_pos ⟨rfl, rfl⟩, if_pos ⟨rfl, rfl⟩]
      simp
    · rw [if_neg hc, if_neg (fun hh : s = s' ∧ u = u' => hc ⟨hh.2, hh.1⟩)]
      exact hI.i1 u' s'
  · intro u' s' t' ht'
    rw [userTeamId_eq_sjEntry, hsjF, hpeF, htmF]
    by_cases hc : u = u' ∧ s = s'
    · obtain ⟨h1, h2⟩ := hc
      subst h1; subst h2
      rw [if_pos (⟨rfl, rfl⟩ : u = u ∧ s = s), if_pos (⟨rfl, rfl⟩ : s = s ∧ u = u)]
      constructor
      · intro hcontra
        simp at hcontra
      · intro hcontra
        exact absurd (Option.some.inj hcontra.2).symm ht'
    · rw [if_neg hc, if_neg (fun hh : s = s' ∧ u = u' => hc ⟨hh.2, hh.1⟩), ← userTeamId_eq_sjEntry]
      by_cases hA : A = t'
      · subst hA
        rw [if_pos rfl, hasKey_setDel]
        by_cases hup : u = u'
        · subst hup
          rw [if_pos rfl]
          constructor
          · intro hcontra
            obtain ⟨-, -, h3⟩ := hI.aux u s' A hcontra
            rw [htsA] at h3
            exact absurd ⟨rfl, (Option.some.inj h3)⟩ hc
          · intro hcontra
            exact absurd hcontra.1 (by simp)
        · rw [if_neg hup]
          have hmem : hasKey rA.members u' = teamHasMember ⟨lu, ls, lt, la⟩ A u' := by
            rw [teamHasMember_set, hrA]
          rw [hmem]
          exact hI.i2 u' s' A ht'
      · rw [if_neg hA]
        exact hI.i2 u' s' t' ht'
  · intro t' s' hs'
    rw [htsF, hstF]
    exact hI.i3 t' s' hs'
  · intro u' s' a' hf
    rw [userFound_eq_sjEntry, hsjF] at hf
    rw [hsaF]
    by_cases hc : u = u' ∧ s = s'
    · obtain ⟨h1, h2⟩ := hc
      subst h1; subst h2
      rw [if_pos ⟨rfl, rfl⟩] at hf
      refine hI.i4a u s a' ?_
      rw [userFound_eq_sjEntry]
      simp [sjEntry_set, hu, hm]
      simpa using hf
    · rw [if_neg hc, ← userFound_eq_sjEntry] at hf
      exact hI.i4a u' s' a' hf
  · intro s' a' hf
    rw [hsaF] at hf
    exact hI.i4b s' a' hf
  · intro u' s' t' ht'
    rw [userTeamId_eq_sjEntry, hsjF] at ht'
    rw [htsF]
    by_cases hc : u = u' ∧ s = s'
    · rw [if_pos hc] at ht'
      simp at ht'
    · rw [if_neg hc, ← userTeamId_eq_sjEntry] at ht'
      exact hI.aux u' s' t' ht'
  · intro s' u' t' hp ht'
    rw [hpeF] at hp
    rw [userTeamId_eq_sjEntry, hsjF]
    by_cases hc : s = s' ∧ u = u'
    · rw [if_pos hc] at hp
      exact absurd (Option.some.inj hp).symm ht'
    · rw [if_neg hc] at hp
      rw [if_neg (fun hh : u = u' ∧ s = s' => hc ⟨hh.2, hh.1⟩), ← userTeamId_eq_sjEntry]
      exact hI.aux2 s' u' t' hp ht'

theorem removeUserFromTeam_preserves {db db' : DB} {u s : String} {now : Int}
    (hI : IndInv db) (hs : UserService.removeUserFromTeam u s now db = (.ok (), db')) : IndInv db' := by
  obtain ⟨lu, ls, lt, la⟩ := db
  cases hu : lookupA lu u with
  | none => simp [UserService.removeUserFromTeam, hu] at hs
  | some user =>
    cases hm : lookupA user.sessionsJoined s with
    | none => simp [UserService.removeUserFromTeam, hu, hm] at hs
    | some sd =>
      by_cases htr : truthyS sd.teamId = true
      · cases htt : sd.teamId with
        | none => rw [htt] at htr; simp [truthyS] at htr
        | some A =>
          have h1 : (sjEntry ⟨lu, ls, lt, la⟩ u s).isSome = true := by
            simp [sjEntry_set, hu, hm]
          have h2 := (hI.i1 u s).mp h1
          cases hss : lookupA ls s with
          | none => simp [participantEntry_set, hss] at h2
          | some ssS =>
            have hutA : userTeamId ⟨lu, ls, lt, la⟩ u s = some A := by
              rw [userTeamId_eq_sjEntry]
              simp [sjEntry_set, hu, hm, htt]
            obtain ⟨hAne, -, htsA⟩ := hI.aux u s A hutA
            obtain ⟨rA, hrA⟩ : ∃ r, lookupA lt A = some r := by
              rw [teamSessionId_set] at htsA
              cases hx : lookupA lt A with
              | none => rw [hx] at htsA; cases htsA
              | some r => exact ⟨r, rfl⟩
            rw [htt] at htr
            simp [UserService.removeUserFromTeam, hu, hm, htr, htt, hss, hrA,
              updTeam, updMembership, updUser, updSession, touchUser,
              lookupA_insertA, insertA_insertA] at hs
            subst hs
            exact unassign_preserves_core lu ls lt la u s A now user sd ssS rA hu hm htt hss hrA hI
      · have htf : truthyS sd.teamId = false := by
          cases hx : truthyS sd.teamId
          · rfl
          · exact absurd hx htr
        simp [UserService.removeUserFromTeam, hu, hm, htf] at hs

theorem addTeam_core (lu : AssocL UserRec) (ls : AssocL SessionRec) (lt : AssocL TeamRec)
    (la : AssocL ArtifactRec) (s t : String) (ssS : SessionRec) (team : TeamRec)
    (hss : lookupA ls s = some ssS)
    (htT : lookupA lt t = some team)
    (htf : truthyS team.sessionId = false)
    (hI : IndInv ⟨lu, ls, lt, la⟩) :
    IndInv ⟨lu, insertA ls s { ssS with teams := setAdd ssS.teams t },
            insertA lt t { team with sessionId := some s }, la⟩ := by
  have hsjF : ∀ u' s',
      sjEntry ⟨lu, insertA ls s { ssS with teams := setAdd ssS.teams t }, insertA lt t { team with sessionId := some s }, la⟩ u' s' =
        sjEntry ⟨lu, ls, lt, la⟩ u' s' := by
    intro u' s'
    rw [sjEntry_set, sjEntry_set]
  have hpeF : ∀ s' u',
      participantEntry ⟨lu, insertA ls s { ssS with teams := setAdd ssS.teams t }, insertA lt t { team with sessionId := some s }, la⟩ s' u' =
        participantEntry ⟨lu, ls, lt, la⟩ s' u' := by
    intro s' u'
    rw [participantEntry_insert]
    by_cases h1 : s = s'
    · subst h1
      rw [if_pos rfl]
      simp [participantEntry_set, hss]
    · rw [if_neg h1, participantEntry_set, participantEntry_set]
  have htmF : ∀ t' u',
      teamHasMember ⟨lu, insertA ls s { ssS with teams := setAdd ssS.teams t }, insertA lt t { team with sessionId := some s }, la⟩ t' u' =
        teamHasMember ⟨lu, ls, lt, la⟩ t' u' := by
    intro t' u'
    rw [teamHasMember_insert]
    by_cases h1 : t = t'
    · subst h1
      rw [if_pos rfl]
      simp [teamHasMember_set, htT]
    · rw [if_neg h1, teamHasMember_set, teamHasMember_set]
  have htsF : ∀ t',
      teamSessionId ⟨lu, insertA ls s { ssS with teams := setAdd ssS.teams t }, insertA lt t { team with sessionId := some s }, la⟩ t' =
        if t = t' then some s else teamSessionId ⟨lu, ls, lt, la⟩ t' := by
    intro t'
    rw [teamSessionId_insert]
    by_cases h1 : t = t'
    · rw [if_pos h1, if_pos h1]
    · rw [if_neg h1, if_neg h1, teamSessionId_set, teamSessionId_set]
  have hstF : ∀ s' t',
      sessionTeamsHas ⟨lu, insertA ls s { ssS with teams := setAdd ssS.teams t }, insertA lt t { team with sessionId := some s }, la⟩ s' t' =
        if s = s' then (if t = t' then true else sessionTeamsHas ⟨lu, ls, lt, la⟩ s' t')
        else sessionTeamsHas ⟨lu, ls, lt, la⟩ s' t' := by
    intro s' t'
    rw [sessionTeamsHas_insert]
    by_cases h1 : s = s'
    · subst h1
      rw [if_pos rfl, if_pos rfl]
      show hasKey (setAdd ssS.teams t) t' = _
      rw [hasKey_setAdd]
      by_cases h2 : t = t' <;> simp [h2, sessionTeamsHas_set, hss]
    · rw [if_neg h1, if_neg h1, sessionTeamsHas_set, sessionTeamsHas_set]
  have hsaF : ∀ s' a',
      sessionArtifactsHas ⟨lu, insertA ls s { ssS with teams := setAdd ssS.teams t }, insertA lt t { team with sessionId := some s }, la⟩ s' a' =
        sessionArtifactsHas ⟨lu, ls, lt, la⟩ s' a' := by
    intro s' a'
    rw [sessionArtifactsHas_insert]
    by_cases h1 : s = s'
    · subst h1
      rw [if_pos rfl]
      simp [sessionArtifactsHas_set, hss]
    · rw [if_neg h1, sessionArtifactsHas_set, sessionArtifactsHas_set]
  refine ⟨?_, ?_, ?_, ?_, ?_, ?_, ?_⟩
  · intro u' s'
    rw [hsjF, hpeF]
    exact hI.i1 u' s'
  · intro u' s' t' ht'
    rw [userTeamId_eq_sjEntry, hsjF, ← userTeamId_eq_sjEntry, hpeF, htmF]
    exact hI.i2 u' s' t' ht'
  · intro t' s'' hs''
    rw [htsF, hstF]
    by_cases h1 : t = t'
    · subst h1
      rw [if_pos rfl]
      by_cases h2 : s = s''
      · subst h2
        rw [if_pos rfl, if_pos rfl]
        simp
      · rw [if_neg h2]
        constructor
        · intro hcontra
          exact absurd (Option.some.inj hcontra) h2
        · intro hcontra
          have h3 := (hI.i3 t s'' hs'').mpr hcontra
          have h4 : team.sessionId = some s'' := by
            rw [teamSessionId_set, htT] at h3
            exact h3
          rw [h4] at htf
          simp [truthyS, hs''] at htf
    · rw [if_neg h1]
      by_cases h2 : s = s''
      · subst h2
        rw [if_pos rfl, if_neg h1]
        exact hI.i3 t' s hs''
      · rw [if_neg h2]
        exact hI.i3 t' s'' hs''
  · intro u' s' a' hf
    rw [userFound_eq_sjEntry, hsjF, ← userFound_eq_sjEntry] at hf
    rw [hsaF]
    exact hI.i4a u' s' a' hf
  · intro s' a' hf
    rw [hsaF] at hf
    exact hI.i4b s' a' hf
  · intro u' s' t' ht'
    rw [userTeamId_eq_sjEntry, hsjF, ← userTeamId_eq_sjEntry] at ht'
    have h3 := hI.aux u' s' t' ht'
    refine ⟨h3.1, h3.2.1, ?_⟩
    rw [htsF]
    by_cases h1 : t = t'
    · subst h1
      have h4 : team.sessionId = some s' := by
        have h5 := h3.2.2
        rw [teamSessionId_set, htT] at h5
        exact h5
      rw [h4] at htf
      simp [truthyS, h3.2.1] at htf
    · rw [if_neg h1]
      exact h3.2.2
  · intro s' u' t' hp ht'
    rw [hpeF] at hp
    rw [userTeamId_eq_sjEntry, hsjF, ← userTeamId_eq_sjEntry]
    exact hI.aux2 s' u' t' hp ht'

theorem removeTeam_core (lu : AssocL UserRec) (ls : AssocL SessionRec) (lt : AssocL TeamRec)
    (la : AssocL ArtifactRec) (s t : String) (ssS : SessionRec) (team : TeamRec)
    (hvs : s ≠ "")
    (hss : lookupA ls s = some ssS)
    (hin : hasKey ssS.teams t = true)
    (htT : lookupA lt t = some team)
    (hEmp : team.members.isEmpty = true)
    (hI : IndInv ⟨lu, ls, lt, la⟩) :
    IndInv ⟨lu, insertA ls s { ssS with teams := setDel ssS.teams t },
            insertA lt t { team with sessionId := none }, la⟩ := by
  have htsid : teamSessionId ⟨lu, ls, lt, la⟩ t = some s := by
    refine (hI.i3 t s hvs).mpr ?_
    rw [sessionTeamsHas_set, hss]
    exact hin
  have hsjF : ∀ u' s',
      sjEntry ⟨lu, insertA ls s { ssS with teams := setDel ssS.teams t }, insertA lt t { team with sessionId := none }, la⟩ u' s' =
        sjEntry ⟨lu, ls, lt, la⟩ u' s' := by
    intro u' s'
    rw [sjEntry_set, sjEntry_set]
  have hpeF : ∀ s' u',
      participantEntry ⟨lu, insertA ls s { ssS with teams := setDel ssS.teams t }, insertA lt t { team with sessionId := none }, la⟩ s' u' =
        participantEntry ⟨lu, ls, lt, la⟩ s' u' := by
    intro s' u'
    rw [participantEntry_insert]
    by_cases h1 : s = s'
    · subst h1
      rw [if_pos rfl]
      simp [participantEntry_set, hss]
    · rw [if_neg h1, participantEntry_set, participantEntry_set]
  have htmF : ∀ t' u',
      teamHasMember ⟨lu, insertA ls s { ssS with teams := setDel ssS.teams t }, insertA lt t { team with sessionId := none }, la⟩ t' u' =
        teamHasMember ⟨lu, ls, lt, la⟩ t' u' := by
    intro t' u'
    rw [teamHasMember_insert]
    by_cases h1 : t = t'
    · subst h1
      rw [if_pos rfl]
      simp [teamHasMember_set, htT]
    · rw [if_neg h1, teamHasMember_set, teamHasMember_set]
  have htsF : ∀ t',
      teamSessionId ⟨lu, insertA ls s { ssS with teams := setDel ssS.teams t }, insertA lt t { team with sessionId := none }, la⟩ t' =
        if t = t' then none else teamSessionId ⟨lu, ls, lt, la⟩ t' := by
    intro t'
    rw [teamSessionId_insert]
    by_cases h1 : t = t'
    · rw [if_pos h1, if_pos h1]
    · rw [if_neg h1, if_neg h1, teamSessionId_set, teamSessionId_set]
  have hstF : ∀ s' t',
      sessionTeamsHas ⟨lu, insertA ls s { ssS with teams := setDel ssS.teams t }, insertA lt t { team with sessionId := none }, la⟩ s' t' =
        if s = s' then (if t = t' then false else sessionTeamsHas ⟨lu, ls, lt, la⟩ s' t')
        else sessionTeamsHas ⟨lu, ls, lt, la⟩ s' t' := by
    intro s' t'
    rw [sessionTeamsHas_insert]
    by_cases h1 : s = s'
    · subst h1
      rw [if_pos rfl, if_pos rfl]
      show hasKey (setDel ssS.teams t) t' = _
      rw [hasKey_setDel]
      by_cases h2 : t = t' <;> simp [h2, sessionTeamsHas_set, hss]
    · rw [if_neg h1, if_neg h1, sessionTeamsHas_set, sessionTeamsHas_set]
  have hsaF : ∀ s' a',
      sessionArtifactsHas ⟨lu, insertA ls s { ssS with teams := setDel ssS.teams t }, insertA lt t { team with sessionId := none }, la⟩ s' a' =
        sessionArtifactsHas ⟨lu, ls, lt, la⟩ s' a' := by
    intro s' a'
    rw [sessionArtifactsHas_insert]
    by_cases h1 : s = s'
    · subst h1
      rw [if_pos rfl]
      simp [sessionArtifactsHas_set, hss]
    · rw [if_neg h1, sessionArtifactsHas_set, sessionArtifactsHas_set]
  refine ⟨?_, ?_, ?_, ?_, ?_, ?_, ?_⟩
  · intro u' s'
    rw [hsjF, hpeF]
    exact hI.i1 u' s'
  · intro u' s' t' ht'
    rw [userTeamId_eq_sjEntry, hsjF, ← userTeamId_eq_sjEntry, hpeF, htmF]
    exact hI.i2 u' s' t' ht'
  · intro t' s'' hs''
    rw [htsF, hstF]
    by_cases h1 : t = t'
    · subst h1
      rw [if_pos rfl]
      by_cases h2 : s = s''
      · subst h2
        rw [if_pos rfl, if_pos rfl]
        simp
      · rw [if_neg h2]
        constructor
        · intro hcontra
          cases hcontra
        · intro hcontra
          have h3 := (hI.i3 t s'' hs'').mpr hcontra
          rw [htsid] at h3
          exact absurd (Option.some.inj h3) h2
    · rw [if_neg h1]
      by_cases h2 : s = s''
      · subst h2
        rw [if_pos rfl, if_neg h1]
        exact hI.i3 t' s hs''
      · rw [if_neg h2]
        exact hI.i3 t' s'' hs''
  · intro u' s' a' hf
    rw [userFound_eq_sjEntry, hsjF, ← userFound_eq_sjEntry] at hf
    rw [hsaF]
    exact hI.i4a u' s' a' hf
  · intro s' a' hf
    rw [hsaF] at hf
    exact hI.i4b s' a' hf
  · intro u' s' t' ht'
    rw [userTeamId_eq_sjEntry, hsjF, ← userTeamId_eq_sjEntry] at ht'
    have h3 := hI.aux u' s' t' ht'
    refine ⟨h3.1, h3.2.1, ?_⟩
    rw [htsF]
    by_cases h1 : t = t'
    · subst h1
      have h4 := (hI.i2 u' s' t h3.1).mp ht'
      have h5 : teamHasMember ⟨lu, ls, lt, la⟩ t u' = false := by
        rw [teamHasMember_set, htT]
        exact isEmpty_hasKey hEmp u'
      rw [h5] at h4
      cases h4.1
    · rw [if_neg h1]
      exact h3.2.2
  · intro s' u' t' hp ht'
    rw [hpeF] at hp
    rw [userTeamId_eq_sjEntry, hsjF, ← userTeamId_eq_sjEntry]
    exact hI.aux2 s' u' t' hp ht'

theorem addTeam_preserves {db db' : DB} {s t : String}
    (hI : IndInv db) (hs : SessionService.addTeam s t db = (.ok (), db')) : IndInv db' := by
  obtain ⟨lu, ls, lt, la⟩ := db
  cases hss : lookupA ls s with
  | none => simp [SessionService.addTeam, hss] at hs
  | some ssS =>
    cases htT : lookupA lt t with
    | none => simp [SessionService.addTeam, hss, htT] at hs
    | some team =>
      by_cases htr : truthyS team.sessionId = true
      · simp [SessionService.addTeam, hss, htT, htr] at hs
      · have htf : truthyS team.sessionId = false := by
          cases hx : truthyS team.sessionId
          · rfl
          · exact absurd hx htr
        by_cases hemp : team.members.isEmpty = true
        · simp [SessionService.addTeam, hss, htT, htf, hemp, updSession, updTeam,
            lookupA_insertA] at hs
          subst hs
          exact addTeam_core lu ls lt la s t ssS team hss htT htf hI
        · have hne : team.members.isEmpty = false := by
            cases hx : team.members.isEmpty
            · rfl
            · exact absurd hx hemp
          simp [SessionService.addTeam, hss, htT, htf, hne] at hs

theorem removeTeam_preserves {db db' : DB} {s t : String} (hvs : s ≠ "")
    (hI : IndInv db) (hs : SessionService.removeTeam s t db = (.ok (), db')) : IndInv db' := by
  obtain ⟨lu, ls, lt, la⟩ := db
  cases hss : lookupA ls s with
  | none => simp [SessionService.removeTeam, hss] at hs
  | some ssS =>
    by_cases hin : hasKey ssS.teams t = true
    · cases htT : lookupA lt t with
      | none => simp [SessionService.removeTeam, hss, hin, htT] at hs
      | some team =>
        by_cases hemp : team.members.isEmpty = true
        · simp [SessionService.removeTeam, hss, hin, htT, hemp, updSession, updTeam,
            lookupA_insertA] at hs
          subst hs
          exact removeTeam_core lu ls lt la s t ssS team hvs hss hin htT hemp hI
        · have hne : team.members.isEmpty = false := by
            cases hx : team.members.isEmpty
            · rfl
            · exact absurd hx hemp
          simp [SessionService.removeTeam, hss, hin, htT, hne] at hs
    · have hni : hasKey ssS.teams t = false := by
        cases hx : hasKey ssS.teams t
        · rfl
        · exact absurd hx hin
      simp [SessionService.removeTeam, hss, hni] at hs

theorem addArtifact_core (lu : AssocL UserRec) (ls : AssocL SessionRec) (lt : AssocL TeamRec)
    (la : AssocL ArtifactRec) (s a : String) (ssS : SessionRec) (l0 : List String)
    (hss : lookupA ls s = some ssS)
    (hl0 : ∀ x, hasKey l0 x = sessionArtifactsHas ⟨lu, ls, lt, la⟩ s x)
    (hart : (lookupA la a).isSome = true)
    (hI : IndInv ⟨lu, ls, lt, la⟩) :
    IndInv ⟨lu, insertA ls s { ssS with artifacts := some (setAdd l0 a) }, lt, la⟩ := by
  have hsjF : ∀ u' s',
      sjEntry ⟨lu, insertA ls s { ssS with artifacts := some (setAdd l0 a) }, lt, la⟩ u' s' =
        sjEntry ⟨lu, ls, lt, la⟩ u' s' := by
    intro u' s'
    rw [sjEntry_set, sjEntry_set]
  have hpeF : ∀ s' u',
      participantEntry ⟨lu, insertA ls s { ssS with artifacts := some (setAdd l0 a) }, lt, la⟩ s' u' =
        participantEntry ⟨lu, ls, lt, la⟩ s' u' := by
    intro s' u'
    rw [participantEntry_insert]
    by_cases h1 : s = s'
    · subst h1
      rw [if_pos rfl]
      simp [participantEntry_set, hss]
    · rw [if_neg h1]
  have htmF : ∀ t' u',
      teamHasMember ⟨lu, insertA ls s { ssS with artifacts := some (setAdd l0 a) }, lt, la⟩ t' u' =
        teamHasMember ⟨lu, ls, lt, la⟩ t' u' := by
    intro t' u'
    rw [teamHasMember_set, teamHasMember_set]
  have htsF : ∀ t',
      teamSessionId ⟨lu, insertA ls s { ssS with artifacts := some (setAdd l0 a) }, lt, la⟩ t' =
        teamSessionId ⟨lu, ls, lt, la⟩ t' := by
    intro t'
    rw [teamSessionId_set, teamSessionId_set]
  have hstF : ∀ s' t',
      sessionTeamsHas ⟨lu, insertA ls s { ssS with artifacts := some (setAdd l0 a) }, lt, la⟩ s' t' =
        sessionTeamsHas ⟨lu, ls, lt, la⟩ s' t' := by
    intro s' t'
    rw [sessionTeamsHas_insert]
    by_cases h1 : s = s'
    · subst h1
      rw [if_pos rfl]
      simp [sessionTeamsHas_set, hss]
    · rw [if_neg h1]
  have hsaF : ∀ s' a',
      sessionArtifactsHas ⟨lu, insertA ls s { ssS with artifacts := some (setAdd l0 a) }, lt, la⟩ s' a' =
        if s = s' then (if a = a' then true else sessionArtifactsHas ⟨lu, ls, lt, la⟩ s' a')
        else sessionArtifactsHas ⟨lu, ls, lt, la⟩ s' a' := by
    intro s' a'
    rw [sessionArtifactsHas_insert]
    by_cases h1 : s = s'
    · subst h1
      rw [if_pos rfl, if_pos rfl]
      show hasKey (setAdd l0 a) a' = _
      rw [hasKey_setAdd, hl0]
    · rw [if_neg h1, if_neg h1]
  refine ⟨?_, ?_, ?_, ?_, ?_, ?_, ?_⟩
  · intro u' s'
    rw [hsjF, hpeF]
    exact hI.i1 u' s'
  · intro u' s' t' ht'
    rw [userTeamId_eq_sjEntry, hsjF, ← userTeamId_eq_sjEntry, hpeF, htmF]
    exact hI.i2 u' s' t' ht'
  · intro t' s'' hs''
    rw [htsF, hstF]
    exact hI.i3 t' s'' hs''
  · intro u' s' a' hf
    rw [userFound_eq_sjEntry, hsjF, ← userFound_eq_sjEntry] at hf
    rw [hsaF]
    by_cases h1 : s = s'
    · rw [if_pos h1]
      by_cases h2 : a = a'
      · rw [if_pos h2]
      · rw [if_neg h2]
        exact hI.i4a u' s' a' hf
    · rw [if_neg h1]
      exact hI.i4a u' s' a' hf
  · intro s' a' hf
    rw [hsaF] at hf
    by_cases h1 : s = s'
    · rw [if_pos h1] at hf
      by_cases h2 : a = a'
      · subst h2
        exact hart
      · rw [if_neg h2] at hf
        exact hI.i4b s' a' hf
    · rw [if_neg h1] at hf
      exact hI.i4b s' a' hf
  · intro u' s' t' ht'
    rw [userTeamId_eq_sjEntry, hsjF, ← userTeamId_eq_sjEntry] at ht'
    have h3 := hI.aux u' s' t' ht'
    exact ⟨h3.1, h3.2.1, by rw [htsF]; exact h3.2.2⟩
  · intro s' u' t' hp ht'
    rw [hpeF] at hp
    rw [userTeamId_eq_sjEntry, hsjF, ← userTeamId_eq_sjEntry]
    exact hI.aux2 s' u' t' hp ht'

theorem removeArtifact_core (lu : AssocL UserRec) (ls : AssocL SessionRec) (lt : AssocL TeamRec)
    (la : AssocL ArtifactRec) (s a : String) (ssS : SessionRec) (arts : List String)
    (hss : lookupA ls s = some ssS)
    (harts : ssS.artifacts = some arts)
    (hscan : ssS.participants.any (fun p => foundNode ⟨lu, ls, lt, la⟩ p.1 s a) = false)
    (hI : IndInv ⟨lu, ls, lt, la⟩) :
    IndInv ⟨lu, insertA ls s { ssS with artifacts := some (setDel arts a) }, lt, la⟩ := by
  have hsjF : ∀ u' s',
      sjEntry ⟨lu, insertA ls s { ssS with artifacts := some (setDel arts a) }, lt, la⟩ u' s' =
        sjEntry ⟨lu, ls, lt, la⟩ u' s' := by
    intro u' s'
    rw [sjEntry_set, sjEntry_set]
  have hpeF : ∀ s' u',
      participantEntry ⟨lu, insertA ls s { ssS with artifacts := some (setDel arts a) }, lt, la⟩ s' u' =
        participantEntry ⟨lu, ls, lt, la⟩ s' u' := by
    intro s' u'
    rw [participantEntry_insert]
    by_cases h1 : s = s'
    · subst h1
      rw [if_pos rfl]
      simp [participantEntry_set, hss]
    · rw [if_neg h1]
  have htmF : ∀ t' u',
      teamHasMember ⟨lu, insertA ls s { ssS with artifacts := some (setDel arts a) }, lt, la⟩ t' u' =
        teamHasMember ⟨lu, ls, lt, la⟩ t' u' := by
    intro t' u'
    rw [teamHasMember_set, teamHasMember_set]
  have htsF : ∀ t',
      teamSessionId ⟨lu, insertA ls s { ssS with artifacts := some (setDel arts a) }, lt, la⟩ t' =
        teamSessionId ⟨lu, ls, lt, la⟩ t' := by
    intro t'
    rw [teamSessionId_set, teamSessionId_set]
  have hstF : ∀ s' t',
      sessionTeamsHas ⟨lu, insertA ls s { ssS with artifacts := some (setDel arts a) }, lt, la⟩ s' t' =
        sessionTeamsHas ⟨lu, ls, lt, la⟩ s' t' := by
    intro s' t'
    rw [sessionTeamsHas_insert]
    by_cases h1 : s = s'
    · subst h1
      rw [if_pos rfl]
      simp [sessionTeamsHas_set, hss]
    · rw [if_neg h1]
  have hsaF : ∀ s' a',
      sessionArtifactsHas ⟨lu, insertA ls s { ssS with artifacts := some (setDel arts a) }, lt, la⟩ s' a' =
        if s = s' then (if a = a' then false else sessionArtifactsHas ⟨lu, ls, lt, la⟩ s' a')
        else sessionArtifactsHas ⟨lu, ls, lt, la⟩ s' a' := by
    intro s' a'
    rw [sessionArtifactsHas_insert]
    by_cases h1 : s = s'
    · subst h1
      rw [if_pos rfl, if_pos rfl]
      show hasKey (setDel arts a) a' = _
      rw [hasKey_setDel]
      by_cases h2 : a = a'
      · simp [h2]
      · rw [if_neg h2, if_neg h2]
        simp only [sessionArtifactsHas_set, hss, harts]
    · rw [if_neg h1, if_neg h1]
  refine ⟨?_, ?_, ?_, ?_, ?_, ?_, ?_⟩
  · intro u' s'
    rw [hsjF, hpeF]
    exact hI.i1 u' s'
  · intro u' s' t' ht'
    rw [userTeamId_eq_sjEntry, hsjF, ← userTeamId_eq_sjEntry, hpeF, htmF]
    exact hI.i2 u' s' t' ht'
  · intro t' s'' hs''
    rw [htsF, hstF]
    exact hI.i3 t' s'' hs''
  · intro u' s' a' hf
    rw [userFound_eq_sjEntry, hsjF, ← userFound_eq_sjEntry] at hf
    rw [hsaF]
    by_cases h1 : s = s'
    · subst h1
      rw [if_pos rfl]
      by_cases h2 : a = a'
      · subst h2
        exfalso
        have hj := userFound_isSome hf
        have hp := (hI.i1 u' s).mp hj
        simp only [participantEntry_set, hss] at hp
        cases hk : lookupA ssS.participants u' with
        | none => rw [hk] at hp; simp at hp
        | some v =>
          have hmem := lookupA_mem hk
          cases hfa : foundNode ⟨lu, ls, lt, la⟩ u' s a with
          | false => exact Bool.noConfusion (hf.symm.trans hfa)
          | true =>
            have hany : ssS.participants.any (fun p => foundNode ⟨lu, ls, lt, la⟩ p.1 s a) = true :=
              List.any_eq_true.mpr ⟨(u', v), hmem, hfa⟩
            rw [hscan] at hany
            exact Bool.noConfusion hany
      · rw [if_neg h2]
        exact hI.i4a u' s a' hf
    · rw [if_neg h1]
      exact hI.i4a u' s' a' hf
  · intro s' a' hf
    rw [hsaF] at hf
    by_cases h1 : s = s'
    · rw [if_pos h1] at hf
      by_cases h2 : a = a'
      · rw [if_pos h2] at hf
        exact Bool.noConfusion hf
      · rw [if_neg h2] at hf
        exact hI.i4b s' a' hf
    · rw [if_neg h1] at hf
      exact hI.i4b s' a' hf
  · intro u' s' t' ht'
    rw [userTeamId_eq_sjEntry, hsjF, ← userTeamId_eq_sjEntry] at ht'
    have h3 := hI.aux u' s' t' ht'
    exact ⟨h3.1, h3.2.1, by rw [htsF]; exact h3.2.2⟩
  · intro s' u' t' hp ht'
    rw [hpeF] at hp
    rw [userTeamId_eq_sjEntry, hsjF, ← userTeamId_eq_sjEntry]
    exact hI.aux2 s' u' t' hp ht'

theorem addArtifact_preserves {db db' : DB} {s a : String}
    (hI : IndInv db) (hs : SessionService.addArtifact s a db = (.ok (), db')) : IndInv db' := by
  obtain ⟨lu, ls, lt, la⟩ := db
  cases hss : lookupA ls s with
  | none => simp [SessionService.addArtifact, hss] at hs
  | some ssS =>
    cases hart : lookupA la a with
    | none => simp [SessionService.addArtifact, hss, hart] at hs
    | some ar =>
      cases harts : ssS.artifacts with
      | none =>
        simp [SessionService.addArtifact, hss, hart, harts, updSession] at hs
        subst hs
        refine addArtifact_core lu ls lt la s a ssS [] hss ?_ (by rw [hart]; rfl) hI
        intro x
        simp only [sessionArtifactsHas_set, hss, harts]
        rfl
      | some arts =>
        simp [SessionService.addArtifact, hss, hart, harts, updSession] at hs
        subst hs
        refine addArtifact_core lu ls lt la s a ssS arts hss ?_ (by rw [hart]; rfl) hI
        intro x
        simp only [sessionArtifactsHas_set, hss, harts]

theorem removeArtifact_preserves {db db' : DB} {s a : String}
    (hI : IndInv db) (hs : SessionService.removeArtifact s a db = (.ok (), db')) : IndInv db' := by
  obtain ⟨lu, ls, lt, la⟩ := db
  cases hss : lookupA ls s with
  | none => simp [SessionService.removeArtifact, hss] at hs
  | some ssS =>
    cases harts : ssS.artifacts with
    | none => simp [SessionService.removeArtifact, hss, harts] at hs
    | some arts =>
      by_cases hin : hasKey arts a = true
      · by_cases hsc : ssS.participants.any (fun p => foundNode ⟨lu, ls, lt, la⟩ p.1 s a) = true
        · simp [SessionService.removeArtifact, hss, harts, hin, hsc] at hs
        · have hscan : ssS.participants.any (fun p => foundNode ⟨lu, ls, lt, la⟩ p.1 s a) = false := by
            cases hx : ssS.participants.any (fun p => foundNode ⟨lu, ls, lt, la⟩ p.1 s a)
            · rfl
            · exact absurd hx hsc
          simp [SessionService.removeArtifact, hss, harts, hin, hscan, updSession] at hs
          subst hs
          exact removeArtifact_core lu ls lt la s a ssS arts hss harts hscan hI
      · have hni : hasKey arts a = false := by
          cases hx : hasKey arts a
          · rfl
          · exact absurd hx hin
        simp [SessionService.removeArtifact, hss, harts, hni] at hs

theorem setTeamName_preserves {db db' : DB} {t v : String}
    (hI : IndInv db) (hs : TeamService.setTeamName t v db = (.ok (), db')) : IndInv db' := by
  cases ht : lookupA db.teams t with
  | none => simp [TeamService.setTeamName, ht] at hs
  | some team =>
    simp [TeamService.setTeamName, ht] at hs
    subst hs
    exact indInv_updTeam_keep (fun tr => rfl) (fun tr => rfl) hI

theorem setSessionName_preserves {db db' : DB} {s v : String}
    (hI : IndInv db) (hs : SessionService.setSessionName s v db = (.ok (), db')) : IndInv db' := by
  cases hse : lookupA db.sessions s with
  | none => simp [SessionService.setSessionName, hse] at hs
  | some ss =>
    simp [SessionService.setSessionName, hse] at hs
    subst hs
    exact indInv_updSession_keep (fun ss => rfl) (fun ss => rfl) (fun ss => rfl) hI

theorem setTimes_preserves {db db' : DB} {s : String} {st en : Int}
    (hI : IndInv db) (hs : SessionService.setTimes s st en db = (.ok (), db')) : IndInv db' := by
  cases hse : lookupA db.sessions s with
  | none => simp [SessionService.setTimes, hse] at hs
  | some ss =>
    simp only [SessionService.setTimes, hse] at hs
    split at hs
    · simp at hs
    · simp at hs
      subst hs
      exact indInv_updSession_keep (fun ss => rfl) (fun ss => rfl) (fun ss => rfl)
        (indInv_updSession_keep (fun ss => rfl) (fun ss => rfl) (fun ss => rfl) hI)

theorem setActiveStatus_preserves {db db' : DB} {s : String} {b : Bool}
    (hI : IndInv db) (hs : SessionService.setActiveStatus s b db = (.ok (), db')) : IndInv db' := by
  cases hse : lookupA db.sessions s with
  | none => simp [SessionService.setActiveStatus, hse] at hs
  | some ss =>
    simp [SessionService.setActiveStatus, hse] at hs
    subst hs
    exact indInv_updSession_keep (fun ss => rfl) (fun ss => rfl) (fun ss => rfl) hI

theorem artifactSetName_preserves {db db' : DB} {a v : String}
    (hI : IndInv db) (hs : ArtifactService.setName a v db = (.ok (), db')) : IndInv db' := by
  cases ha : lookupA db.artifacts a with
  | none => simp [ArtifactService.setName, ha] at hs
  | some r =>
    simp [ArtifactService.setName, ha] at hs
    subst hs
    exact indInv_updArtifact db a _ hI

theorem setDescription_preserves {db db' : DB} {a v : String}
    (hI : IndInv db) (hs : ArtifactService.setDescription a v db = (.ok (), db')) : IndInv db' := by
  cases ha : lookupA db.artifacts a with
  | none => simp [ArtifactService.setDescription, ha] at hs
  | some r =>
    simp [ArtifactService.setDescription, ha] at hs
    subst hs
    exact indInv_updArtifact db a _ hI

theorem setLocationHint_preserves {db db' : DB} {a v : String}
    (hI : IndInv db) (hs : ArtifactService.setLocationHint a v db = (.ok (), db')) : IndInv db' := by
  cases ha : lookupA db.artifacts a with
  | none => simp [ArtifactService.setLocationHint, ha] at hs
  | some r =>
    simp [ArtifactService.setLocationHint, ha] at hs
    subst hs
    exact indInv_updArtifact db a _ hI

theorem setCoordinates_preserves {db db' : DB} {a : String} {la lo : Int}
    (hI : IndInv db) (hs : ArtifactService.setCoordinates a la lo db = (.ok (), db')) : IndInv db' := by
  cases ha : lookupA db.artifacts a with
  | none => simp [ArtifactService.setCoordinates, ha] at hs
  | some r =>
    simp [ArtifactService.setCoordinates, ha] at hs
    subst hs
    exact indInv_updArtifact _ a _ (indInv_updArtifact db a _ hI)

theorem setImageUrl_preserves {db db' : DB} {a v : String}
    (hI : IndInv db) (hs : ArtifactService.setImageUrl a v db = (.ok (), db')) : IndInv db' := by
  cases ha : lookupA db.artifacts a with
  | none => simp [ArtifactService.setImageUrl, ha] at hs
  | some r =>
    simp [ArtifactService.setImageUrl, ha] at hs
    subst hs
    exact indInv_updArtifact db a _ hI

theorem setAudioUrl_preserves {db db' : DB} {a v : String}
    (hI : IndInv db) (hs : ArtifactService.setAudioUrl a v db = (.ok (), db')) : IndInv db' := by
  cases ha : lookupA db.artifacts a with
  | none => simp [ArtifactService.setAudioUrl, ha] at hs
  | some r =>
    simp [ArtifactService.setAudioUrl, ha] at hs
    subst hs
    exact indInv_updArtifact db a _ hI

theorem setChallengeStatus_preserves {db db' : DB} {a : String} {b : Bool}
    (hI : IndInv db) (hs : ArtifactService.setChallengeStatus a b db = (.ok (), db')) : IndInv db' := by
  cases ha : lookupA db.artifacts a with
  | none => simp [ArtifactService.setChallengeStatus, ha] at hs
  | some r =>
    simp [ArtifactService.setChallengeStatus, ha] at hs
    subst hs
    exact indInv_updArtifact db a _ hI

theorem step_preserves {db db' : DB} {op : Op} (hv : op.validB = true)
    (hm : op.isTeamMembershipOp = false) (hI : IndInv db)
    (hs : applyOp op db = (.ok (), db')) : IndInv db' := by
  cases op with
  | createUser u now => exact createUser_preserves hI hs
  | setUsername u v now => exact setUsername_preserves hI hs
  | setEmail u v now => exact setEmail_preserves hI hs
  | setProfilePicture u v now => exact setProfilePicture_preserves hI hs
  | setCurrentSession u sid now => exact setCurrentSession_preserves hI hs
  | setAdminStatus u b now => exact setAdminStatus_preserves hI hs
  | addUserToSession u s now => exact addUserToSession_preserves hI hs
  | removeUserFromSession u s now => exact removeUserFromSession_preserves hI hs
  | assignUserToTeam u s t now =>
    simp only [Op.validB, Bool.and_eq_true, decide_eq_true_eq] at hv
    exact assignUserToTeam_preserves hv.1.2 hv.2 hI hs
  | removeUserFromTeam u s now => exact removeUserFromTeam_preserves hI hs
  | addFoundArtifact u s a now => exact addFoundArtifact_preserves hI hs
  | removeFoundArtifact u s a now => exact removeFoundArtifact_preserves hI hs
  | updatePoints u s p now => exact updatePoints_preserves hI hs
  | deleteUser u => exact deleteUser_preserves hI hs
  | createTeam t => exact createTeam_preserves hI hs
  | setTeamName t v => exact setTeamName_preserves hI hs
  | addMember t u => simp [Op.isTeamMembershipOp] at hm
  | removeMember t u => simp [Op.isTeamMembershipOp] at hm
  | deleteTeam t => exact deleteTeam_preserves hI hs
  | createSession s c => exact createSession_preserves hI hs
  | setSessionName s v => exact setSessionName_preserves hI hs
  | setTimes s st en => exact setTimes_preserves hI hs
  | setActiveStatus s b => exact setActiveStatus_preserves hI hs
  | addTeam s t => exact addTeam_preserves hI hs
  | removeTeam s t =>
    simp only [Op.validB, Bool.and_eq_true, decide_eq_true_eq] at hv
    exact removeTeam_preserves hv.1 hI hs
  | addArtifact s a => exact addArtifact_preserves hI hs
  | removeArtifact s a => exact removeArtifact_preserves hI hs
  | deleteSession s => exact deleteSession_preserves hI hs
  | createArtifact a => exact createArtifact_preserves hI hs
  | setArtifactName a v => exact artifactSetName_preserves hI hs
  | setDescription a v => exact setDescription_preserves hI hs
  | setLocationHint a v => exact setLocationHint_preserves hI hs
  | setCoordinates a la lo => exact setCoordinates_preserves hI hs
  | setImageUrl a v => exact setImageUrl_preserves hI hs
  | setAudioUrl a v => exact setAudioUrl_preserves hI hs
  | setChallengeStatus a b => exact setChallengeStatus_preserves hI hs
  | deleteArtifact a => exact deleteArtifact_preserves hI hs

theorem indInv_emptyDB : IndInv emptyDB := by
  refine ⟨fun u s => ?_, fun u s t ht => ?_, fun t s hs => ?_, fun u s a hf => ?_,
    fun s a hf => ?_, fun u s t ht => ?_, fun s u t hp ht => ?_⟩
  · simp [sjEntry, participantEntry, emptyDB, lookupA]
  · simp [userTeamId, sjEntry, teamHasMember, participantEntry, emptyDB, lookupA]
  · simp [teamSessionId, sessionTeamsHas, emptyDB, lookupA]
  · simp [userFound, foundNode, emptyDB, lookupA] at hf
  · simp [sessionArtifactsHas, artifactNodeExists, emptyDB, lookupA] at hf
  · simp [userTeamId, sjEntry, emptyDB, lookupA] at ht
  · simp [participantEntry, emptyDB, lookupA] at hp

theorem reachOK_indInv {db : DB} (h : ReachOK db) : IndInv db := by
  induction h with
  | init => exact indInv_emptyDB
  | step db db' op hv hm hs hr ih => exact step_preserves hv hm ih hs

theorem step_transitionOK {db db' : DB} {op : Op} (hI : IndInv db)
    (hs : applyOp op db = (.ok (), db')) : TransitionOK db op := by
  cases op <;> try exact trivial
  case deleteUser u =>
    intro r hr
    cases hu : lookupA db.users u with
    | none => rw [hu] at hr; cases hr
    | some user =>
      rw [hu] at hr
      have hru := Option.some.inj hr
      subst hru
      by_cases hemp : user.sessionsJoined.isEmpty = true
      · exact List.isEmpty_iff.mp hemp
      · have hne : user.sessionsJoined.isEmpty = false := by
          cases hx : user.sessionsJoined.isEmpty
          · rfl
          · exact absurd hx hemp
        simp [applyOp, UserService.deleteUser, hu, hne] at hs
  case deleteTeam t =>
    intro r hr
    cases ht : lookupA db.teams t with
    | none => rw [ht] at hr; cases hr
    | some team =>
      rw [ht] at hr
      have hrt := Option.some.inj hr
      subst hrt
      by_cases h1 : truthyS team.sessionId = true
      · simp [applyOp, TeamService.deleteTeam, ht, h1] at hs
      · have h1f : truthyS team.sessionId = false := by
          cases hx : truthyS team.sessionId
          · rfl
          · exact absurd hx h1
        by_cases h2 : team.members.isEmpty = true
        · exact ⟨h1f, List.isEmpty_iff.mp h2⟩
        · have h2f : team.members.isEmpty = false := by
            cases hx : team.members.isEmpty
            · rfl
            · exact absurd hx h2
          simp [applyOp, TeamService.deleteTeam, ht, h1f, h2f] at hs
  case deleteSession s =>
    intro r hr
    cases hss : lookupA db.sessions s with
    | none => rw [hss] at hr; cases hr
    | some sess =>
      rw [hss] at hr
      have hrs := Option.some.inj hr
      subst hrs
      by_cases h1 : sess.participants.isEmpty = true
      · by_cases h2 : sess.teams.isEmpty = true
        · exact ⟨List.isEmpty_iff.mp h1, List.isEmpty_iff.mp h2⟩
        · have h2f : sess.teams.isEmpty = false := by
            cases hx : sess.teams.isEmpty
            · rfl
            · exact absurd hx h2
          simp [applyOp, SessionService.deleteSession, hss, h1, h2f] at hs
      · have h1f : sess.participants.isEmpty = false := by
          cases hx : sess.participants.isEmpty
          · rfl
          · exact absurd hx h1
        simp [applyOp, SessionService.deleteSession, hss, h1f] at hs
  case addTeam s t =>
    intro r hr
    cases hss : lookupA db.sessions s with
    | none => simp [applyOp, SessionService.addTeam, hss] at hs
    | some sess =>
      cases ht : lookupA db.teams t with
      | none => rw [ht] at hr; cases hr
      | some team =>
        rw [ht] at hr
        have hrt := Option.some.inj hr
        subst hrt
        by_cases h1 : truthyS team.sessionId = true
        · simp [applyOp, SessionService.addTeam, hss, ht, h1] at hs
        · have h1f : truthyS team.sessionId = false := by
            cases hx : truthyS team.sessionId
            · rfl
            · exact absurd hx h1
          by_cases h2 : team.members.isEmpty = true
          · exact List.isEmpty_iff.mp h2
          · have h2f : team.members.isEmpty = false := by
              cases hx : team.members.isEmpty
              · rfl
              · exact absurd hx h2
            simp [applyOp, SessionService.addTeam, hss, ht, h1f, h2f] at hs
  case removeTeam s t =>
    intro r hr
    cases hss : lookupA db.sessions s with
    | none => simp [applyOp, SessionService.removeTeam, hss] at hs
    | some sess =>
      by_cases hin : hasKey sess.teams t = true
      · cases ht : lookupA db.teams t with
        | none => rw [ht] at hr; cases hr
        | some team =>
          rw [ht] at hr
          have hrt := Option.some.inj hr
          subst hrt
          by_cases h2 : team.members.isEmpty = true
          · exact List.isEmpty_iff.mp h2
          · have h2f : team.members.isEmpty = false := by
              cases hx : team.members.isEmpty
              · rfl
              · exact absurd hx h2
            simp [applyOp, SessionService.removeTeam, hss, hin, ht, h2f] at hs
      · have hni : hasKey sess.teams t = false := by
          cases hx : hasKey sess.teams t
          · rfl
          · exact absurd hx hin
        simp [applyOp, SessionService.removeTeam, hss, hni] at hs
  case removeArtifact s a =>
    obtain ⟨lu, ls, lt, la⟩ := db
    cases hss : lookupA ls s with
    | none => simp [applyOp, SessionService.removeArtifact, hss] at hs
    | some ssS =>
      cases harts : ssS.artifacts with
      | none => simp [applyOp, SessionService.removeArtifact, hss, harts] at hs
      | some arts =>
        by_cases hin : hasKey arts a = true
        · by_cases hsc : ssS.participants.any (fun p => foundNode ⟨lu, ls, lt, la⟩ p.1 s a) = true
          · simp [applyOp, SessionService.removeArtifact, hss, harts, hin, hsc] at hs
          · have hscan : ssS.participants.any (fun p => foundNode ⟨lu, ls, lt, la⟩ p.1 s a) = false := by
              cases hx : ssS.participants.any (fun p => foundNode ⟨lu, ls, lt, la⟩ p.1 s a)
              · rfl
              · exact absurd hx hsc
            intro u0
            cases hfu : userFound ⟨lu, ls, lt, la⟩ u0 s a with
            | false => rfl
            | true =>
              exfalso
              have hj := userFound_isSome hfu
              have hp := (hI.i1 u0 s).mp hj
              simp only [participantEntry_set, hss] at hp
              cases hk : lookupA ssS.participants u0 with
              | none => rw [hk] at hp; simp at hp
              | some v =>
                have hmem := lookupA_mem hk
                have hany : ssS.participants.any (fun p => foundNode ⟨lu, ls, lt, la⟩ p.1 s a) = true := by
                  refine List.any_eq_true.mpr ⟨(u0, v), hmem, ?_⟩
                  show foundNode ⟨lu, ls, lt, la⟩ u0 s a = true
                  exact hfu
                rw [hscan] at hany
                exact Bool.noConfusion hany
        · have hni : hasKey arts a = false := by
            cases hx : hasKey arts a
            · rfl
            · exact absurd hx hin
          simp [applyOp, SessionService.removeArtifact, hss, harts, hni] at hs
  case deleteArtifact a =>
    obtain ⟨lu, ls, lt, la⟩ := db
    intro s0
    cases ha : lookupA la a with
    | none => simp [applyOp, ArtifactService.deleteArtifact, ha] at hs
    | some ar =>
      by_cases hse : ls.isEmpty = true
      · rw [sessionArtifactsHas_set, lookupA_isEmpty hse]
      · have hsef : ls.isEmpty = false := by
          cases hx : ls.isEmpty
          · rfl
          · exact absurd hx hse
        cases hsc : ArtifactService.scanSessionsForArtifact a ls with
        | error e => simp [applyOp, ArtifactService.deleteArtifact, ha, hsef, hsc] at hs
        | ok v =>
          cases hls : lookupA ls s0 with
          | none => simp [sessionArtifactsHas_set, hls]
          | some ss =>
            obtain ⟨arts, harts, hk⟩ :=
              scanSessionsForArtifact_ok_mem hsc (s0, ss) (lookupA_mem hls)
            simp only [sessionArtifactsHas_set, hls]
            rw [harts]
            exact hk
  case addFoundArtifact u s a now =>
    cases hu : lookupA db.users u with
    | none => simp [applyOp, UserService.addFoundArtifact, hu] at hs
    | some user =>
      by_cases hsj : (lookupA user.sessionsJoined s).isNone = true
      · simp [applyOp, UserService.addFoundArtifact, hu, hsj] at hs
      · by_cases hae : artifactNodeExists db s a = true
        · exact hae
        · have haf : artifactNodeExists db s a = false := by
            cases hx : artifactNodeExists db s a
            · rfl
            · exact absurd hx hae
          have hsjf : (lookupA user.sessionsJoined s).isNone = false := by
            cases hx : (lookupA user.sessionsJoined s).isNone
            · rfl
            · exact absurd hx hsj
          simp [applyOp, UserService.addFoundArtifact, hu, hsjf, haf] at hs

/-- C1 (amended): from the empty store, along every sequence of valid
operations other than the two `TeamService` membership writers
(`addMember`/`removeMember`), each completing without error, the data-model
invariants 1-5 of §3 hold after every step — the state invariants 1-4
directly, and the operational contents of invariants 3-5 as the
`TransitionOK` certificate carried by any operation that completes from the
reached store (including `deleteArtifact`, whose certificate is invariant
4's "no session still references the deleted artifact").  `Op` enumerates
all 37 mutating service methods, so the only operations outside the
quantifier are the two excluded ones, covering the remaining 35.  The
restriction is necessary: `c1_addMember_breaks_invariant2`
shows the claim as stated, which includes `TeamService.addMember`, is false,
since that method updates only the team's member set and the session's
participant map, never `users/u/sessionsJoined/s/teamId`. -/
theorem invariants_preserved_without_team_membership_ops :
    ∀ db : DB, ReachOK db →
      SpecInvariants db ∧
        ∀ op db2, applyOp op db = (Except.ok (), db2) → TransitionOK db op :=
  fun _ hr =>
    ⟨(reachOK_indInv hr).spec, fun _ _ hs => step_transitionOK (reachOK_indInv hr) hs⟩

/-- C1 counterexample: the valid sequence `c1CexOps` (create a user, a
session and a team, attach the team, enrol the user, then
`TeamService.addMember`) completes without error, yet the final store has
`Team(t1).members[u1]` true and `Session(s1).participants[u1] == t1` while
`users/u1/sessionsJoined/s1/teamId` is still absent — invariant 2's three-way
correspondence is broken, refuting the claim for sequences that include
`addMember`. -/
theorem c1_addMember_breaks_invariant2 :
    c1CexOps.all Op.validB = true ∧
    (runSeq c1CexOps emptyDB).isSome = true ∧
    teamHasMember c1CexDB "t1" "u1" = true ∧
    participantEntry c1CexDB "s1" "u1" = some "t1" ∧
    userTeamId c1CexDB "u1" "s1" = none ∧
    ¬ SpecInvariants c1CexDB := by
  refine ⟨by decide, by decide, by decide, by decide, by decide, ?_⟩
  intro hsp
  have h2 := (hsp.2.1 "u1" "s1" "t1" (by decide)).mpr ⟨by decide, by decide⟩
  exact absurd h2 (by decide)

theorem invariants_preserved_without_team_membership_ops_witness :
    SpecInvariants c1WitnessDB ∧
      ∀ op db2, applyOp op c1WitnessDB = (Except.ok (), db2) →
        TransitionOK c1WitnessDB op :=
  invariants_preserved_without_team_membership_ops c1WitnessDB
    (ReachOK.step emptyDB c1WitnessDB (Op.createUser "u1" 0) (by decide) (by decide)
      (by decide) ReachOK.init)

end Hunt
